import Mathlib

/-! Session and pairing engine of the confession bot (main.go).

A shallow embedding of the blind-pairing matchmaker, the end-chat handler, the
report ledger, the cleanup sweeps, the profile and admin-contact steps of the
session state machine, the dispatch of `handleMessage` on the cancel token, the
voice anonymizer, the forwarding of blind-chat messages, the text-confession
branch and the deep links of the start command of `main.go`, followed by the
properties proved about them.

Conventions of the embedding.

* Go `int64` / `int` values are `Int`; no handler here does arithmetic that can
  overflow except the report counter increment, which is kept as `+ 1`.
* A Go `map[int64]T` is a function `Int → Option T` (`none` = key absent);
  `reports` is read through Go's zero default, so it is `Int → Int`.
* The SQLite store is the record `Store`; a query that finds no row or cannot
  scan it yields `none`.  Where a handler reacts to a failed statement, the
  outcome of the statement is a Boolean argument of the handler.
* Every handler returns the new state together with the list of messages it
  hands to the transport, in program order.  Keyboards (`activeKeyboards`) and
  the wording of messages are presentation and are not part of the state.
* A handler that can panic (nil session, failed type assertion) returns an
  `Option`, with `none` for the panic.
-/

namespace ConfessionBot

/-! ## Data model -/

/-- Go struct `BlindProfile` (main.go 88-99), without `CreatedAt`. -/
structure BlindProfile where
  UserID : Int
  Gender : String
  Age : Int
  YearsOnCampus : Int
  YearOfStudy : String
  PrefGender : String
  PrefAgeMin : Int
  PrefAgeMax : Int
  ProfileSet : Bool
  deriving DecidableEq, Repr

/-- Go struct `BlindChatPair` (main.go 48-52). -/
structure BlindChatPair where
  PartnerID : Int
  PartnerUsername : String
  PartnerName : String
  deriving DecidableEq, Repr

/-! ## Compatibility (main.go 1855-1889) -/

/-- Go `isGenderCompatible`: the switch on `p1.PrefGender`. -/
def isGenderCompatible (p1 p2 : BlindProfile) : Bool :=
  if p1.PrefGender = "male" then decide (p2.Gender = "male")
  else if p1.PrefGender = "female" then decide (p2.Gender = "female")
  else if p1.PrefGender = "both" then true
  else false

/-- Go `isAgeCompatible`. -/
def isAgeCompatible (p1 p2 : BlindProfile) : Bool :=
  decide (p2.Age ≥ p1.PrefAgeMin) && decide (p2.Age ≤ p1.PrefAgeMax)

/-- Go `areProfilesCompatible`. -/
def areProfilesCompatible (p1 p2 : BlindProfile) : Bool :=
  if p1.Gender = p2.Gender then false
  else if !isGenderCompatible p1 p2 || !isGenderCompatible p2 p1 then false
  else if !isAgeCompatible p1 p2 || !isAgeCompatible p2 p1 then false
  else true

/-- The acceptance relation as the specification words it: a preference accepts
a gender iff it is "both", or it is "male" or "female" and equals the gender. -/
def prefAccepts (pref gender : String) : Prop :=
  pref = "both" ∨ ((pref = "male" ∨ pref = "female") ∧ pref = gender)

instance (pref gender : String) : Decidable (prefAccepts pref gender) := by
  unfold prefAccepts; infer_instance

/-- User A of the specification scenario: male, 22, prefers both, ages 18-30. -/
def profileA : BlindProfile :=
  { UserID := 1, Gender := "male", Age := 22, YearsOnCampus := 2,
    YearOfStudy := "2nd Year", PrefGender := "both", PrefAgeMin := 18,
    PrefAgeMax := 30, ProfileSet := true }

/-- User B of the specification scenario: female, 24, prefers male, ages 20-28. -/
def profileB : BlindProfile :=
  { UserID := 2, Gender := "female", Age := 24, YearsOnCampus := 3,
    YearOfStudy := "3rd Year", PrefGender := "male", PrefAgeMin := 20,
    PrefAgeMax := 28, ProfileSet := true }

/-- User C of the specification scenario: male, otherwise a perfect match for A. -/
def profileC : BlindProfile :=
  { UserID := 3, Gender := "male", Age := 23, YearsOnCampus := 1,
    YearOfStudy := "1st Year", PrefGender := "both", PrefAgeMin := 18,
    PrefAgeMax := 50, ProfileSet := true }

/-! ## Process state (main.go 30-45) and the persistence collaborator -/

/-- A value held in a session's scratch map (`map[string]interface{}`): the
handlers only ever store Go strings and ints. -/
inductive Value
  | str (s : String)
  | int (n : Int)
  deriving DecidableEq, Repr

/-- The keys that the handlers of main.go store in `UserState.Data` (lines 1596,
1661, 1691, 1732, 1771, 1807, 1831).  No statement stores any other key, so a
lookup of another key, such as "username" at lines 1897 and 1903, yields nil. -/
inductive DataKey
  | gender
  | age
  | years_on_campus
  | year_of_study
  | pref_gender
  | pref_age_min
  | pref_age_max
  deriving DecidableEq, Repr

/-- Go struct `UserState` (main.go 30-34); `LastActive` in nanoseconds. -/
structure UserState where
  Step : String
  Data : DataKey → Option Value
  LastActive : Int

/-- A row of table `users` as far as these handlers read or write it.  `saveUser`
always inserts Go strings for the two names; `gender` is NULL until chosen. -/
structure UserRow where
  username : String
  first_name : String
  gender : Option String
  banned : Int
  admin_contact_allowed : Int := 1
  deriving DecidableEq, Repr

/-- A row of table `reports` (main.go 3011-3014). -/
structure ReportRow where
  reporter_id : Int
  reported_id : Int
  reason : String
  context : String
  deriving DecidableEq, Repr

/-- A row of table `admin_contacts` (main.go 243-250); `created_at` is the time
of the insert. -/
structure AdminContactRow where
  user_id : Int
  message : String
  created_at : Int
  deriving DecidableEq, Repr

/-- A row of table `confessions` (main.go 176-187) as `saveTextConfession`
writes it: the text, the type and the defaults of the moderation columns. -/
structure ConfessionRow where
  id : Int
  user_id : Int
  text : String
  type : String
  approved : Int := 0
  deriving DecidableEq, Repr

/-- The SQLite store: the tables the pairing, report, profile, admin-contact and
text-confession handlers touch. -/
structure Store where
  users : Int → Option UserRow
  blind_profiles : Int → Option BlindProfile
  reports : List ReportRow
  admin_contacts : List AdminContactRow := []
  confessions : List ConfessionRow := []

/-- The package-level variables of main.go 36-45 that these handlers use,
together with the store. -/
structure State where
  waitingUser : Int
  pairs : Int → Option BlindChatPair
  reports : Int → Int
  userStates : Int → Option UserState
  db : Store

/-- Go `m[k] = v` on a map keyed by user id. -/
def mapSet {V : Type} (m : Int → Option V) (k : Int) (v : V) : Int → Option V :=
  fun x => if x = k then some v else m x

/-- Go `delete(m, k)` on a map keyed by user id. -/
def mapDelete {V : Type} (m : Int → Option V) (k : Int) : Int → Option V :=
  fun x => if x = k then none else m x

/-- Go `adminGroupID` (main.go 25). -/
def adminGroupID : Int := -1003206729690

/-- The messages of `handleTextConfessionButton` and of `handleConfessionContent`
after its cancel test. -/
inductive ConfessionNotice
  | textPrompt -- "Text Confession ... Min 10 characters, Max 2000 characters" (1363)
  | tooShort -- "Too Short ... at least 10 characters." (1469)
  | tooLong -- "Too Long ... under 2000 characters." (1476)
  | saveFailed -- "Error ... Failed to save confession." (1485)
  | newTextConfession (confessionID userID : Int) (text : String) -- "NEW TEXT CONFESSION" (2351)
  | submitted (confessionType : String) -- `sendConfessionSubmittedMessage` (1493)
  | invalidContentVoice -- "Invalid Content ... Please send a voice message." (1503)
  | invalidContentText -- "Invalid Content ... Please send text." (1507)
  deriving DecidableEq, Repr

/-- What `handleBlindChatMessage` sends (main.go 2540-2613); `label` is the
user name put into the caption. -/
inductive ChatItem
  | text (label text : String) -- "From %s:" and the text (2540)
  | voiceTooLong -- "Voice too long" (2548)
  | voice (fileID label : String) -- a voice note, "Voice from %s" (2560, 2567, 2574)
  | voiceTip -- "Tip: Voice messages are anonymized for privacy" (2581)
  | photo (fileID label caption : String) -- "Photo from %s" (2589)
  | document (fileID label : String) -- "File from %s" (2603)
  | sticker (fileID : String) -- (2611)
  deriving DecidableEq, Repr

/-- One outbound message of the confession handlers. -/
structure ConfessionSent where
  chat : Int
  notice : ConfessionNotice
  deriving DecidableEq, Repr

/-- One outbound message of `handleBlindChatMessage`. -/
structure ChatSent where
  chat : Int
  item : ChatItem
  deriving DecidableEq, Repr

/-- The messages these handlers send, named after their headings. -/
inductive Notice
  | genderRequired -- "Gender Required" (1540)
  | profileAgePrompt (gender : String) -- "Step 1 of 6: What is your age?" (1600)
  | alreadyConnected -- "Already Connected" (1558)
  | findingMatch (prefGender : String) (ageMin ageMax : Int) (year : String) -- (1571)
  | connectionMade (name : String) -- "Connection Made!" (1935)
  | searchCancelled -- "Search Cancelled", end-chat handler (822)
  | notInChat -- "Not in Chat" (828)
  | chatEnded (partner : String) -- "Chat Ended", to the caller (855)
  | partnerLeft (partner : String) -- "Chat Ended ... has left the chat" (863)
  | searchCancelledButton -- "Search cancelled", cancel-search button (386)
  | notSearching -- "Not searching" (391)
  | callbackError -- callback answer "Error" (2986)
  | callbackNotInChat -- callback answer "You're not in a chat" (2997)
  | callbackInvalidUser -- callback answer "Invalid user to report" (3003)
  | callbackErrorSaving -- callback answer "Error saving report" (3018)
  | reportSubmitted (reported reason : String) (count : Int) -- "Report Submitted" (3030)
  | partnerRemoved (partner : String) -- "Chat Ended ... has been removed" (3076)
  | autoBanned (reported : Int) (username reason : String) -- "USER AUTO-BANNED" (3046)
  | reportReceived -- edit of the report message, "Report Received" (3059)
  | callbackSubmitted -- callback answer "Report submitted" (3064)
  | profileCancelled -- "Cancelled ... Profile creation cancelled." (1647, 1677, 1709, 1750, 1789)
  | invalidAge -- "Invalid age ... between 18 and 50" (1655)
  | ageSaved -- "Age saved ... Step 2 of 6" (1664)
  | invalidYears -- "Invalid years ... (0-10)" (1685)
  | yearsSaved -- "Years saved ... Step 3 of 6" (1696)
  | invalidYear -- "Please select a valid year" (1726)
  | yearSaved -- "Year saved ... Step 4 of 6" (1737)
  | invalidPreference -- "Please select a valid preference" (1765)
  | preferenceSaved -- "Preference saved ... Step 5 of 6" (1776)
  | invalidMinAge -- "Invalid age ... (18-50)" (1801)
  | minAgeSaved (minAge : Int) -- "Min age: ... Now enter maximum age" (1808)
  | invalidMaxNumber -- "Invalid age ... Please enter a valid number." (1817)
  | invalidRange (minAge : Int) -- "Invalid range ... between min and 50" (1825)
  | noProfileFound -- "No Profile Found" (2440)
  | profileSummary (profile : BlindProfile) -- "YOUR CONNECTION PROFILE" (2459)
  | rateLimited -- "Rate Limited" (1975)
  | adminContactPrompt -- "Contact Admin ... write your message below" (1990)
  | adminContactCancelled -- "Cancelled ... Admin contact cancelled." (2010)
  | adminContactFailed -- "Error ... Failed to send message." (2021)
  | adminMessage (userID : Int) (username text : String) -- "ADMIN MESSAGE" (2026)
  | adminMessageSent -- "Message Sent" (2040)
  | genderSelectionPrompt -- "WELCOME ... please select your gender" (462)
  | accountRestricted -- "Your account has been restricted." (299)
  | commentsPrivateOnly -- "Please send comments in private chat only" (1228)
  | commentCancelled -- "Comment cancelled ... Returned to main menu." (1237)
  | confessionCancelled -- "Cancelled ... Confession cancelled." (984, 1406)
  | operationCancelled -- "Cancelled ... Operation cancelled." (991)
  | commentCancelledButton -- "Cancelled ... Comment cancelled." (998)
  | returnedToMainMenu -- "Returned to main menu" (1005)
  deriving DecidableEq, Repr

/-- One outbound message: the chat (or, for a callback answer, the user whose
callback is answered) and what is sent. -/
structure Sent where
  chat : Int
  notice : Notice
  deriving DecidableEq, Repr

/-- Go `getUserGender` (main.go 2306-2313): an error when there is no row or the
column is NULL. -/
def getUserGender (db : Store) (userID : Int) : Option String :=
  match db.users userID with
  | none => none
  | some row => row.gender

/-- Go `getBlindProfile` (main.go 2410-2435): `none` is the error result. -/
def getBlindProfile (db : Store) (userID : Int) : Option BlindProfile :=
  db.blind_profiles userID

/-- The query `SELECT username, first_name FROM users WHERE user_id = ?` scanned
into two strings that start empty (main.go 1900, 1906). -/
def queryNames (db : Store) (userID : Int) : String × String :=
  match db.users userID with
  | none => ("", "")
  | some row => (row.username, row.first_name)

/-- Go `banUser` (main.go 3085-3087): `UPDATE users SET banned = 1`. -/
def banUser (db : Store) (userID : Int) : Store :=
  match db.users userID with
  | none => db
  | some row => { db with users := mapSet db.users userID { row with banned := 1 } }

/-- `30*time.Minute` in nanoseconds. -/
def thirtyMinutes : Int := 30 * 60 * 1000000000

/-! ## Matchmaker (main.go 1536-1612, 1841-1853, 1891-1969) -/

/-- Go `startProfileCreation`. -/
def startProfileCreation (now : Int) (s : State) (userID chatID : Int) (gender : String) :
    State × List Sent :=
  let st : UserState :=
    { Step := "profile_age"
      Data := fun k => if k = DataKey.gender then some (Value.str gender) else none
      LastActive := now }
  ({ s with userStates := mapSet s.userStates userID st },
   [{ chat := chatID, notice := Notice.profileAgePrompt gender }])

/-- Go `findMatchingPartner`; 0 means no partner. -/
def findMatchingPartner (s : State) (userID : Int) (profile : BlindProfile) : Int :=
  if s.waitingUser ≠ 0 ∧ s.waitingUser ≠ userID then
    match getBlindProfile s.db s.waitingUser with
    | some waitingProfile =>
      if waitingProfile.ProfileSet then
        if areProfilesCompatible profile waitingProfile then s.waitingUser else 0
      else 0
    | none => 0
  else 0

/-- Go `connectBlindPair`.  `state.Data["username"]` is nil for every session
(see `DataKey`), so both names come from table `users`. -/
def connectBlindPair (s : State) (userID partnerID : Int) : State × List Sent :=
  let userNames := queryNames s.db userID
  let partnerNames := queryNames s.db partnerID
  let userName := userNames.2
  let partnerName := partnerNames.2
  let userUsername := if userNames.1 = "" then userName else userNames.1
  let partnerUsername := if partnerNames.1 = "" then partnerName else partnerNames.1
  let pairs1 := mapSet s.pairs userID
    { PartnerID := partnerID, PartnerUsername := partnerUsername, PartnerName := partnerName }
  let pairs2 := mapSet pairs1 partnerID
    { PartnerID := userID, PartnerUsername := userUsername, PartnerName := userName }
  ({ s with pairs := pairs2, waitingUser := 0 },
   [{ chat := userID, notice := Notice.connectionMade partnerUsername },
    { chat := partnerID, notice := Notice.connectionMade partnerUsername }])

/-- Go `handleBlindDatingCommand`. -/
def handleBlindDatingCommand (now : Int) (s : State) (userID chatID : Int) :
    State × List Sent :=
  match getUserGender s.db userID with
  | none => (s, [{ chat := chatID, notice := Notice.genderRequired }])
  | some gender =>
    match getBlindProfile s.db userID with
    | none => startProfileCreation now s userID chatID gender
    | some profile =>
      if !profile.ProfileSet then startProfileCreation now s userID chatID gender
      else if (s.pairs userID).isSome then
        (s, [{ chat := chatID, notice := Notice.alreadyConnected }])
      else
        let partnerID := findMatchingPartner s userID profile
        if partnerID = 0 then
          ({ s with waitingUser := userID },
           [{ chat := chatID,
              notice := Notice.findingMatch profile.PrefGender profile.PrefAgeMin
                profile.PrefAgeMax profile.YearOfStudy }])
        else connectBlindPair s userID partnerID

/-- The case "Cancel Search" of Go `handleButtonMessage` (main.go 381-394). -/
def handleCancelSearchButton (s : State) (userID chatID : Int) : State × List Sent :=
  if s.waitingUser = userID then
    ({ s with waitingUser := 0 }, [{ chat := chatID, notice := Notice.searchCancelledButton }])
  else (s, [{ chat := chatID, notice := Notice.notSearching }])

/-! ## Ending a chat (main.go 815-870, 3067-3083) -/

/-- Go `handleEndBlindChatButton`. -/
def handleEndBlindChatButton (s : State) (userID chatID : Int) : State × List Sent :=
  match s.pairs userID with
  | none =>
    if s.waitingUser = userID then
      ({ s with waitingUser := 0 }, [{ chat := chatID, notice := Notice.searchCancelled }])
    else (s, [{ chat := chatID, notice := Notice.notInChat }])
  | some partner =>
    ({ s with pairs := mapDelete (mapDelete s.pairs userID) partner.PartnerID },
     [{ chat := userID, notice := Notice.chatEnded partner.PartnerUsername },
      { chat := partner.PartnerID, notice := Notice.partnerLeft partner.PartnerUsername }])

/-- Go `endBlindChatForUser`. -/
def endBlindChatForUser (s : State) (userID : Int) : State × List Sent :=
  match s.pairs userID with
  | some partner =>
    ({ s with pairs := mapDelete (mapDelete s.pairs userID) partner.PartnerID },
     [{ chat := partner.PartnerID, notice := Notice.partnerRemoved partner.PartnerUsername }])
  | none => (s, [])

/-! ## Report ledger (main.go 2984-3065) -/

/-- The query `SELECT username FROM users WHERE user_id = ?` followed by the
default "Unknown" (main.go 3023-3027). -/
def reportedUsernameOf (db : Store) (reportedID : Int) : String :=
  let name := (queryNames db reportedID).1
  if name = "" then "Unknown" else name

/-- Go `handleReportReasonCallback`.  `parts` is the callback data split at ":";
`reportedID` is what `strconv.ParseInt(parts[2], 10, 64)` returned, `reporterID`
is `cb.From.ID`, `chatID` is `cb.Message.Chat.ID`, and `insertOk` tells whether
the `INSERT INTO reports` succeeded. -/
def handleReportReasonCallback (s : State) (parts : List String)
    (reportedID reporterID chatID : Int) (insertOk : Bool) : State × List Sent :=
  match parts with
  | _ :: reason :: _ :: _ =>
    match s.pairs reporterID with
    | none => (s, [{ chat := reporterID, notice := Notice.callbackNotInChat }])
    | some reporterPartner =>
      if reporterPartner.PartnerID ≠ reportedID then
        (s, [{ chat := reporterID, notice := Notice.callbackInvalidUser }])
      else
        let s1 : State :=
          { s with reports := fun x => if x = reportedID then s.reports x + 1 else s.reports x }
        if !insertOk then
          (s1, [{ chat := reporterID, notice := Notice.callbackErrorSaving }])
        else
          let row : ReportRow :=
            { reporter_id := reporterID, reported_id := reportedID, reason := reason,
              context := "Blind chat" }
          let s2 : State := { s1 with db := { s1.db with reports := s1.db.reports ++ [row] } }
          let reportedUsername := reportedUsernameOf s2.db reportedID
          let submitted : Sent :=
            { chat := reporterID,
              notice := Notice.reportSubmitted reportedUsername reason (s2.reports reportedID) }
          let closing : List Sent :=
            [{ chat := chatID, notice := Notice.reportReceived },
             { chat := reporterID, notice := Notice.callbackSubmitted }]
          if s2.reports reportedID ≥ 3 then
            let s3 : State := { s2 with db := banUser s2.db reportedID }
            let ended := endBlindChatForUser s3 reportedID
            (ended.1,
             submitted :: ended.2 ++
               ({ chat := adminGroupID,
                  notice := Notice.autoBanned reportedID reportedUsername reason } :: closing))
          else (s2, submitted :: closing)
  | _ => (s, [{ chat := reporterID, notice := Notice.callbackError }])

/-! ## Cleanup sweep (main.go 3113-3125) -/

/-- Go `cleanupWaitingUsers`, run at time `now`. -/
def cleanupWaitingUsers (now : Int) (s : State) : State :=
  if s.waitingUser ≠ 0 then
    match s.userStates s.waitingUser with
    | some state =>
      if now - state.LastActive > thirtyMinutes then { s with waitingUser := 0 } else s
    | none => { s with waitingUser := 0 }
  else s

/-! ## The pairing engine as a transition system -/

/-- What can happen to the pairing state.  `other` stands for every handler that
is not listed: none of them assigns `waitingUser`, `pairs` or `reports` (the only
assignments in main.go are at lines 383, 819, 836-837, 1568, 1917-1929, 3008,
3069-3070, 3118 and 3122), so all they can change is the sessions and the store. -/
inductive Event
  | blindDating (now userID chatID : Int)
  | cancelSearch (userID chatID : Int)
  | endChat (userID chatID : Int)
  | reportReason (parts : List String) (reportedID reporterID chatID : Int) (insertOk : Bool)
  | sweep (now : Int)
  | other (userStates : Int → Option UserState) (db : Store)

/-- Events come from chat users, whose ids are never 0 (0 is the value main.go
uses for the empty waiting slot). -/
def Event.valid : Event → Prop
  | Event.blindDating _ userID _ => userID ≠ 0
  | Event.cancelSearch userID _ => userID ≠ 0
  | Event.endChat userID _ => userID ≠ 0
  | Event.reportReason _ _ reporterID _ _ => reporterID ≠ 0
  | Event.sweep _ => True
  | Event.other _ _ => True

instance (e : Event) : Decidable e.valid := by
  cases e <;> unfold Event.valid <;> infer_instance

/-- The state after an event. -/
def step (s : State) : Event → State
  | Event.blindDating now userID chatID => (handleBlindDatingCommand now s userID chatID).1
  | Event.cancelSearch userID chatID => (handleCancelSearchButton s userID chatID).1
  | Event.endChat userID chatID => (handleEndBlindChatButton s userID chatID).1
  | Event.reportReason parts reportedID reporterID chatID insertOk =>
    (handleReportReasonCallback s parts reportedID reporterID chatID insertOk).1
  | Event.sweep now => cleanupWaitingUsers now s
  | Event.other userStates db => { s with userStates := userStates, db := db }

/-- The state at start-up: empty maps, empty waiting slot, freshly created tables. -/
def initState : State :=
  { waitingUser := 0
    pairs := fun _ => none
    reports := fun _ => 0
    userStates := fun _ => none
    db := { users := fun _ => none, blind_profiles := fun _ => none, reports := [] } }

/-- The states the process can be in. -/
inductive Reachable : State → Prop
  | init : Reachable initState
  | step (s : State) (e : Event) : Reachable s → e.valid → Reachable (step s e)

/-! ## The specification scenario as concrete states -/

/-- A store holding users A (id 1), B (id 2) and C (id 3) with their profiles. -/
def scenarioStore : Store :=
  { users := fun x =>
      if x = 1 then some { username := "adam", first_name := "Adam", gender := some "male", banned := 0 }
      else if x = 2 then some { username := "beth", first_name := "Beth", gender := some "female", banned := 0 }
      else if x = 3 then some { username := "carl", first_name := "Carl", gender := some "male", banned := 0 }
      else none
    blind_profiles := fun x =>
      if x = 1 then some profileA
      else if x = 2 then some profileB
      else if x = 3 then some profileC
      else none
    reports := [] }

/-- The three users have registered; nobody waits, nobody is paired. -/
def scenarioIdle : State := step initState (Event.other (fun _ => none) scenarioStore)

/-- B (id 2) has asked for a match and waits. -/
def scenarioBWaits : State := step scenarioIdle (Event.blindDating 100 2 2)

/-- C (id 3) has asked for a match and waits. -/
def scenarioCWaits : State := step scenarioIdle (Event.blindDating 100 3 3)

/-- A (id 1) has asked for a match while B waited: A and B are paired. -/
def scenarioPaired : State := step scenarioBWaits (Event.blindDating 200 1 1)

/-- The invariant of the pairing state: the registry is symmetric and
irreflexive, the waiting user is not paired, and id 0 is never paired. -/
def PairingInv (s : State) : Prop :=
  (∀ a p, s.pairs a = some p →
    p.PartnerID ≠ a ∧ ∃ q, s.pairs p.PartnerID = some q ∧ q.PartnerID = a) ∧
  (s.waitingUser ≠ 0 → s.pairs s.waitingUser = none) ∧
  s.pairs 0 = none

/-- Go `isBanned` (main.go 2315-2322): the flag of the user's row is 1. -/
def isBanned (db : Store) (userID : Int) : Bool :=
  match db.users userID with
  | none => false
  | some row => decide (row.banned = 1)

/-! ## Report scenarios -/

/-- The callback data of the "Other" button for target 2, split at ":". -/
def reportPartsB : List String := ["report_reason", "Other", "2"]

/-- A (id 1), paired with B (id 2), has filed one report against B. -/
def scenarioOneReport : State :=
  step scenarioPaired (Event.reportReason reportPartsB 2 1 1 true)

/-- A has filed two reports against B. -/
def scenarioTwoReports : State :=
  step scenarioOneReport (Event.reportReason reportPartsB 2 1 1 true)

/-- A has filed a third report against B, and the `INSERT INTO reports` of that
filing failed. -/
def scenarioThirdInsertFailed : State :=
  step scenarioTwoReports (Event.reportReason reportPartsB 2 1 1 false)

/-! ## Session state machine: the profile flow (main.go 1614-1839) -/

/-- The cancel token that every flow recognises. -/
def cancelToken : String := "❌ Cancel"

/-- Go `strconv.Atoi` on a 64-bit platform: an optional sign followed by one or
more ASCII digits, with a range error outside `int64`; `none` is a non-nil
error. -/
def Atoi (s : String) : Option Int :=
  let cs := s.toList
  let negative := cs.head? = some '-'
  let body := if cs.head? = some '-' ∨ cs.head? = some '+' then cs.tail else cs
  if body = [] then none
  else if body.all (fun c => decide (48 ≤ c.toNat ∧ c.toNat ≤ 57)) then
    let n : Nat := body.foldl (fun acc c => 10 * acc + (c.toNat - 48)) 0
    let v : Int := if negative then -(n : Int) else (n : Int)
    if -9223372036854775808 ≤ v ∧ v ≤ 9223372036854775807 then some v else none
  else none

/-- Go `state.Data[key] = value`. -/
def dataSet (data : DataKey → Option Value) (key : DataKey) (value : Value) :
    DataKey → Option Value :=
  fun k => if k = key then some value else data k

/-- The two assignments that accept a field: `Data[key] = value` and
`Step = next` on the session (main.go 1661-1662, 1691-1692, 1732-1733,
1771-1772). -/
def storeAndAdvance (st : UserState) (key : DataKey) (value : Value) (next : String) :
    UserState :=
  { Step := next, Data := dataSet st.Data key value, LastActive := st.LastActive }

/-- The five labels of `validYears` (main.go 1716). -/
def validYears : List String := ["1st Year", "2nd Year", "3rd Year", "4th Year", "5th+ Year"]

/-- The row that `INSERT OR REPLACE INTO blind_profiles` (main.go 2389-2400)
writes for `data`, as `getBlindProfile` scans it back, when every column holds a
value of the type the flow stores and the CHECK constraints of the table
(main.go 190-203) accept it. -/
def profileRow (userID : Int) (data : DataKey → Option Value) : Option BlindProfile :=
  match data DataKey.gender, data DataKey.age, data DataKey.years_on_campus,
    data DataKey.year_of_study, data DataKey.pref_gender, data DataKey.pref_age_min,
    data DataKey.pref_age_max with
  | some (Value.str g), some (Value.int a), some (Value.int y), some (Value.str yr),
    some (Value.str pg), some (Value.int mn), some (Value.int mx) =>
    if (g = "male" ∨ g = "female") ∧ 18 ≤ a ∧ a ≤ 50 ∧ 0 ≤ y ∧
        (pg = "male" ∨ pg = "female" ∨ pg = "both") ∧ 18 ≤ mn ∧ mx ≤ 50 then
      some { UserID := userID, Gender := g, Age := a, YearsOnCampus := y, YearOfStudy := yr,
             PrefGender := pg, PrefAgeMin := mn, PrefAgeMax := mx, ProfileSet := true }
    else none
  | _, _, _, _, _, _, _ => none

/-- Go `saveBlindProfile` (main.go 2388-2408).  A row that a CHECK constraint
rejects leaves the table as it was (the error is only logged, and the caller
drops it).  Data with a missing or differently typed field is never passed by
the profile flow and is treated like a rejected row. -/
def saveBlindProfile (db : Store) (userID : Int) (data : DataKey → Option Value) : Store :=
  match profileRow userID data with
  | some row => { db with blind_profiles := mapSet db.blind_profiles userID row }
  | none => db

/-- Go `showBlindProfile` (main.go 2437-2493). -/
def showBlindProfile (db : Store) (userID chatID : Int) : List Sent :=
  match getBlindProfile db userID with
  | none => [{ chat := chatID, notice := Notice.noProfileFound }]
  | some profile => [{ chat := chatID, notice := Notice.profileSummary profile }]

/-- The cancel branch shared by the five profile handlers: `delete(userStates,
userID)` and the "Profile creation cancelled" message. -/
def cancelProfile (s : State) (userID chatID : Int) : State × List Sent :=
  ({ s with userStates := mapDelete s.userStates userID },
   [{ chat := chatID, notice := Notice.profileCancelled }])

/-- Go `handleProfileAge`; `none` is a run-time panic (nil session). -/
def handleProfileAge (s : State) (userID chatID : Int) (ageStr : String) :
    Option (State × List Sent) :=
  if ageStr = cancelToken then some (cancelProfile s userID chatID)
  else
    match Atoi ageStr with
    | none => some (s, [{ chat := chatID, notice := Notice.invalidAge }])
    | some age =>
      if age < 18 ∨ age > 50 then some (s, [{ chat := chatID, notice := Notice.invalidAge }])
      else
        match s.userStates userID with
        | none => none
        | some st =>
          some ({ s with
                  userStates := mapSet s.userStates userID
                    (storeAndAdvance st DataKey.age (Value.int age) "profile_years_campus") },
                [{ chat := chatID, notice := Notice.ageSaved }])

/-- Go `handleProfileYearsCampus`; `none` is a run-time panic (nil session). -/
def handleProfileYearsCampus (s : State) (userID chatID : Int) (yearsStr : String) :
    Option (State × List Sent) :=
  if yearsStr = cancelToken then some (cancelProfile s userID chatID)
  else
    match Atoi yearsStr with
    | none => some (s, [{ chat := chatID, notice := Notice.invalidYears }])
    | some years =>
      if years < 0 ∨ years > 10 then
        some (s, [{ chat := chatID, notice := Notice.invalidYears }])
      else
        match s.userStates userID with
        | none => none
        | some st =>
          some ({ s with
                  userStates := mapSet s.userStates userID
                    (storeAndAdvance st DataKey.years_on_campus (Value.int years) "profile_year_study") },
                [{ chat := chatID, notice := Notice.yearsSaved }])

/-- Go `handleProfileYearStudy`; `none` is a run-time panic (nil session). -/
def handleProfileYearStudy (s : State) (userID chatID : Int) (year : String) :
    Option (State × List Sent) :=
  if year = cancelToken then some (cancelProfile s userID chatID)
  else if ¬ year ∈ validYears then
    some (s, [{ chat := chatID, notice := Notice.invalidYear }])
  else
    match s.userStates userID with
    | none => none
    | some st =>
      some ({ s with
              userStates := mapSet s.userStates userID
                (storeAndAdvance st DataKey.year_of_study (Value.str year) "profile_pref_gender") },
            [{ chat := chatID, notice := Notice.yearSaved }])

/-- The switch of `handleProfilePrefGender` (main.go 1756-1769): the stored value
for a button label, `none` for the default case. -/
def prefValueOf (pref : String) : Option String :=
  if pref = "👨 Male Only" then some "male"
  else if pref = "👩 Female Only" then some "female"
  else if pref = "👫 Both Genders" then some "both"
  else none

/-- Go `handleProfilePrefGender`; `none` is a run-time panic (nil session). -/
def handleProfilePrefGender (s : State) (userID chatID : Int) (pref : String) :
    Option (State × List Sent) :=
  if pref = cancelToken then some (cancelProfile s userID chatID)
  else
    match prefValueOf pref with
    | none => some (s, [{ chat := chatID, notice := Notice.invalidPreference }])
    | some prefValue =>
      match s.userStates userID with
      | none => none
      | some st =>
        some ({ s with
                userStates := mapSet s.userStates userID
                  (storeAndAdvance st DataKey.pref_gender (Value.str prefValue) "profile_pref_age") },
              [{ chat := chatID, notice := Notice.preferenceSaved }])

/-- Go `handleProfilePrefAge`; `none` is a run-time panic (nil session, or the
type assertion `state.Data["pref_age_min"].(int)` on a value that is not an
int). -/
def handleProfilePrefAge (s : State) (userID chatID : Int) (ageStr : String) :
    Option (State × List Sent) :=
  if ageStr = cancelToken then some (cancelProfile s userID chatID)
  else
    match s.userStates userID with
    | none => none
    | some st =>
      match st.Data DataKey.pref_age_min with
      | none =>
        match Atoi ageStr with
        | none => some (s, [{ chat := chatID, notice := Notice.invalidMinAge }])
        | some minAge =>
          if minAge < 18 ∨ minAge > 50 then
            some (s, [{ chat := chatID, notice := Notice.invalidMinAge }])
          else
            some ({ s with
                    userStates := mapSet s.userStates userID
                      ({ st with Data := dataSet st.Data DataKey.pref_age_min (Value.int minAge) }) },
                  [{ chat := chatID, notice := Notice.minAgeSaved minAge }])
      | some stored =>
        match Atoi ageStr with
        | none => some (s, [{ chat := chatID, notice := Notice.invalidMaxNumber }])
        | some maxAge =>
          match stored with
          | Value.str _ => none
          | Value.int minAge =>
            if maxAge < minAge ∨ maxAge > 50 then
              some (s, [{ chat := chatID, notice := Notice.invalidRange minAge }])
            else
              let data := dataSet st.Data DataKey.pref_age_max (Value.int maxAge)
              let db := saveBlindProfile s.db userID data
              some ({ s with db := db, userStates := mapDelete s.userStates userID },
                    showBlindProfile db userID chatID)

/-! ## Admin contact (main.go 1972-2048, 2495-2525) -/

/-- The parts of a Telegram message that the session engine reads. -/
structure Message where
  fromID : Int
  fromUserName : String
  fromFirstName : String
  chatID : Int
  text : String
  isCommand : Bool
  command : String
  deriving DecidableEq, Repr

/-- Go `canContactAdmin`: a failed query counts as allowed. -/
def canContactAdmin (db : Store) (userID : Int) : Bool :=
  match db.users userID with
  | none => true
  | some row => decide (row.admin_contact_allowed = 1)

/-- Go `saveAdminContact` at time `now`; `insertOk` and `updateOk` tell whether
the INSERT and the UPDATE succeeded.  The Boolean is `err == nil`. -/
def saveAdminContact (db : Store) (now userID : Int) (message : String)
    (insertOk updateOk : Bool) : Store × Bool :=
  if !insertOk then (db, false)
  else
    let db1 : Store :=
      { db with admin_contacts := db.admin_contacts ++
          [{ user_id := userID, message := message, created_at := now }] }
    if !updateOk then (db1, false)
    else
      match db1.users userID with
      | none => (db1, true)
      | some row =>
        ({ db1 with users := mapSet db1.users userID { row with admin_contact_allowed := 0 } },
         true)

/-- Go `startAdminContact`. -/
def startAdminContact (now : Int) (s : State) (userID chatID : Int) : State × List Sent :=
  if !canContactAdmin s.db userID then
    (s, [{ chat := chatID, notice := Notice.rateLimited }])
  else
    let st : UserState := { Step := "admin_contact", Data := fun _ => none, LastActive := now }
    ({ s with userStates := mapSet s.userStates userID st },
     [{ chat := chatID, notice := Notice.adminContactPrompt }])

/-- Go `handleAdminContactMessage`. -/
def handleAdminContactMessage (now : Int) (s : State) (userID chatID : Int) (msg : Message)
    (insertOk updateOk : Bool) : State × List Sent :=
  if msg.text = cancelToken then
    ({ s with userStates := mapDelete s.userStates userID },
     [{ chat := chatID, notice := Notice.adminContactCancelled }])
  else
    let saved := saveAdminContact s.db now userID msg.text insertOk updateOk
    let s1 : State := { s with userStates := mapDelete s.userStates userID, db := saved.1 }
    if !saved.2 then (s1, [{ chat := chatID, notice := Notice.adminContactFailed }])
    else
      (s1, [{ chat := adminGroupID,
              notice := Notice.adminMessage userID msg.fromUserName msg.text },
            { chat := chatID, notice := Notice.adminMessageSent }])

/-- Go `handleUserState`; `none` is a run-time panic inside a step handler. -/
def handleUserState (now : Int) (s : State) (userID chatID : Int) (msg : Message)
    (insertOk updateOk : Bool) : Option (State × List Sent) :=
  match s.userStates userID with
  | none => some (s, [])
  | some state =>
    if state.Step = "profile_age" then handleProfileAge s userID chatID msg.text
    else if state.Step = "profile_years_campus" then
      handleProfileYearsCampus s userID chatID msg.text
    else if state.Step = "profile_year_study" then
      handleProfileYearStudy s userID chatID msg.text
    else if state.Step = "profile_pref_gender" then
      handleProfilePrefGender s userID chatID msg.text
    else if state.Step = "profile_pref_age" then handleProfilePrefAge s userID chatID msg.text
    else if state.Step = "admin_contact" then
      some (handleAdminContactMessage now s userID chatID msg insertOk updateOk)
    else some (s, [])

/-- The first statements of `handleMessage` that touch the session (main.go
277-286): create an idle session if there is none, then stamp `LastActive`. -/
def touchSession (now : Int) (s : State) (userID : Int) : State :=
  let st : UserState :=
    match s.userStates userID with
    | some st => st
    | none => { Step := "idle", Data := fun _ => none, LastActive := now }
  { s with userStates := mapSet s.userStates userID { st with LastActive := now } }

/-- The state a handler leaves behind; a panic (`none`) ends the process and
leaves nothing new. -/
def resultState (s : State) (r : Option (State × List Sent)) : State :=
  match r with
  | some x => x.1
  | none => s

/-- The states the session engine can be in.  Every statement of main.go that
writes `userStates` is one of the constructors: lazy creation and the activity
stamp (277-286), `startProfileCreation` through `handleBlindDatingCommand`
(1589-1596), the step handlers through `handleUserState` (1644-1835, 2007,
2016), `startAdminContact` (1982), and the removals of `handleCancelButton`
(988) and `cleanupOldStates` (3107).  `frame` stands for every other handler:
it may change anything but `userStates`. -/
inductive FlowReachable : State → Prop
  | init : FlowReachable initState
  | frame (s t : State) : FlowReachable s → t.userStates = s.userStates → FlowReachable t
  | touch (s : State) (now userID : Int) : FlowReachable s →
      FlowReachable (touchSession now s userID)
  | blindDating (s : State) (now userID chatID : Int) : FlowReachable s →
      FlowReachable (handleBlindDatingCommand now s userID chatID).1
  | userState (s : State) (now userID chatID : Int) (msg : Message) (insertOk updateOk : Bool) :
      FlowReachable s →
      FlowReachable (resultState s (handleUserState now s userID chatID msg insertOk updateOk))
  | adminContact (s : State) (now userID chatID : Int) : FlowReachable s →
      FlowReachable (startAdminContact now s userID chatID).1
  | removed (s : State) (keep : Int → Bool) : FlowReachable s →
      FlowReachable { s with userStates := fun u => if keep u then s.userStates u else none }

/-- The position of a step in the profile sequence `age → years_on_campus →
year_of_study → pref_gender → pref_age`. -/
def profileStage (step : String) : Option Nat :=
  if step = "profile_age" then some 0
  else if step = "profile_years_campus" then some 1
  else if step = "profile_year_study" then some 2
  else if step = "profile_pref_gender" then some 3
  else if step = "profile_pref_age" then some 4
  else none

/-- The scratch data holds a gender. -/
def HasGender (d : DataKey → Option Value) : Prop :=
  ∃ g, d DataKey.gender = some (Value.str g)

/-- The scratch data holds an age in [18,50]. -/
def AgeOk (d : DataKey → Option Value) : Prop :=
  ∃ a, d DataKey.age = some (Value.int a) ∧ 18 ≤ a ∧ a ≤ 50

/-- The scratch data holds years on campus in [0,10]. -/
def YearsOk (d : DataKey → Option Value) : Prop :=
  ∃ y, d DataKey.years_on_campus = some (Value.int y) ∧ 0 ≤ y ∧ y ≤ 10

/-- The scratch data holds one of the five year labels. -/
def YearOk (d : DataKey → Option Value) : Prop :=
  ∃ l, d DataKey.year_of_study = some (Value.str l) ∧ l ∈ validYears

/-- The scratch data holds a preferred gender among male, female, both. -/
def PrefOk (d : DataKey → Option Value) : Prop :=
  ∃ p, d DataKey.pref_gender = some (Value.str p) ∧ (p = "male" ∨ p = "female" ∨ p = "both")

/-- A stored preferred minimum age, if any, is an int in [18,50]. -/
def MinOk (d : DataKey → Option Value) : Prop :=
  ∀ v, d DataKey.pref_age_min = some v → ∃ m, v = Value.int m ∧ 18 ≤ m ∧ m ≤ 50

/-- What a session in the profile flow holds at its step: the gender from the
start, and the validated field of every step already passed. -/
def SessionInv (st : UserState) : Prop :=
  ∀ i, profileStage st.Step = some i →
    HasGender st.Data ∧ MinOk st.Data ∧ (1 ≤ i → AgeOk st.Data) ∧ (2 ≤ i → YearsOk st.Data) ∧
    (3 ≤ i → YearOk st.Data) ∧ (4 ≤ i → PrefOk st.Data)

/-- The property of the persisted data that the specification asks for: all
seven fields, each within its range. -/
def ValidProfileData (d : DataKey → Option Value) : Prop :=
  HasGender d ∧ AgeOk d ∧ YearsOk d ∧ YearOk d ∧ PrefOk d ∧
  ∃ m M, d DataKey.pref_age_min = some (Value.int m) ∧
    d DataKey.pref_age_max = some (Value.int M) ∧ 18 ≤ m ∧ m ≤ M ∧ M ≤ 50

/-- The successor of a step in the profile sequence; after `profile_pref_age`
the flow is done and the session is removed. -/
def nextProfileStep (step : String) : Option String :=
  if step = "profile_age" then some "profile_years_campus"
  else if step = "profile_years_campus" then some "profile_year_study"
  else if step = "profile_year_study" then some "profile_pref_gender"
  else if step = "profile_pref_gender" then some "profile_pref_age"
  else none

/-! ## A run of the profile flow as concrete states -/

/-- A store in which user 4 has chosen a gender and has no profile yet. -/
def flowStore : Store :=
  { users := fun x =>
      if x = 4 then
        some { username := "dana", first_name := "Dana", gender := some "female", banned := 0 }
      else none
    blind_profiles := fun _ => none
    reports := [] }

/-- A plain text message of user 4 in the private chat. -/
def flowText (text : String) : Message :=
  { fromID := 4, fromUserName := "dana", fromFirstName := "Dana", chatID := 4, text := text,
    isCommand := false, command := "" }

/-- User 4 has asked for a blind connection: the flow is at `profile_age`. -/
def flowStart : State :=
  (handleBlindDatingCommand 10 { initState with db := flowStore } 4 4).1

/-- After the age "22". -/
def flowAge : State :=
  resultState flowStart (handleUserState 20 flowStart 4 4 (flowText "22") true true)

/-- After the years on campus "3". -/
def flowYears : State :=
  resultState flowAge (handleUserState 30 flowAge 4 4 (flowText "3") true true)

/-- After the year of study "2nd Year". -/
def flowYear : State :=
  resultState flowYears (handleUserState 40 flowYears 4 4 (flowText "2nd Year") true true)

/-- After the preference "👫 Both Genders". -/
def flowPref : State :=
  resultState flowYear (handleUserState 50 flowYear 4 4 (flowText "👫 Both Genders") true true)

/-- After the minimum age "20". -/
def flowMin : State :=
  resultState flowPref (handleUserState 60 flowPref 4 4 (flowText "20") true true)

/-- The session of user 4 in `flowStart`. -/
def flowStartSession : UserState :=
  { Step := "profile_age"
    Data := fun k => if k = DataKey.gender then some (Value.str "female") else none
    LastActive := 10 }

/-- The session of user 4 in `flowMin`: step `profile_pref_age`, minimum 20
stored. -/
def flowMinSession : UserState := (flowMin.userStates 4).getD flowStartSession

/-- Every session of the map satisfies `SessionInv`. -/
def SessionsInv (m : Int → Option UserState) : Prop :=
  ∀ u st, m u = some st → SessionInv st

/-! ## Message dispatch (main.go 262-341) and the cancel token -/

/-- Go struct `CommentData` (main.go 55-63). -/
structure CommentData where
  ConfessionID : Int
  MessageID : Int
  ConfessionText : String
  UserID : Int
  Username : String
  WaitingForComment : Bool
  IsViewingComments : Bool
  deriving DecidableEq, Repr

/-- All the package-level state of the session engine: the pairing state with
sessions and store, and the two maps `confessionWaiting` and `commentWaiting`
(main.go 41-42). -/
structure Bot where
  core : State
  confessionWaiting : Int → Option String
  commentWaiting : Int → Option CommentData

/-- The handlers (or remainders of handlers) that `handleMessage` can pass
control to and that are not embedded here. -/
inductive Target
  | handleGenderSelection -- main.go 436
  | handleStartCommand -- main.go 481
  | handleCommand -- main.go 517
  | userCommentContent -- `handleUserComment` after its cancel test, main.go 1243-1285
  | confessionContent (confessionType : String) -- `handleConfessionContent` after its cancel test, 1410-1510
  | buttons -- the cases of `handleButtonMessage` other than "Cancel", then main.go 336-340
  | handleBlindChatMessage -- main.go 2528
  deriving DecidableEq, Repr

/-- The outcome of handling one message: the handler ran to its end, or control
reached a handler that is not embedded (in the state and with the messages
produced so far), or the Go code panicked. -/
inductive Handled
  | finished (b : Bot) (sent : List Sent)
  | handOff (b : Bot) (sent : List Sent) (target : Target)
  | panic

/-- The state in which a handler ended, if it ended. -/
def Handled.bot? : Handled → Option Bot
  | Handled.finished b _ => some b
  | Handled.handOff _ _ _ => none
  | Handled.panic => none

/-- The messages a handler sent, if it ended. -/
def Handled.sent? : Handled → Option (List Sent)
  | Handled.finished _ sent => some sent
  | Handled.handOff _ _ _ => none
  | Handled.panic => none

/-- Go `hasGenderSet` (main.go 2297-2304): the scanned string stays empty when
there is no row or the column is NULL. -/
def hasGenderSet (db : Store) (userID : Int) : Bool :=
  match getUserGender db userID with
  | none => false
  | some gender => decide (gender ≠ "")

/-- Go `saveUser` (main.go 2280-2288), `INSERT OR IGNORE`: a new row only when
the user has none; `insertOk = false` is a failed statement, which is only
logged. -/
def saveUser (db : Store) (msg : Message) (insertOk : Bool) : Store :=
  if !insertOk then db
  else
    match db.users msg.fromID with
    | some _ => db
    | none =>
      let row : UserRow :=
        { username := msg.fromUserName, first_name := msg.fromFirstName, gender := none,
          banned := 0 }
      { db with users := mapSet db.users msg.fromID row }

/-- Go `handleUserComment` up to and including its cancel test (main.go
1226-1241). -/
def handleUserComment (b : Bot) (userID chatID : Int) (msg : Message) : Handled :=
  if chatID ≠ userID then
    Handled.finished b [{ chat := chatID, notice := Notice.commentsPrivateOnly }]
  else if msg.text = cancelToken ∨ msg.text = "🏠 Main Menu" then
    Handled.finished { b with commentWaiting := mapDelete b.commentWaiting userID }
      [{ chat := chatID, notice := Notice.commentCancelled }]
  else Handled.handOff b [] Target.userCommentContent

/-- Go `handleConfessionContent` up to and including its cancel test (main.go
1400-1408). -/
def handleConfessionContent (b : Bot) (userID chatID : Int) (msg : Message)
    (confessionType : String) : Handled :=
  if msg.text = cancelToken then
    Handled.finished { b with confessionWaiting := mapDelete b.confessionWaiting userID }
      [{ chat := chatID, notice := Notice.confessionCancelled }]
  else Handled.handOff b [] (Target.confessionContent confessionType)

/-- The test `confessionType, ok := confessionWaiting[userID]; ok &&
confessionType != ""` (main.go 328, 980). -/
def confessionPending (b : Bot) (userID : Int) : Option String :=
  match b.confessionWaiting userID with
  | some t => if t ≠ "" then some t else none
  | none => none

/-- Go `handleCancelButton` (main.go 978-1009); `panic` when the session is nil
at `userStates[userID].Step`. -/
def handleCancelButton (b : Bot) (userID chatID : Int) : Handled :=
  match confessionPending b userID with
  | some _ =>
    Handled.finished { b with confessionWaiting := mapDelete b.confessionWaiting userID }
      [{ chat := chatID, notice := Notice.confessionCancelled }]
  | none =>
    match b.core.userStates userID with
    | none => Handled.panic
    | some st =>
      if st.Step ≠ "idle" then
        Handled.finished
          { b with core := { b.core with userStates := mapDelete b.core.userStates userID } }
          [{ chat := chatID, notice := Notice.operationCancelled }]
      else if (b.commentWaiting userID).isSome then
        Handled.finished { b with commentWaiting := mapDelete b.commentWaiting userID }
          [{ chat := chatID, notice := Notice.commentCancelledButton }]
      else Handled.finished b [{ chat := chatID, notice := Notice.returnedToMainMenu }]

/-- The end of `handleMessage` (main.go 333-340): `handleButtonMessage`, then
the forwarding test `pairs[userID]` and `!isButtonText(msg.Text)`.  The cancel
token is a button text and the empty text is not. -/
def handleButtonsAndForward (b : Bot) (userID chatID : Int) (msg : Message) : Handled :=
  if msg.text = "" then
    if (b.core.pairs userID).isSome then Handled.handOff b [] Target.handleBlindChatMessage
    else Handled.finished b []
  else if msg.text = cancelToken then handleCancelButton b userID chatID
  else Handled.handOff b [] Target.buttons

/-- The part of Go `handleMessage` after the comment test (main.go 315-340);
`b2` is the state after the first part. -/
def handleMessageRest (now : Int) (b2 : Bot) (msg : Message) (insertOk updateOk : Bool) :
    Handled :=
  let userID := msg.fromID
  let chatID := msg.chatID
  match b2.core.userStates userID with
  | none => Handled.panic
  | some st =>
    if st.Step ≠ "idle" then
      match handleUserState now b2.core userID chatID msg insertOk updateOk with
      | none => Handled.panic
      | some r => Handled.finished { b2 with core := r.1 } r.2
    else if msg.isCommand then Handled.handOff b2 [] Target.handleCommand
    else
      match confessionPending b2 userID with
      | some t => handleConfessionContent b2 userID chatID msg t
      | none => handleButtonsAndForward b2 userID chatID msg

/-- Go `handleMessage` at time `now`.  `saveUserOk` is the outcome of the insert
of `saveUser`, `insertOk` and `updateOk` those of `saveAdminContact`. -/
def handleMessage (now : Int) (b : Bot) (msg : Message)
    (saveUserOk insertOk updateOk : Bool) : Handled :=
  let userID := msg.fromID
  let chatID := msg.chatID
  if chatID = userID ∧ hasGenderSet b.core.db userID = false ∧ msg.isCommand = false ∧
      (msg.text = "👨 Male" ∨ msg.text = "👩 Female") then
    Handled.handOff b [] Target.handleGenderSelection
  else
    let s1 := touchSession now b.core userID
    let s2 : State := { s1 with db := saveUser s1.db msg saveUserOk }
    let b2 : Bot := { b with core := s2 }
    if chatID = userID ∧ hasGenderSet s2.db userID = false then
      Handled.finished b2 [{ chat := chatID, notice := Notice.genderSelectionPrompt }]
    else if isBanned s2.db userID then
      Handled.finished b2 [{ chat := chatID, notice := Notice.accountRestricted }]
    else if msg.isCommand = true ∧ msg.command = "start" then
      Handled.handOff b2 [] Target.handleStartCommand
    else
      match b2.commentWaiting userID with
      | some commentData =>
        if commentData.WaitingForComment then handleUserComment b2 userID chatID msg
        else handleMessageRest now b2 msg insertOk updateOk
      | none => handleMessageRest now b2 msg insertOk updateOk

/-- A plain text message carrying the cancel token, sent by `userID` in the
private chat. -/
def cancelMessage (userID : Int) (userName firstName : String) : Message :=
  { fromID := userID, fromUserName := userName, fromFirstName := firstName, chatID := userID,
    text := cancelToken, isCommand := false, command := "" }

/-- User 4 pressed "Text Confession" (so `confessionWaiting[4] = "text"`) and
then sent `/blind`, which started the profile flow: both are pending. -/
def botTwoFlows : Bot :=
  { core := flowStart
    confessionWaiting := fun x => if x = 4 then some "text" else none
    commentWaiting := fun _ => none }

/-- User 4 has only the profile flow in progress. -/
def botProfileFlow : Bot :=
  { core := flowStart, confessionWaiting := fun _ => none, commentWaiting := fun _ => none }

/-! ## Voice anonymizer (main.go 583-794) -/

/-- What the environment answers during one run of `anonymizeVoice`: the
outcome of every external call, in program order, and the value drawn from the
random source. -/
structure VoiceEnv where
  getFileOk : Bool -- `bot.GetFile` (585)
  mkdirOk : Bool -- `os.MkdirTemp` (591)
  wgetOk : Bool -- `wget` (615)
  curlOk : Bool -- `curl`, tried when `wget` fails (618)
  inputSize : Option Nat -- `os.Stat(inputFile)`: `none` is an error (625)
  normalizeOk : Bool -- first `ffmpeg` run (649)
  tempWavExists : Bool -- `os.Stat(tempWav)` (656)
  random : Nat -- the number behind `rand.Intn` (668, 673)
  rubberbandOk : Bool -- `rubberband` (692)
  fallbackOk : Bool -- fallback `ffmpeg` run (708, 719)
  encodeOk : Bool -- third `ffmpeg` run (741)
  finalExists : Bool -- `os.Stat(finalOgg)` (748)
  readOk : Bool -- `os.ReadFile(finalOgg)` (759)
  uploadOk : Bool -- `bot.Send(voiceMsg)` (777)
  uploadedVoice : Option String -- `msg.Voice.FileID`, `none` when `msg.Voice == nil` (788)
  deriving DecidableEq, Repr

/-- The external processes and uploads a run performs. -/
inductive VoiceCommand
  | wget
  | curl
  | normalize -- `ffmpeg -ac 1 -ar 48000 -af highpass=f=80, lowpass=f=14000`
  | rubberband (pitchFactor : String) -- `rubberband -t 1.0 -p pitchFactor -F`
  | fallback (ratio : String) -- `ffmpeg -af asetrate=44100*r,aresample=44100,atempo=1/r`
  | encode -- `ffmpeg -c:a libopus -b:a 64k`
  | upload (gender pitchFactor : String) -- the voice sent to the admin group
  deriving DecidableEq, Repr

/-- The error returns of `anonymizeVoice`, in program order. -/
inductive VoiceError
  | getFile
  | tempDir
  | download
  | inputInvalid
  | normalize
  | tempWavMissing
  | fallback
  | encode
  | outputMissing
  | readOutput
  | upload
  | noVoice
  deriving DecidableEq, Repr

/-- How a run ends: the new file id, an error, or a panic. -/
inductive VoiceOutcome
  | ok (fileID : String)
  | error (reason : VoiceError)
  | panic
  deriving DecidableEq, Repr

/-- One run: how it ended, what it ran, and the pitch factor it chose if it
reached the pitch-shift stage. -/
structure VoiceRun where
  outcome : VoiceOutcome
  commands : List VoiceCommand
  pitchFactor : Option String
  deriving DecidableEq, Repr

/-- Go `maleFactors` (main.go 667). -/
def maleFactors : List String := ["0.97", "0.99", "1.01", "1.03"]

/-- Go `femaleFactors` (main.go 672). -/
def femaleFactors : List String := ["1.05", "1.07", "1.09"]

/-- The choice of main.go 663-675: `factors[rand.Intn(len(factors))]`, where
`rand.Intn(n)` is the drawn number reduced to `[0, n)`. -/
def choosePitchFactor (gender : String) (random : Nat) : String :=
  if gender = "male" then maleFactors.getD (random % maleFactors.length) ""
  else femaleFactors.getD (random % femaleFactors.length) ""

/-- The fixed ratio of the fallback filter (main.go 700-722). -/
def fallbackRatio (gender : String) : String :=
  if gender = "male" then "0.85" else "1.15"

/-- Go `anonymizeVoice`.  Status messages to the admin group and the removal of
temporary files are not part of the result. -/
def anonymizeVoice (env : VoiceEnv) (gender : String) : VoiceRun :=
  if !env.getFileOk then
    { outcome := VoiceOutcome.error VoiceError.getFile, commands := [], pitchFactor := none }
  else if !env.mkdirOk then
    { outcome := VoiceOutcome.error VoiceError.tempDir, commands := [], pitchFactor := none }
  else
    let download : List VoiceCommand :=
      if env.wgetOk then [VoiceCommand.wget] else [VoiceCommand.wget, VoiceCommand.curl]
    if !env.wgetOk && !env.curlOk then
      { outcome := VoiceOutcome.error VoiceError.download, commands := download,
        pitchFactor := none }
    else
      match env.inputSize with
      | none =>
        -- `fileInfo` is nil and `fileInfo.Size()` is evaluated for the error text
        { outcome := VoiceOutcome.panic, commands := download, pitchFactor := none }
      | some 0 =>
        { outcome := VoiceOutcome.error VoiceError.inputInvalid, commands := download,
          pitchFactor := none }
      | some (_ + 1) =>
        let c1 := download ++ [VoiceCommand.normalize]
        if !env.normalizeOk then
          { outcome := VoiceOutcome.error VoiceError.normalize, commands := c1,
            pitchFactor := none }
        else if !env.tempWavExists then
          { outcome := VoiceOutcome.error VoiceError.tempWavMissing, commands := c1,
            pitchFactor := none }
        else
          let pitch := choosePitchFactor gender env.random
          let c2 := c1 ++ [VoiceCommand.rubberband pitch]
          let c3 :=
            if env.rubberbandOk then c2 else c2 ++ [VoiceCommand.fallback (fallbackRatio gender)]
          if !env.rubberbandOk && !env.fallbackOk then
            { outcome := VoiceOutcome.error VoiceError.fallback, commands := c3,
              pitchFactor := some pitch }
          else
            let c4 := c3 ++ [VoiceCommand.encode]
            if !env.encodeOk then
              { outcome := VoiceOutcome.error VoiceError.encode, commands := c4,
                pitchFactor := some pitch }
            else if !env.finalExists then
              { outcome := VoiceOutcome.error VoiceError.outputMissing, commands := c4,
                pitchFactor := some pitch }
            else if !env.readOk then
              { outcome := VoiceOutcome.error VoiceError.readOutput, commands := c4,
                pitchFactor := some pitch }
            else
              let c5 := c4 ++ [VoiceCommand.upload gender pitch]
              if !env.uploadOk then
                { outcome := VoiceOutcome.error VoiceError.upload, commands := c5,
                  pitchFactor := some pitch }
              else
                match env.uploadedVoice with
                | some fileID =>
                  { outcome := VoiceOutcome.ok fileID, commands := c5, pitchFactor := some pitch }
                | none =>
                  { outcome := VoiceOutcome.error VoiceError.noVoice, commands := c5,
                    pitchFactor := some pitch }

/-- An environment in which every external call succeeds; the random source
yields 7. -/
def voiceEnvAllOk : VoiceEnv :=
  { getFileOk := true, mkdirOk := true, wgetOk := true, curlOk := true, inputSize := some 4096,
    normalizeOk := true, tempWavExists := true, random := 7, rubberbandOk := true,
    fallbackOk := true, encodeOk := true, finalExists := true, readOk := true, uploadOk := true,
    uploadedVoice := some "anon-voice-1" }

/-- The first result of `anonymizeVoice` as its caller receives it: the new file
id after a success and the empty string beside every error (`return "", err`);
`none` when the run panicked. -/
def VoiceOutcome.reference : VoiceOutcome → Option String
  | VoiceOutcome.ok fileID => some fileID
  | VoiceOutcome.error _ => some ""
  | VoiceOutcome.panic => none

/-- An environment in which `rubberband` fails (it is not installed, say) and
everything else succeeds. -/
def voiceEnvNoRubberband : VoiceEnv :=
  { voiceEnvAllOk with rubberbandOk := false }

/-- An environment in which the first `ffmpeg` run fails. -/
def voiceEnvNormalizeFails : VoiceEnv :=
  { voiceEnvAllOk with normalizeOk := false }

/-! ## Session sweep and contact sweep (main.go 3103-3111, 3127-3136) -/

/-- Go `cleanupOldStates`, run at time `now`: every session whose `LastActive`
lies more than 30 minutes back is deleted from `userStates`, and with it the
user's entry of `confessionWaiting`. -/
def cleanupOldStates (now : Int) (b : Bot) : Bot :=
  let expired : Int → Bool := fun userID =>
    match b.core.userStates userID with
    | some state => decide (now - state.LastActive > thirtyMinutes)
    | none => false
  let userStates : Int → Option UserState := fun userID =>
    if expired userID then none else b.core.userStates userID
  let confessionWaiting : Int → Option String := fun userID =>
    if expired userID then none else b.confessionWaiting userID
  { b with core := { b.core with userStates := userStates }, confessionWaiting := confessionWaiting }

/-- One second in the unit of the clock, nanoseconds. -/
def oneSecond : Int := 1000000000

/-- The seven days of `datetime('now', '-7 days')`, in seconds. -/
def sevenDaysSeconds : Int := 7 * 24 * 60 * 60

/-- Go `cleanupExpiredContacts` at time `now` (nanoseconds): the statement
`UPDATE users SET admin_contact_allowed = 1 WHERE user_id IN (SELECT user_id
FROM admin_contacts WHERE created_at < datetime('now', '-7 days'))`.  SQLite
keeps both times to the second.  `execOk = false` is a failed statement, whose
error the code drops. -/
def cleanupExpiredContacts (now : Int) (db : Store) (execOk : Bool) : Store :=
  if !execOk then db
  else
    let selected : Int → Bool := fun userID =>
      db.admin_contacts.any (fun c =>
        decide (c.user_id = userID ∧
          c.created_at / oneSecond < now / oneSecond - sevenDaysSeconds))
    let users : Int → Option UserRow := fun userID =>
      match db.users userID with
      | none => none
      | some row =>
        if selected userID then some { row with admin_contact_allowed := 1 } else some row
    { db with users := users }

/-- The time of the user's most recent row in `admin_contacts`, if there is
one. -/
def lastAdminContact (db : Store) (userID : Int) : Option Int :=
  ((db.admin_contacts.filter (fun c => decide (c.user_id = userID))).map
    (fun c => c.created_at)).max?

/-- Two sessions for the sweep: user 4 was last active at time 0, user 5 one
nanosecond later; user 4 was asked for a text confession and user 5 for a voice
confession. -/
def botTwoSessions : Bot :=
  { core :=
      { initState with
        userStates := fun x =>
          if x = 4 then some { Step := "idle", Data := fun _ => none, LastActive := 0 }
          else if x = 5 then some { Step := "admin_contact", Data := fun _ => none, LastActive := 1 }
          else none }
    confessionWaiting := fun x =>
      if x = 4 then some "text" else if x = 5 then some "voice" else none
    commentWaiting := fun _ => none }

/-- One day in nanoseconds. -/
def oneDay : Int := 24 * 60 * 60 * oneSecond

/-- User 4 wrote to the admins at time 0. -/
def contactFirst : State :=
  (handleAdminContactMessage 0 (startAdminContact 0 { initState with db := flowStore } 4 4).1
    4 4 (flowText "The channel link is broken") true true).1

/-- Eight days later the sweep has run and user 4 has written to the admins a
second time. -/
def contactSecond : State :=
  let swept : State :=
    { contactFirst with db := cleanupExpiredContacts (8 * oneDay) contactFirst.db true }
  (handleAdminContactMessage (8 * oneDay) (startAdminContact (8 * oneDay) swept 4 4).1
    4 4 (flowText "Thanks, it works now") true true).1

/-- The next sweep, ten minutes after the second message. -/
def contactSweptAgain : State :=
  { contactSecond with
    db := cleanupExpiredContacts (8 * oneDay + 600 * oneSecond) contactSecond.db true }

/-! ## Duration of the resample fallback (main.go 635-640, 699-722) -/

/-- The sample rate of the file the normalize stage writes (`-ar 48000`). -/
def normalizedRate : ℚ := 48000

/-- The filter `asetrate=R` keeps the samples and declares the rate `R`: a clip
of rate `inputRate` lasts `inputRate / R` times as long. -/
def asetrateDuration (inputRate R : ℚ) : ℚ := inputRate / R

/-- The filter `atempo=T` plays `T` times as fast: the clip lasts `1 / T` times
as long. -/
def atempoDuration (T : ℚ) : ℚ := 1 / T

/-- The duration factor of the fallback filter chain
`asetrate=44100*r,aresample=44100,atempo=1/r` on a clip of rate `inputRate`;
`aresample` and the output option `-ar 24000` convert the rate and keep the
duration. -/
def fallbackDuration (inputRate r : ℚ) : ℚ :=
  asetrateDuration inputRate (44100 * r) * atempoDuration (1 / r)

/-! ## Voice notes in the blind chat (main.go 2528-2616) -/

/-- Go `tgbotapi.Voice` as far as the handlers read it: the file id and the
duration in seconds. -/
structure Voice where
  FileID : String
  Duration : Int
  deriving DecidableEq, Repr

/-- The parts of a Telegram message that `handleBlindChatMessage` reads.
`photo` lists the file ids of the sizes of a photo, smallest first. -/
structure ChatMessage where
  text : String
  voice : Option Voice
  photo : Option (List String)
  caption : String
  document : Option String
  sticker : Option String
  deriving DecidableEq, Repr

/-- Go `isButtonText` (main.go 2618-2635). -/
def isButtonText (text : String) : Bool :=
  ["📝 Text Confession", "🎤 Voice Confession", "💝 Blind Connections",
   "📞 Contact Admin", "📊 My Stats", "📜 Guidelines", "⭐ Rate Us",
   "❌ Cancel Search", "🏠 Main Menu", "💔 End Chat", "🚨 Report User",
   "❤️ Send Heart", "😊 Send Smile", "💬 Send Voice", "📸 Send Photo",
   "❌ Cancel", "👨 Male", "👩 Female", "1st Year", "2nd Year",
   "3rd Year", "4th Year", "5th+ Year", "👨 Male Only", "👩 Female Only",
   "👫 Both Genders"].contains text

/-- The voice branch of `handleBlindChatMessage` (main.go 2546-2585); `env`
answers the external calls of the one run of `anonymizeVoice`.  `none` is a
panic inside that run. -/
def forwardVoice (db : Store) (env : VoiceEnv) (senderID : Int) (partner : BlindChatPair)
    (voice : Voice) : Option (List ChatSent) :=
  if voice.Duration > 60 then
    some [{ chat := senderID, item := ChatItem.voiceTooLong }]
  else
    let tip : ChatSent := { chat := partner.PartnerID, item := ChatItem.voiceTip }
    let original : ChatSent :=
      { chat := partner.PartnerID
        item := ChatItem.voice voice.FileID partner.PartnerUsername }
    match getUserGender db senderID with
    | some gender =>
      match (anonymizeVoice env gender).outcome with
      | VoiceOutcome.ok anonymizedVoiceID =>
        some [{ chat := partner.PartnerID
                item := ChatItem.voice anonymizedVoiceID partner.PartnerUsername }, tip]
      | VoiceOutcome.error _ => some [original, tip]
      | VoiceOutcome.panic => none
    | none => some [original, tip]

/-- Go `handleBlindChatMessage`; `none` is a panic (inside `anonymizeVoice`, or
at `msg.Photo[len(msg.Photo)-1]` on an empty list). -/
def handleBlindChatMessage (db : Store) (env : VoiceEnv) (senderID : Int)
    (partner : BlindChatPair) (msg : ChatMessage) : Option (List ChatSent) :=
  if msg.text ≠ "" then
    if isButtonText msg.text then some []
    else
      some [{ chat := partner.PartnerID
              item := ChatItem.text partner.PartnerUsername msg.text }]
  else
    match msg.voice with
    | some voice => forwardVoice db env senderID partner voice
    | none =>
      match msg.photo with
      | some sizes =>
        match sizes.getLast? with
        | none => none
        | some fileID =>
          some [{ chat := partner.PartnerID
                  item := ChatItem.photo fileID partner.PartnerUsername msg.caption }]
      | none =>
        match msg.document with
        | some fileID =>
          some [{ chat := partner.PartnerID
                  item := ChatItem.document fileID partner.PartnerUsername }]
        | none =>
          match msg.sticker with
          | some fileID =>
            some [{ chat := partner.PartnerID, item := ChatItem.sticker fileID }]
          | none => some []

/-- A voice note of twelve seconds. -/
def voiceNote : ChatMessage :=
  { text := "", voice := some { FileID := "raw-voice-1", Duration := 12 }, photo := none,
    caption := "", document := none, sticker := none }

/-- The pair record that A (id 1) holds in `scenarioPaired`: the partner is B. -/
def partnerOfA : BlindChatPair :=
  { PartnerID := 2, PartnerUsername := "beth", PartnerName := "Beth" }

/-- The store of the scenario after A's gender column was lost (set to NULL). -/
def scenarioStoreNoGender : Store :=
  { scenarioStore with
    users := fun x =>
      if x = 1 then
        some { username := "adam", first_name := "Adam", gender := none, banned := 0 }
      else scenarioStore.users x }

/-! ## Text confessions (main.go 1360-1376, 1464-1510, 2324-2335) -/

/-- Go `len(s)` of a string: the number of bytes of its UTF-8 encoding. -/
def len (s : String) : Int := s.utf8ByteSize

/-- Go `handleTextConfessionButton`. -/
def handleTextConfessionButton (b : Bot) (userID chatID : Int) : Bot × List ConfessionSent :=
  ({ b with confessionWaiting := mapSet b.confessionWaiting userID "text" },
   [{ chat := chatID, notice := ConfessionNotice.textPrompt }])

/-- Go `saveTextConfession`; `insertOk = false` is a failed INSERT, and the
second component is `none` exactly then.  The id of the new row is the one an
`AUTOINCREMENT` key gets in a table from which no row is ever deleted. -/
def saveTextConfession (db : Store) (userID : Int) (text : String) (insertOk : Bool) :
    Store × Option Int :=
  if !insertOk then (db, none)
  else
    let confessionID : Int := (db.confessions.map (fun r => r.id)).foldl max 0 + 1
    let row : ConfessionRow :=
      { id := confessionID, user_id := userID, text := text, type := "text" }
    ({ db with confessions := db.confessions ++ [row] }, some confessionID)

/-- Go `handleConfessionContent` after its cancel test (main.go 1410-1510), for
a message that carries no voice note (`msg.Voice == nil`), as every text message
does.  `insertOk` is the outcome of the INSERT of `saveTextConfession`. -/
def confessionContent (b : Bot) (userID chatID : Int) (msg : Message)
    (confessionType : String) (insertOk : Bool) : Bot × List ConfessionSent :=
  if confessionType = "text" ∧ msg.text ≠ "" then
    let text := msg.text
    if len text < 10 then
      (b, [{ chat := chatID, notice := ConfessionNotice.tooShort }])
    else if len text > 2000 then
      (b, [{ chat := chatID, notice := ConfessionNotice.tooLong }])
    else
      let saved := saveTextConfession b.core.db userID text insertOk
      match saved.2 with
      | none =>
        ({ b with confessionWaiting := mapDelete b.confessionWaiting userID },
         [{ chat := chatID, notice := ConfessionNotice.saveFailed }])
      | some confessionID =>
        ({ b with
           core := { b.core with db := saved.1 }
           confessionWaiting := mapDelete b.confessionWaiting userID },
         [{ chat := adminGroupID
            notice := ConfessionNotice.newTextConfession confessionID userID text },
          { chat := chatID, notice := ConfessionNotice.submitted "text" }])
  else if confessionType = "voice" then
    (b, [{ chat := chatID, notice := ConfessionNotice.invalidContentVoice }])
  else
    (b, [{ chat := chatID, notice := ConfessionNotice.invalidContentText }])

/-- User 4 has pressed "Text Confession". -/
def botAwaitsText : Bot :=
  (handleTextConfessionButton
    { core := { initState with db := flowStore }, confessionWaiting := fun _ => none,
      commentWaiting := fun _ => none } 4 4).1

/-! ## Deep links (main.go 481-515, 1097-1098, 1327-1328) -/

/-- The text that the verb `%d` of `fmt.Sprintf` produces for an integer: its
decimal digits, after a minus sign when it is negative. -/
def formatInt (n : Int) : String :=
  match n with
  | Int.ofNat m => String.mk (Nat.toDigits 10 m)
  | Int.negSucc m => String.mk ('-' :: Nat.toDigits 10 (m + 1))

/-- The start parameter that `commentURL` carries after `?start=`: `comment%d`. -/
def commentParameter (confessionID : Int) : String := "comment" ++ formatInt confessionID

/-- The start parameter that `viewCommentsURL` carries after `?start=`: `view%d`. -/
def viewParameter (confessionID : Int) : String := "view" ++ formatInt confessionID

/-- Go `commentURL` in `addReactionButtons` and `updateChannelButtons`:
`fmt.Sprintf("https://t.me/%s?start=comment%d", botUsername, confessionID)`. -/
def commentURL (botUsername : String) (confessionID : Int) : String :=
  "https://t.me/" ++ botUsername ++ "?start=comment" ++ formatInt confessionID

/-- Go `viewCommentsURL` in `addReactionButtons` and `updateChannelButtons`:
`fmt.Sprintf("https://t.me/%s?start=view%d", botUsername, confessionID)`. -/
def viewCommentsURL (botUsername : String) (confessionID : Int) : String :=
  "https://t.me/" ++ botUsername ++ "?start=view" ++ formatInt confessionID

/-- Go `strings.HasPrefix`. -/
def HasPrefix (s pre : String) : Bool := pre.toList.isPrefixOf s.toList

/-- Go `strings.TrimPrefix`. -/
def TrimPrefix (s pre : String) : String :=
  if HasPrefix s pre then String.mk (s.toList.drop pre.toList.length) else s

/-- Where `handleStartCommand` passes control. -/
inductive StartRoute
  | sendGenderSelection -- main.go 487
  | handleCommentDeepLink (confessionID : Int) -- the comment-authoring flow, main.go 498
  | handleViewCommentsDeepLink (confessionID : Int) -- the comment listing, main.go 505
  | sendEnhancedWelcomeMessage -- main.go 514
  deriving DecidableEq, Repr

/-- Go `handleStartCommand`; `args` is `msg.CommandArguments()`, the start
parameter of the link that was opened. -/
def handleStartCommand (db : Store) (userID : Int) (args : String) : StartRoute :=
  if !hasGenderSet db userID then StartRoute.sendGenderSelection
  else
    let deepLink : Option StartRoute :=
      if len args > 0 then
        if HasPrefix args "comment" then
          (Atoi (TrimPrefix args "comment")).map StartRoute.handleCommentDeepLink
        else if HasPrefix args "view" then
          (Atoi (TrimPrefix args "view")).map StartRoute.handleViewCommentsDeepLink
        else none
      else none
    deepLink.getD StartRoute.sendEnhancedWelcomeMessage

/-- An integer as the specification means it for a parameter suffix: an
optional sign followed by one or more decimal digits. -/
def isIntegerText (s : String) : Bool :=
  let digits : List Char :=
    match s.toList with
    | '-' :: rest => rest
    | '+' :: rest => rest
    | cs => cs
  !digits.isEmpty && digits.all (fun c => decide (48 ≤ c.toNat ∧ c.toNat ≤ 57))

/-- The message that Telegram delivers when user 9 opens the comment link of
confession 42 in the private chat: the command `/start` with the argument
"comment42". -/
def startCommentMessage : Message :=
  { fromID := 9, fromUserName := "eve", fromFirstName := "Eve", chatID := 9,
    text := "/start comment42", isCommand := true, command := "start" }

/-- The bot before user 9 has ever written to it. -/
def botBeforeVisitor : Bot :=
  { core := initState, confessionWaiting := fun _ => none, commentWaiting := fun _ => none }

/-- The store once `saveUser` has inserted the row of user 9: the gender column
is NULL. -/
def visitorStore : Store := saveUser initState.db startCommentMessage true

/-! ## Properties -/

theorem isGenderCompatible_iff (p1 p2 : BlindProfile) :
    isGenderCompatible p1 p2 = true ↔ prefAccepts p1.PrefGender p2.Gender := by
  unfold isGenderCompatible prefAccepts
  by_cases hm : p1.PrefGender = "male"
  · simp [hm, eq_comm]
  · by_cases hf : p1.PrefGender = "female"
    · simp [hf, eq_comm]
    · by_cases hb : p1.PrefGender = "both"
      · simp [hb]
      · simp [hm, hf, hb]

theorem isAgeCompatible_iff (p1 p2 : BlindProfile) :
    isAgeCompatible p1 p2 = true ↔ p1.PrefAgeMin ≤ p2.Age ∧ p2.Age ≤ p1.PrefAgeMax := by
  simp [isAgeCompatible]

/-- C1: `areProfilesCompatible p1 p2` is true exactly when the genders differ,
each preference accepts the other gender, and each age lies in the other
preferred range. -/
theorem areProfilesCompatible_iff (p1 p2 : BlindProfile) :
    areProfilesCompatible p1 p2 = true ↔
      (p1.Gender ≠ p2.Gender ∧
       prefAccepts p1.PrefGender p2.Gender ∧ prefAccepts p2.PrefGender p1.Gender ∧
       (p1.PrefAgeMin ≤ p2.Age ∧ p2.Age ≤ p1.PrefAgeMax) ∧
       (p2.PrefAgeMin ≤ p1.Age ∧ p1.Age ≤ p2.PrefAgeMax)) := by
  rw [← isGenderCompatible_iff, ← isGenderCompatible_iff, ← isAgeCompatible_iff,
    ← isAgeCompatible_iff]
  unfold areProfilesCompatible
  by_cases hg : p1.Gender = p2.Gender
  · simp [hg]
  · cases h1 : isGenderCompatible p1 p2 <;> cases h2 : isGenderCompatible p2 p1 <;>
      cases h3 : isAgeCompatible p1 p2 <;> cases h4 : isAgeCompatible p2 p1 <;> simp [hg]

/-- C2: compatibility is symmetric, `areProfilesCompatible p1 p2` equals
`areProfilesCompatible p2 p1` for all profiles. -/
theorem areProfilesCompatible_symm (p1 p2 : BlindProfile) :
    areProfilesCompatible p1 p2 = areProfilesCompatible p2 p1 := by
  unfold areProfilesCompatible
  by_cases hg : p1.Gender = p2.Gender
  · simp [hg]
  · have hg2 : ¬ p2.Gender = p1.Gender := fun h => hg h.symm
    cases h1 : isGenderCompatible p1 p2 <;> cases h2 : isGenderCompatible p2 p1 <;>
      cases h3 : isAgeCompatible p1 p2 <;> cases h4 : isAgeCompatible p2 p1 <;>
      simp [hg, hg2]

/-- C3: two profiles of the same gender are never compatible, whatever the other
fields hold. -/
theorem areProfilesCompatible_same_gender (p1 p2 : BlindProfile)
    (h : p1.Gender = p2.Gender) : areProfilesCompatible p1 p2 = false := by
  simp [areProfilesCompatible, h]

theorem areProfilesCompatible_same_gender_witness :
    profileA.Gender = profileC.Gender ∧ areProfilesCompatible profileA profileC = false :=
  ⟨by decide, areProfilesCompatible_same_gender profileA profileC (by decide)⟩



/-! ### The pairing invariant -/

theorem findMatchingPartner_cases (s : State) (userID : Int) (profile : BlindProfile) :
    findMatchingPartner s userID profile = 0 ∨
      (findMatchingPartner s userID profile = s.waitingUser ∧ s.waitingUser ≠ 0 ∧
        s.waitingUser ≠ userID ∧
        ∃ pw, getBlindProfile s.db s.waitingUser = some pw ∧ pw.ProfileSet = true ∧
          areProfilesCompatible profile pw = true) := by
  unfold findMatchingPartner
  split_ifs with h
  · cases hp : getBlindProfile s.db s.waitingUser with
    | none => simp
    | some pw =>
      by_cases hs : pw.ProfileSet = true
      · by_cases hc : areProfilesCompatible profile pw = true
        · right; simp [hs, hc, h.1, h.2]
        · left; simp [hs, hc]
      · left; simp [hs]
  · left; rfl

theorem pairingInv_init : PairingInv initState :=
  ⟨fun a p h => by simp [initState] at h, fun _ => rfl, rfl⟩

theorem pairingInv_of_eq (s t : State) (hp : t.pairs = s.pairs)
    (hw : t.waitingUser = s.waitingUser ∨ t.waitingUser = 0) (h : PairingInv s) :
    PairingInv t := by
  obtain ⟨h1, h2, h3⟩ := h
  refine ⟨?_, ?_, ?_⟩
  · intro a p ha
    rw [hp] at ha ⊢
    exact h1 a p ha
  · intro hne
    rcases hw with hw | hw
    · rw [hp, hw]; exact h2 (hw ▸ hne)
    · exact absurd hw hne
  · rw [hp]; exact h3

theorem pairingInv_setWaiting (s : State) (u : Int) (hu : s.pairs u = none)
    (h : PairingInv s) : PairingInv { s with waitingUser := u } :=
  ⟨h.1, fun _ => hu, h.2.2⟩

theorem pairingInv_connect (s : State) (u w : Int) (hu0 : u ≠ 0) (hu : s.pairs u = none)
    (hw : s.waitingUser = w) (hw0 : w ≠ 0) (hwu : w ≠ u) (h : PairingInv s) :
    PairingInv (connectBlindPair s u w).1 := by
  obtain ⟨h1, h2, h3⟩ := h
  have hwn : s.pairs w = none := by rw [← hw]; exact h2 (hw ▸ hw0)
  have hpart : ∀ a p, s.pairs a = some p → p.PartnerID ≠ u ∧ p.PartnerID ≠ w := by
    intro a p ha
    obtain ⟨_, q, hq, _⟩ := h1 a p ha
    constructor
    · intro e; rw [e, hu] at hq; cases hq
    · intro e; rw [e, hwn] at hq; cases hq
  refine ⟨?_, ?_, ?_⟩
  · intro a p ha
    simp only [connectBlindPair, mapSet] at ha ⊢
    by_cases haw : a = w
    · subst haw
      simp only [if_true] at ha
      cases ha
      simp [hwu, Ne.symm hwu]
    · by_cases hau : a = u
      · subst hau
        simp only [haw, if_false, if_true] at ha
        cases ha
        simp [hwu]
      · simp only [haw, hau, if_false] at ha
        obtain ⟨hne, q, hq, hqa⟩ := h1 a p ha
        obtain ⟨hpu, hpw⟩ := hpart a p ha
        exact ⟨hne, q, by simp [hpu, hpw, hq], hqa⟩
  · intro hne
    exact absurd rfl hne
  · simp only [connectBlindPair, mapSet]
    simp [Ne.symm hw0, Ne.symm hu0, h3]

theorem pairingInv_delete (s : State) (u : Int) (p : BlindChatPair) (hu : s.pairs u = some p)
    (h : PairingInv s) :
    PairingInv { s with pairs := mapDelete (mapDelete s.pairs u) p.PartnerID } := by
  obtain ⟨h1, h2, h3⟩ := h
  obtain ⟨hpu, q, hq, hqu⟩ := h1 u p hu
  refine ⟨?_, ?_, ?_⟩
  · intro a r ha
    simp only [mapDelete] at ha ⊢
    by_cases hav : a = p.PartnerID
    · simp [hav] at ha
    · by_cases hau : a = u
      · simp [hau, hpu.symm] at ha
      · simp only [hav, hau, if_false] at ha
        obtain ⟨hne, t, ht, hta⟩ := h1 a r ha
        have hru : r.PartnerID ≠ u := by
          intro e
          rw [e, hu] at ht
          cases ht
          exact hav hta.symm
        have hrv : r.PartnerID ≠ p.PartnerID := by
          intro e
          rw [e, hq] at ht
          cases ht
          exact hau (hta.symm.trans hqu)
        exact ⟨hne, t, by simp [hru, hrv, ht], hta⟩
  · intro hne
    simp only [mapDelete]
    by_cases e1 : s.waitingUser = p.PartnerID
    · simp [e1]
    · by_cases e2 : s.waitingUser = u
      · simp [e2]
      · simp [e1, e2, h2 hne]
  · simp only [mapDelete]
    by_cases e1 : (0 : Int) = p.PartnerID
    · simp [← e1]
    · by_cases e2 : (0 : Int) = u
      · simp [← e2]
      · simp [e1, e2, h3]

theorem mapDelete_both_removed (s : State) (u : Int) (partner : BlindChatPair)
    (hu : s.pairs u = some partner) (h : PairingInv s) (a : Int) (p : BlindChatPair)
    (ha : s.pairs a = some p)
    (hgone : mapDelete (mapDelete s.pairs u) partner.PartnerID a = none) :
    mapDelete (mapDelete s.pairs u) partner.PartnerID p.PartnerID = none := by
  obtain ⟨hpu, q, hq, hqu⟩ := h.1 u partner hu
  simp only [mapDelete] at hgone ⊢
  by_cases hav : a = partner.PartnerID
  · subst hav
    rw [hq] at ha
    cases ha
    by_cases e : p.PartnerID = partner.PartnerID
    · simp [e]
    · simp [e, hqu]
  · by_cases hau : a = u
    · subst hau
      rw [hu] at ha
      cases ha
      simp
    · simp [hav, hau, ha] at hgone

theorem pairingInv_blindDating (now : Int) (s : State) (u chatID : Int) (hu0 : u ≠ 0)
    (h : PairingInv s) : PairingInv (handleBlindDatingCommand now s u chatID).1 := by
  unfold handleBlindDatingCommand
  cases hg : getUserGender s.db u with
  | none => exact h
  | some g =>
    cases hp : getBlindProfile s.db u with
    | none => exact pairingInv_of_eq s _ rfl (Or.inl rfl) h
    | some profile =>
      by_cases hset : profile.ProfileSet = true
      · cases hpair : s.pairs u with
        | some x => simpa [hset, hpair] using h
        | none =>
          rcases findMatchingPartner_cases s u profile with h0 | ⟨hw, hw0, hwu, _⟩
          · simpa [hset, hpair, h0] using pairingInv_setWaiting s u hpair h
          · have hne : findMatchingPartner s u profile ≠ 0 := by rw [hw]; exact hw0
            simpa [hset, hpair, hw, hw0] using
              pairingInv_connect s u s.waitingUser hu0 hpair rfl hw0 hwu h
      · simpa [hset] using
          pairingInv_of_eq s (startProfileCreation now s u chatID g).1 rfl (Or.inl rfl) h

theorem pairingInv_cancelSearch (s : State) (u chatID : Int) (h : PairingInv s) :
    PairingInv (handleCancelSearchButton s u chatID).1 := by
  unfold handleCancelSearchButton
  split_ifs
  · exact pairingInv_of_eq s _ rfl (Or.inr rfl) h
  · exact h

theorem pairingInv_endChat (s : State) (u chatID : Int) (h : PairingInv s) :
    PairingInv (handleEndBlindChatButton s u chatID).1 := by
  unfold handleEndBlindChatButton
  cases hp : s.pairs u with
  | none =>
    split_ifs
    · exact pairingInv_of_eq s _ rfl (Or.inr rfl) h
    · exact h
  | some partner => exact pairingInv_delete s u partner hp h

theorem pairingInv_endBlindChatForUser (s : State) (u : Int) (h : PairingInv s) :
    PairingInv (endBlindChatForUser s u).1 := by
  unfold endBlindChatForUser
  cases hp : s.pairs u with
  | none => exact h
  | some partner => exact pairingInv_delete s u partner hp h

theorem pairingInv_report (s : State) (parts : List String)
    (reportedID reporterID chatID : Int) (insertOk : Bool) (h : PairingInv s) :
    PairingInv (handleReportReasonCallback s parts reportedID reporterID chatID insertOk).1 := by
  unfold handleReportReasonCallback
  split
  · cases hp : s.pairs reporterID with
    | none => exact h
    | some reporterPartner =>
      simp only []
      split_ifs
      · exact h
      · exact pairingInv_of_eq s _ rfl (Or.inl rfl) h
      · exact pairingInv_endBlindChatForUser _ _ (pairingInv_of_eq s _ rfl (Or.inl rfl) h)
      · exact pairingInv_of_eq s _ rfl (Or.inl rfl) h
  · exact h

theorem pairingInv_sweep (now : Int) (s : State) (h : PairingInv s) :
    PairingInv (cleanupWaitingUsers now s) := by
  unfold cleanupWaitingUsers
  split_ifs
  · cases hs : s.userStates s.waitingUser with
    | none => exact pairingInv_of_eq s _ rfl (Or.inr rfl) h
    | some st =>
      simp only []
      split_ifs
      · exact pairingInv_of_eq s _ rfl (Or.inr rfl) h
      · exact h
  · exact h

theorem pairingInv_step (s : State) (e : Event) (he : e.valid) (h : PairingInv s) :
    PairingInv (step s e) := by
  cases e with
  | blindDating now userID chatID => exact pairingInv_blindDating now s userID chatID he h
  | cancelSearch userID chatID => exact pairingInv_cancelSearch s userID chatID h
  | endChat userID chatID => exact pairingInv_endChat s userID chatID h
  | reportReason parts reportedID reporterID chatID insertOk =>
    exact pairingInv_report s parts reportedID reporterID chatID insertOk h
  | sweep now => exact pairingInv_sweep now s h
  | other userStates db => exact pairingInv_of_eq s _ rfl (Or.inl rfl) h

theorem pairingInv_reachable (s : State) (hs : Reachable s) : PairingInv s := by
  induction hs with
  | init => exact pairingInv_init
  | step s e _ he ih => exact pairingInv_step s e he ih

theorem mapSet_ne_none {V : Type} (m : Int → Option V) (k : Int) (v : V) (a : Int)
    (h : m a ≠ none) : mapSet m k v a ≠ none := by
  unfold mapSet
  split_ifs
  · simp
  · exact h

theorem blindDating_keeps_pairs (now : Int) (s : State) (u chatID a : Int)
    (p : BlindChatPair) (ha : s.pairs a = some p) :
    (handleBlindDatingCommand now s u chatID).1.pairs a ≠ none := by
  have hs : s.pairs a ≠ none := by simp [ha]
  unfold handleBlindDatingCommand
  cases hg : getUserGender s.db u with
  | none => exact hs
  | some g =>
    cases hp : getBlindProfile s.db u with
    | none => exact hs
    | some profile =>
      simp only []
      split_ifs
      · exact hs
      · exact hs
      · exact hs
      · exact mapSet_ne_none _ _ _ a (mapSet_ne_none s.pairs u _ a hs)

theorem endBlindChatForUser_removes_both (s : State) (u : Int) (h : PairingInv s)
    (a : Int) (p : BlindChatPair) (ha : s.pairs a = some p)
    (hgone : (endBlindChatForUser s u).1.pairs a = none) :
    (endBlindChatForUser s u).1.pairs p.PartnerID = none := by
  unfold endBlindChatForUser at hgone ⊢
  cases hp : s.pairs u with
  | none => simp [hp, ha] at hgone
  | some partner =>
    simp only [hp] at hgone ⊢
    exact mapDelete_both_removed s u partner hp h a p ha hgone

theorem step_removes_both (s : State) (e : Event) (h : PairingInv s)
    (a : Int) (p : BlindChatPair) (ha : s.pairs a = some p)
    (hgone : (step s e).pairs a = none) : (step s e).pairs p.PartnerID = none := by
  cases e with
  | blindDating now userID chatID =>
    exact absurd hgone (blindDating_keeps_pairs now s userID chatID a p ha)
  | cancelSearch userID chatID =>
    have : (step s (Event.cancelSearch userID chatID)).pairs = s.pairs := by
      simp only [step, handleCancelSearchButton]; split_ifs <;> rfl
    rw [this, ha] at hgone; cases hgone
  | endChat userID chatID =>
    simp only [step, handleEndBlindChatButton] at hgone ⊢
    cases hp : s.pairs userID with
    | none =>
      rw [hp] at hgone
      simp only [] at hgone
      split_ifs at hgone <;> simp [ha] at hgone
    | some partner =>
      simp only [hp] at hgone ⊢
      exact mapDelete_both_removed s userID partner hp h a p ha hgone
  | reportReason parts reportedID reporterID chatID insertOk =>
    simp only [step, handleReportReasonCallback] at hgone ⊢
    split at hgone
    · cases hp : s.pairs reporterID with
      | none => simp [hp, ha] at hgone
      | some reporterPartner =>
        simp only [hp] at hgone ⊢
        split_ifs at hgone ⊢
        · simp [ha] at hgone
        · simp [ha] at hgone
        · refine endBlindChatForUser_removes_both _ reportedID ?_ a p ?_ hgone
          · exact pairingInv_of_eq s _ rfl (Or.inl rfl) h
          · exact ha
        · simp [ha] at hgone
    · simp [ha] at hgone
  | sweep now =>
    have : (cleanupWaitingUsers now s).pairs = s.pairs := by
      unfold cleanupWaitingUsers
      split_ifs
      · cases s.userStates s.waitingUser with
        | none => rfl
        | some st => simp only []; split_ifs <;> rfl
      · rfl
    simp only [step] at hgone
    rw [this, ha] at hgone; cases hgone
  | other userStates db =>
    simp [step, ha] at hgone

theorem scenarioBWaits_reachable : Reachable scenarioBWaits :=
  Reachable.step _ _ (Reachable.step _ _ Reachable.init trivial)
    (show (2 : Int) ≠ 0 by decide)

theorem scenarioPaired_reachable : Reachable scenarioPaired :=
  Reachable.step _ _ scenarioBWaits_reachable (show (1 : Int) ≠ 0 by decide)

/-! ### Requesting a match -/

/-- C4: a requester `u` whose gender and complete profile are on record and who
is not paired, arriving while the waiting slot holds a distinct user `w` with a
complete, compatible profile, is paired with `w` at once: afterwards
`pairs[u].PartnerID = w`, `pairs[w].PartnerID = u` and the slot is empty. -/
theorem handleBlindDatingCommand_forms_pair (now : Int) (s : State) (u chatID w : Int)
    (g : String) (pu pw : BlindProfile)
    (hg : getUserGender s.db u = some g)
    (hpu : getBlindProfile s.db u = some pu) (hset : pu.ProfileSet = true)
    (hfree : s.pairs u = none)
    (hw : s.waitingUser = w) (hw0 : w ≠ 0) (hwu : w ≠ u)
    (hpw : getBlindProfile s.db w = some pw) (hwset : pw.ProfileSet = true)
    (hc : areProfilesCompatible pu pw = true) :
    (∃ p, (handleBlindDatingCommand now s u chatID).1.pairs u = some p ∧ p.PartnerID = w) ∧
    (∃ q, (handleBlindDatingCommand now s u chatID).1.pairs w = some q ∧ q.PartnerID = u) ∧
    (handleBlindDatingCommand now s u chatID).1.waitingUser = 0 := by
  subst hw
  have hfind : findMatchingPartner s u pu = s.waitingUser := by
    simp [findMatchingPartner, hw0, hwu, hpw, hwset, hc]
  simp only [handleBlindDatingCommand, hg, hpu, hset, hfree, hfind]
  simp [hw0, connectBlindPair, mapSet, hwu, Ne.symm hwu]

theorem handleBlindDatingCommand_forms_pair_witness :
    (∃ p, (handleBlindDatingCommand 200 scenarioBWaits 1 1).1.pairs 1 = some p ∧
      p.PartnerID = 2) ∧
    (∃ q, (handleBlindDatingCommand 200 scenarioBWaits 1 1).1.pairs 2 = some q ∧
      q.PartnerID = 1) ∧
    (handleBlindDatingCommand 200 scenarioBWaits 1 1).1.waitingUser = 0 :=
  handleBlindDatingCommand_forms_pair 200 scenarioBWaits 1 1 2 "male" profileA profileB
    (by decide) (by decide) (by decide) (by decide) (by decide) (by decide) (by decide)
    (by decide) (by decide) (by decide)

/-- C5: a requester `u` whose gender and complete profile are on record and who
is not paired, arriving while the waiting slot is empty, or holds `u`, or holds a
user whose profile is missing, incomplete, incompatible or of the same gender,
forms no pair (`pairs` is unchanged) and becomes the occupant of the slot. -/
theorem handleBlindDatingCommand_waits (now : Int) (s : State) (u chatID : Int)
    (g : String) (pu : BlindProfile)
    (hg : getUserGender s.db u = some g)
    (hpu : getBlindProfile s.db u = some pu) (hset : pu.ProfileSet = true)
    (hfree : s.pairs u = none)
    (h : s.waitingUser = 0 ∨ s.waitingUser = u ∨
      getBlindProfile s.db s.waitingUser = none ∨
      ∃ pw, getBlindProfile s.db s.waitingUser = some pw ∧
        (pw.ProfileSet = false ∨ areProfilesCompatible pu pw = false ∨
          pw.Gender = pu.Gender)) :
    (handleBlindDatingCommand now s u chatID).1.pairs = s.pairs ∧
    (handleBlindDatingCommand now s u chatID).1.waitingUser = u := by
  have hfind : findMatchingPartner s u pu = 0 := by
    unfold findMatchingPartner
    rcases h with h | h | h | ⟨pw, hpw, h⟩
    · simp [h]
    · simp [h]
    · simp [h]
    · rcases h with h | h | h
      · simp [hpw, h]
      · simp [hpw, h]
      · have hc : areProfilesCompatible pu pw = false := by
          simp [areProfilesCompatible, h]
        simp [hpw, hc]
  simp [handleBlindDatingCommand, hg, hpu, hset, hfree, hfind]

theorem handleBlindDatingCommand_waits_witness :
    (handleBlindDatingCommand 200 scenarioCWaits 1 1).1.pairs = scenarioCWaits.pairs ∧
    (handleBlindDatingCommand 200 scenarioCWaits 1 1).1.waitingUser = 1 :=
  handleBlindDatingCommand_waits 200 scenarioCWaits 1 1 "male" profileA
    (by decide) (by decide) (by decide) (by decide)
    (Or.inr (Or.inr (Or.inr ⟨profileC, by decide, Or.inr (Or.inr (by decide))⟩)))

/-! ### Invariants of the reachable states -/

/-- C6: in every reachable state the pairing registry is symmetric, whenever
`pairs[a].PartnerID = b` then `a ≠ b` and `pairs[b].PartnerID = a`, and every
event that removes the entry of `a` removes the entry of its partner in the same
step. -/
theorem pairs_symmetric_reachable (s : State) (hs : Reachable s) :
    (∀ a b p, s.pairs a = some p → p.PartnerID = b →
      a ≠ b ∧ ∃ q, s.pairs b = some q ∧ q.PartnerID = a) ∧
    (∀ e : Event, e.valid → ∀ a p, s.pairs a = some p → (step s e).pairs a = none →
      (step s e).pairs p.PartnerID = none) := by
  have hinv := pairingInv_reachable s hs
  constructor
  · intro a b p ha hb
    subst hb
    obtain ⟨hne, q, hq, hqa⟩ := hinv.1 a p ha
    exact ⟨Ne.symm hne, q, hq, hqa⟩
  · intro e _ a p ha hgone
    exact step_removes_both s e hinv a p ha hgone

theorem pairs_symmetric_reachable_witness :
    Reachable scenarioPaired ∧
    ((∀ a b p, scenarioPaired.pairs a = some p → p.PartnerID = b →
      a ≠ b ∧ ∃ q, scenarioPaired.pairs b = some q ∧ q.PartnerID = a) ∧
    (∀ e : Event, e.valid → ∀ a p, scenarioPaired.pairs a = some p →
      (step scenarioPaired e).pairs a = none →
      (step scenarioPaired e).pairs p.PartnerID = none)) :=
  ⟨scenarioPaired_reachable, pairs_symmetric_reachable scenarioPaired scenarioPaired_reachable⟩

/-- C7: in every reachable state the user in the waiting slot, when the slot is
not empty, has no entry in `pairs`. -/
theorem waiting_user_not_paired (s : State) (hs : Reachable s) (hw : s.waitingUser ≠ 0) :
    s.pairs s.waitingUser = none :=
  (pairingInv_reachable s hs).2.1 hw

theorem waiting_user_not_paired_witness :
    Reachable scenarioBWaits ∧ scenarioBWaits.waitingUser ≠ 0 ∧
    scenarioBWaits.pairs scenarioBWaits.waitingUser = none :=
  ⟨scenarioBWaits_reachable, by decide,
   waiting_user_not_paired scenarioBWaits scenarioBWaits_reachable (by decide)⟩

/-! ### Ending a chat -/

/-- C8: in a reachable state where `u` is paired with `v`, the first
`handleEndBlindChatButton(u)` sends "Chat Ended" to `u` and to `v` and leaves
neither in `pairs`; a second call right after it answers "Not in Chat" and
returns the state of the first call unchanged. -/
theorem handleEndBlindChatButton_twice (s : State) (hs : Reachable s) (u v chatID chatID2 : Int)
    (p : BlindChatPair) (hp : s.pairs u = some p) (hv : p.PartnerID = v) :
    (handleEndBlindChatButton s u chatID).2 =
      [{ chat := u, notice := Notice.chatEnded p.PartnerUsername },
       { chat := v, notice := Notice.partnerLeft p.PartnerUsername }] ∧
    (handleEndBlindChatButton s u chatID).1.pairs u = none ∧
    (handleEndBlindChatButton s u chatID).1.pairs v = none ∧
    (handleEndBlindChatButton (handleEndBlindChatButton s u chatID).1 u chatID2).2 =
      [{ chat := chatID2, notice := Notice.notInChat }] ∧
    (handleEndBlindChatButton (handleEndBlindChatButton s u chatID).1 u chatID2).1 =
      (handleEndBlindChatButton s u chatID).1 := by
  have hinv := pairingInv_reachable s hs
  subst hv
  have hu0 : u ≠ 0 := by
    intro e
    rw [e, hinv.2.2] at hp
    cases hp
  have hwu : s.waitingUser ≠ u := by
    intro e
    have hw0 : s.waitingUser ≠ 0 := by rw [e]; exact hu0
    have := hinv.2.1 hw0
    rw [e, hp] at this
    cases this
  have hfirst : handleEndBlindChatButton s u chatID =
      ({ s with pairs := mapDelete (mapDelete s.pairs u) p.PartnerID },
       [{ chat := u, notice := Notice.chatEnded p.PartnerUsername },
        { chat := p.PartnerID, notice := Notice.partnerLeft p.PartnerUsername }]) := by
    simp [handleEndBlindChatButton, hp]
  have hgone : mapDelete (mapDelete s.pairs u) p.PartnerID u = none := by
    simp [mapDelete]
  rw [hfirst]
  refine ⟨rfl, hgone, by simp [mapDelete], ?_, ?_⟩
  · simp [handleEndBlindChatButton, hgone, hwu]
  · simp [handleEndBlindChatButton, hgone, hwu]

theorem handleEndBlindChatButton_twice_witness :
    (handleEndBlindChatButton scenarioPaired 1 1).2 =
      [{ chat := 1, notice := Notice.chatEnded "beth" },
       { chat := 2, notice := Notice.partnerLeft "beth" }] ∧
    (handleEndBlindChatButton scenarioPaired 1 1).1.pairs 1 = none ∧
    (handleEndBlindChatButton scenarioPaired 1 1).1.pairs 2 = none ∧
    (handleEndBlindChatButton (handleEndBlindChatButton scenarioPaired 1 1).1 1 1).2 =
      [{ chat := 1, notice := Notice.notInChat }] ∧
    (handleEndBlindChatButton (handleEndBlindChatButton scenarioPaired 1 1).1 1 1).1 =
      (handleEndBlindChatButton scenarioPaired 1 1).1 :=
  handleEndBlindChatButton_twice scenarioPaired scenarioPaired_reachable 1 2 1 1
    { PartnerID := 2, PartnerUsername := "beth", PartnerName := "Beth" }
    (by decide) rfl

/-- C9 fails as stated: B (id 2) waits and has no pair, yet
`handleEndBlindChatButton(2)` empties the waiting slot and reports "Search
Cancelled", not "Not in Chat". -/
theorem handleEndBlindChatButton_waiting_counterexample :
    scenarioBWaits.pairs 2 = none ∧
    scenarioBWaits.waitingUser = 2 ∧
    (handleEndBlindChatButton scenarioBWaits 2 2).1.waitingUser = 0 ∧
    (handleEndBlindChatButton scenarioBWaits 2 2).2 =
      [{ chat := 2, notice := Notice.searchCancelled }] := by
  decide

/-- C9 (amended): when `u` has no pair, `handleEndBlindChatButton(u)` leaves
`pairs` unchanged; if `u` is not the waiting user the whole state is unchanged
and the answer is "Not in Chat", which differs from "Chat Ended"; if `u` is the
waiting user the slot is emptied and the answer is "Search Cancelled". -/
theorem handleEndBlindChatButton_unpaired (s : State) (u chatID : Int)
    (h : s.pairs u = none) :
    (handleEndBlindChatButton s u chatID).1.pairs = s.pairs ∧
    (s.waitingUser ≠ u →
      (handleEndBlindChatButton s u chatID).1 = s ∧
      (handleEndBlindChatButton s u chatID).2 = [{ chat := chatID, notice := Notice.notInChat }] ∧
      ∀ name, Notice.notInChat ≠ Notice.chatEnded name) ∧
    (s.waitingUser = u →
      (handleEndBlindChatButton s u chatID).1 = { s with waitingUser := 0 } ∧
      (handleEndBlindChatButton s u chatID).2 =
        [{ chat := chatID, notice := Notice.searchCancelled }]) := by
  unfold handleEndBlindChatButton
  rw [h]
  by_cases hw : s.waitingUser = u
  · simp [hw]
  · simp [hw]

theorem handleEndBlindChatButton_unpaired_witness :
    scenarioIdle.pairs 1 = none ∧
    ((handleEndBlindChatButton scenarioIdle 1 1).1.pairs = scenarioIdle.pairs ∧
    (scenarioIdle.waitingUser ≠ 1 →
      (handleEndBlindChatButton scenarioIdle 1 1).1 = scenarioIdle ∧
      (handleEndBlindChatButton scenarioIdle 1 1).2 = [{ chat := 1, notice := Notice.notInChat }] ∧
      ∀ name, Notice.notInChat ≠ Notice.chatEnded name) ∧
    (scenarioIdle.waitingUser = 1 →
      (handleEndBlindChatButton scenarioIdle 1 1).1 = { scenarioIdle with waitingUser := 0 } ∧
      (handleEndBlindChatButton scenarioIdle 1 1).2 =
        [{ chat := 1, notice := Notice.searchCancelled }])) :=
  ⟨by decide, handleEndBlindChatButton_unpaired scenarioIdle 1 1 (by decide)⟩

/-! ### Filing a report -/

/-- C10: a filing whose reporter has no entry in `pairs`, or whose reporter is
paired with somebody other than `reportedID`, is rejected with a single callback
answer and leaves the whole state (report counters, registry, ban flags)
unchanged. -/
theorem handleReportReasonCallback_rejects (s : State) (parts : List String)
    (reportedID reporterID chatID : Int) (insertOk : Bool)
    (h : s.pairs reporterID = none ∨
      ∃ p, s.pairs reporterID = some p ∧ p.PartnerID ≠ reportedID) :
    (handleReportReasonCallback s parts reportedID reporterID chatID insertOk).1 = s ∧
    ((handleReportReasonCallback s parts reportedID reporterID chatID insertOk).2 =
        [{ chat := reporterID, notice := Notice.callbackNotInChat }] ∨
     (handleReportReasonCallback s parts reportedID reporterID chatID insertOk).2 =
        [{ chat := reporterID, notice := Notice.callbackInvalidUser }] ∨
     (handleReportReasonCallback s parts reportedID reporterID chatID insertOk).2 =
        [{ chat := reporterID, notice := Notice.callbackError }]) := by
  unfold handleReportReasonCallback
  split
  · rcases h with h | ⟨p, hp, hne⟩
    · simp [h]
    · simp [hp, hne]
  · simp

theorem handleReportReasonCallback_rejects_witness :
    (handleReportReasonCallback scenarioPaired ["report_reason", "spam", "3"] 3 1 1 true).1 =
      scenarioPaired ∧
    ((handleReportReasonCallback scenarioPaired ["report_reason", "spam", "3"] 3 1 1 true).2 =
        [{ chat := 1, notice := Notice.callbackNotInChat }] ∨
     (handleReportReasonCallback scenarioPaired ["report_reason", "spam", "3"] 3 1 1 true).2 =
        [{ chat := 1, notice := Notice.callbackInvalidUser }] ∨
     (handleReportReasonCallback scenarioPaired ["report_reason", "spam", "3"] 3 1 1 true).2 =
        [{ chat := 1, notice := Notice.callbackError }]) :=
  handleReportReasonCallback_rejects scenarioPaired ["report_reason", "spam", "3"] 3 1 1 true
    (Or.inr ⟨{ PartnerID := 2, PartnerUsername := "beth", PartnerName := "Beth" },
      by decide, by decide⟩)


/-! ### The report ledger -/

theorem endBlindChatForUser_reports (s : State) (u : Int) :
    (endBlindChatForUser s u).1.reports = s.reports := by
  unfold endBlindChatForUser
  cases s.pairs u <;> rfl

theorem endBlindChatForUser_db (s : State) (u : Int) :
    (endBlindChatForUser s u).1.db = s.db := by
  unfold endBlindChatForUser
  cases s.pairs u <;> rfl

theorem handleReportReasonCallback_reports_le (s : State) (parts : List String)
    (reportedID reporterID chatID : Int) (insertOk : Bool) (x : Int) :
    s.reports x ≤
      (handleReportReasonCallback s parts reportedID reporterID chatID insertOk).1.reports x := by
  unfold handleReportReasonCallback
  split
  · cases hp : s.pairs reporterID with
    | none => exact le_refl _
    | some reporterPartner =>
      simp only []
      split_ifs
      · exact le_refl _
      · simp only []; split_ifs <;> omega
      · rw [endBlindChatForUser_reports]; simp only []; split_ifs <;> omega
      · simp only []; split_ifs <;> omega
  · exact le_refl _

theorem step_reports_le (s : State) (e : Event) (x : Int) :
    s.reports x ≤ (step s e).reports x := by
  cases e with
  | blindDating now userID chatID =>
    have : (handleBlindDatingCommand now s userID chatID).1.reports = s.reports := by
      unfold handleBlindDatingCommand
      cases getUserGender s.db userID with
      | none => rfl
      | some g =>
        cases getBlindProfile s.db userID with
        | none => rfl
        | some profile => simp only []; split_ifs <;> rfl
    simp only [step, this]; exact le_refl _
  | cancelSearch userID chatID =>
    have : (handleCancelSearchButton s userID chatID).1.reports = s.reports := by
      unfold handleCancelSearchButton; split_ifs <;> rfl
    simp only [step, this]; exact le_refl _
  | endChat userID chatID =>
    have : (handleEndBlindChatButton s userID chatID).1.reports = s.reports := by
      unfold handleEndBlindChatButton
      cases s.pairs userID with
      | none => simp only []; split_ifs <;> rfl
      | some partner => rfl
    simp only [step, this]; exact le_refl _
  | reportReason parts reportedID reporterID chatID insertOk =>
    exact handleReportReasonCallback_reports_le s parts reportedID reporterID chatID insertOk x
  | sweep now =>
    have : (cleanupWaitingUsers now s).reports = s.reports := by
      unfold cleanupWaitingUsers
      split_ifs
      · cases s.userStates s.waitingUser with
        | none => rfl
        | some st => simp only []; split_ifs <;> rfl
      · rfl
    simp only [step, this]; exact le_refl _
  | other userStates db => exact le_refl _

theorem handleReportReasonCallback_accepted_reports (s : State)
    (action reason idText : String) (more : List String) (reportedID reporterID chatID : Int)
    (insertOk : Bool) (p : BlindChatPair) (hp : s.pairs reporterID = some p)
    (hpid : p.PartnerID = reportedID) :
    (handleReportReasonCallback s (action :: reason :: idText :: more) reportedID reporterID
      chatID insertOk).1.reports =
      fun x => if x = reportedID then s.reports x + 1 else s.reports x := by
  subst hpid
  cases insertOk
  · simp [handleReportReasonCallback, hp]
  · by_cases h3 : s.reports p.PartnerID + 1 ≥ 3
    · simp [handleReportReasonCallback, hp, h3, endBlindChatForUser_reports]
    · simp [handleReportReasonCallback, hp, h3]

/-- C11: when the reporter is paired with the reported user, one filing raises
`reports[reportedID]` by exactly 1 and leaves every other counter as it was,
whatever the state holds about earlier filings and whether or not the report row
could be stored; and no event ever lowers a counter. -/
theorem handleReportReasonCallback_increments (s : State) (action reason idText : String)
    (more : List String) (reportedID reporterID chatID : Int) (insertOk : Bool)
    (p : BlindChatPair) (hp : s.pairs reporterID = some p) (hpid : p.PartnerID = reportedID) :
    ((handleReportReasonCallback s (action :: reason :: idText :: more) reportedID reporterID
        chatID insertOk).1.reports reportedID = s.reports reportedID + 1 ∧
     ∀ x, x ≠ reportedID →
      (handleReportReasonCallback s (action :: reason :: idText :: more) reportedID reporterID
        chatID insertOk).1.reports x = s.reports x) ∧
    (∀ (t : State) (e : Event) (x : Int), t.reports x ≤ (step t e).reports x) := by
  refine ⟨?_, fun t e x => step_reports_le t e x⟩
  rw [handleReportReasonCallback_accepted_reports s action reason idText more reportedID
    reporterID chatID insertOk p hp hpid]
  constructor
  · simp
  · intro x hx; simp [hx]

theorem handleReportReasonCallback_increments_witness :
    ((handleReportReasonCallback scenarioOneReport ("report_reason" :: "Other" :: "2" :: [])
        2 1 1 true).1.reports 2 = scenarioOneReport.reports 2 + 1 ∧
     ∀ x, x ≠ 2 →
      (handleReportReasonCallback scenarioOneReport ("report_reason" :: "Other" :: "2" :: [])
        2 1 1 true).1.reports x = scenarioOneReport.reports x) ∧
    (∀ (t : State) (e : Event) (x : Int), t.reports x ≤ (step t e).reports x) :=
  handleReportReasonCallback_increments scenarioOneReport "report_reason" "Other" "2" [] 2 1 1
    true { PartnerID := 2, PartnerUsername := "beth", PartnerName := "Beth" }
    (by decide) rfl

theorem banUser_users (db : Store) (u : Int) :
    (banUser db u).users u = (db.users u).map (fun row => { row with banned := 1 }) := by
  unfold banUser
  cases h : db.users u with
  | none => simp [h]
  | some row => simp [mapSet]

theorem isBanned_banUser (db : Store) (u : Int) (row : UserRow) (h : db.users u = some row) :
    isBanned (banUser db u) u = true := by
  simp [isBanned, banUser_users, h]

theorem scenarioTwoReports_reachable : Reachable scenarioTwoReports :=
  Reachable.step _ _ (Reachable.step _ _ scenarioPaired_reachable
    (show (1 : Int) ≠ 0 by decide)) (show (1 : Int) ≠ 0 by decide)

/-- The stored filing at counter 2: in a reachable state where the reporter is
paired with the reported user and the reported user's counter is 2, a filing
whose row is stored brings the counter to 3, sets the `banned` flag of the
reported user's row, removes both the reported user and their partner (the
reporter) from `pairs`, and sends the "has been removed" notice to the partner
and the "USER AUTO-BANNED" notice to the moderation group. -/
theorem handleReportReasonCallback_third_report_bans (s : State) (hs : Reachable s)
    (action reason idText : String) (more : List String) (reportedID reporterID chatID : Int)
    (p : BlindChatPair) (hp : s.pairs reporterID = some p) (hpid : p.PartnerID = reportedID)
    (hcount : s.reports reportedID = 2) :
    (handleReportReasonCallback s (action :: reason :: idText :: more) reportedID reporterID
      chatID true).1.reports reportedID = 3 ∧
    (handleReportReasonCallback s (action :: reason :: idText :: more) reportedID reporterID
      chatID true).1.db.users reportedID =
        (s.db.users reportedID).map (fun row => { row with banned := 1 }) ∧
    (∀ row, s.db.users reportedID = some row →
      isBanned (handleReportReasonCallback s (action :: reason :: idText :: more) reportedID
        reporterID chatID true).1.db reportedID = true) ∧
    (handleReportReasonCallback s (action :: reason :: idText :: more) reportedID reporterID
      chatID true).1.pairs reportedID = none ∧
    (handleReportReasonCallback s (action :: reason :: idText :: more) reportedID reporterID
      chatID true).1.pairs reporterID = none ∧
    (∃ name, ({ chat := reporterID, notice := Notice.partnerRemoved name } : Sent) ∈
      (handleReportReasonCallback s (action :: reason :: idText :: more) reportedID reporterID
        chatID true).2) ∧
    ({ chat := adminGroupID,
       notice := Notice.autoBanned reportedID (reportedUsernameOf s.db reportedID) reason } : Sent) ∈
      (handleReportReasonCallback s (action :: reason :: idText :: more) reportedID reporterID
        chatID true).2 := by
  have hinv := pairingInv_reachable s hs
  obtain ⟨hne, q, hq, hqid⟩ := hinv.1 reporterID p hp
  subst hpid
  have h3 : s.reports p.PartnerID + 1 ≥ 3 := by omega
  have hres : handleReportReasonCallback s (action :: reason :: idText :: more) p.PartnerID
      reporterID chatID true =
      ({ s with
          reports := fun x => if x = p.PartnerID then s.reports x + 1 else s.reports x
          db := banUser { s.db with reports := s.db.reports ++
            [{ reporter_id := reporterID, reported_id := p.PartnerID, reason := reason,
               context := "Blind chat" }] } p.PartnerID
          pairs := mapDelete (mapDelete s.pairs p.PartnerID) q.PartnerID },
       [{ chat := reporterID,
          notice := Notice.reportSubmitted (reportedUsernameOf s.db p.PartnerID) reason
            (s.reports p.PartnerID + 1) },
        { chat := q.PartnerID, notice := Notice.partnerRemoved q.PartnerUsername },
        { chat := adminGroupID,
          notice := Notice.autoBanned p.PartnerID (reportedUsernameOf s.db p.PartnerID) reason },
        { chat := chatID, notice := Notice.reportReceived },
        { chat := reporterID, notice := Notice.callbackSubmitted }]) := by
    simp [handleReportReasonCallback, hp, h3, endBlindChatForUser, hq, reportedUsernameOf,
      queryNames]
  rw [hres]
  refine ⟨by simp [hcount], ?_, ?_, by simp [mapDelete], by simp [mapDelete, hqid], ?_, ?_⟩
  · exact banUser_users _ _
  · intro row hrow
    exact isBanned_banUser _ _ row hrow
  · exact ⟨q.PartnerUsername, by simp [hqid]⟩
  · simp

theorem handleReportReasonCallback_third_report_bans_witness :
    (handleReportReasonCallback scenarioTwoReports ("report_reason" :: "Other" :: "2" :: [])
      2 1 1 true).1.reports 2 = 3 ∧
    (handleReportReasonCallback scenarioTwoReports ("report_reason" :: "Other" :: "2" :: [])
      2 1 1 true).1.db.users 2 =
        (scenarioTwoReports.db.users 2).map (fun row => { row with banned := 1 }) ∧
    (∀ row, scenarioTwoReports.db.users 2 = some row →
      isBanned (handleReportReasonCallback scenarioTwoReports
        ("report_reason" :: "Other" :: "2" :: []) 2 1 1 true).1.db 2 = true) ∧
    (handleReportReasonCallback scenarioTwoReports ("report_reason" :: "Other" :: "2" :: [])
      2 1 1 true).1.pairs 2 = none ∧
    (handleReportReasonCallback scenarioTwoReports ("report_reason" :: "Other" :: "2" :: [])
      2 1 1 true).1.pairs 1 = none ∧
    (∃ name, ({ chat := 1, notice := Notice.partnerRemoved name } : Sent) ∈
      (handleReportReasonCallback scenarioTwoReports ("report_reason" :: "Other" :: "2" :: [])
        2 1 1 true).2) ∧
    ({ chat := adminGroupID,
       notice := Notice.autoBanned 2 (reportedUsernameOf scenarioTwoReports.db 2) "Other" } : Sent) ∈
      (handleReportReasonCallback scenarioTwoReports ("report_reason" :: "Other" :: "2" :: [])
        2 1 1 true).2 :=
  handleReportReasonCallback_third_report_bans scenarioTwoReports scenarioTwoReports_reachable
    "report_reason" "Other" "2" [] 2 1 1
    { PartnerID := 2, PartnerUsername := "beth", PartnerName := "Beth" }
    (by decide) rfl (by decide)

theorem banUser_users_congr (db db2 : Store) (u : Int) (h : db2.users = db.users) :
    (banUser db2 u).users = (banUser db u).users := by
  unfold banUser
  rw [h]
  cases db.users u with
  | none => exact h
  | some row => simp [h]

theorem endBlindChatForUser_pairs_congr (s t : State) (u : Int) (h : t.pairs = s.pairs) :
    (endBlindChatForUser t u).1.pairs = (endBlindChatForUser s u).1.pairs := by
  unfold endBlindChatForUser
  rw [h]
  cases s.pairs u with
  | none => exact h
  | some partner => simp [h]

/-- C13 (failing input): after two stored filings and a third whose insert
failed, B's counter is 3 while A and B are still paired and B is not banned; the
next stored filing finds the counter at 3, raises it to 4 and performs every ban
action, whereas the filing that took the counter from 2 to 3 performed none. -/
theorem handleReportReasonCallback_past_threshold_counterexample :
    scenarioTwoReports.reports 2 = 2 ∧
    (handleReportReasonCallback scenarioTwoReports reportPartsB 2 1 1 false).2 =
      [{ chat := 1, notice := Notice.callbackErrorSaving }] ∧
    scenarioThirdInsertFailed.reports 2 = 3 ∧
    scenarioThirdInsertFailed.pairs 1 =
      some { PartnerID := 2, PartnerUsername := "beth", PartnerName := "Beth" } ∧
    isBanned scenarioThirdInsertFailed.db 2 = false ∧
    (handleReportReasonCallback scenarioThirdInsertFailed reportPartsB 2 1 1 true).1.reports 2
      = 4 ∧
    isBanned (handleReportReasonCallback scenarioThirdInsertFailed reportPartsB 2 1 1 true).1.db
      2 = true ∧
    (handleReportReasonCallback scenarioThirdInsertFailed reportPartsB 2 1 1 true).1.pairs 2
      = none ∧
    (handleReportReasonCallback scenarioThirdInsertFailed reportPartsB 2 1 1 true).2 =
      [{ chat := 1, notice := Notice.reportSubmitted "beth" "Other" 4 },
       { chat := 1, notice := Notice.partnerRemoved "adam" },
       { chat := adminGroupID, notice := Notice.autoBanned 2 "beth" "Other" },
       { chat := 1, notice := Notice.reportReceived },
       { chat := 1, notice := Notice.callbackSubmitted }] := by
  decide

/-- The threshold test of a stored filing (main.go 3041): a stored filing by a
reporter paired with the target raises the counter by 1; if the counter was 2
or more it runs `banUser`, ends the target's chat and notifies the moderation
group; if the counter was below 2 it does none of these. -/
theorem handleReportReasonCallback_ban_iff_threshold (s : State)
    (action reason idText : String) (more : List String) (reportedID reporterID chatID : Int)
    (p : BlindChatPair) (hp : s.pairs reporterID = some p) (hpid : p.PartnerID = reportedID) :
    (handleReportReasonCallback s (action :: reason :: idText :: more) reportedID reporterID
      chatID true).1.reports reportedID = s.reports reportedID + 1 ∧
    (2 ≤ s.reports reportedID →
      (handleReportReasonCallback s (action :: reason :: idText :: more) reportedID reporterID
        chatID true).1.db.users = (banUser s.db reportedID).users ∧
      (handleReportReasonCallback s (action :: reason :: idText :: more) reportedID reporterID
        chatID true).1.pairs = (endBlindChatForUser s reportedID).1.pairs ∧
      ({ chat := adminGroupID,
         notice := Notice.autoBanned reportedID (reportedUsernameOf s.db reportedID) reason }
          : Sent) ∈
        (handleReportReasonCallback s (action :: reason :: idText :: more) reportedID
          reporterID chatID true).2) ∧
    (s.reports reportedID < 2 →
      (handleReportReasonCallback s (action :: reason :: idText :: more) reportedID reporterID
        chatID true).1.db.users = s.db.users ∧
      (handleReportReasonCallback s (action :: reason :: idText :: more) reportedID reporterID
        chatID true).1.pairs = s.pairs ∧
      ∀ m ∈ (handleReportReasonCallback s (action :: reason :: idText :: more) reportedID
          reporterID chatID true).2,
        (∀ a b c, m.notice ≠ Notice.autoBanned a b c) ∧
        (∀ n, m.notice ≠ Notice.partnerRemoved n)) := by
  subst hpid
  refine ⟨?_, ?_, ?_⟩
  · rw [handleReportReasonCallback_accepted_reports s action reason idText more p.PartnerID
      reporterID chatID true p hp rfl]
    simp
  · intro h2
    have h3 : s.reports p.PartnerID + 1 ≥ 3 := by omega
    refine ⟨?_, ?_, ?_⟩
    · simp only [handleReportReasonCallback, hp, h3, ne_eq, not_true_eq_false, if_false,
        Bool.not_true, Bool.false_eq_true, if_true, endBlindChatForUser_db]
      exact banUser_users_congr _ _ _ rfl
    · simp only [handleReportReasonCallback, hp, h3, ne_eq, not_true_eq_false, if_false,
        Bool.not_true, Bool.false_eq_true, if_true]
      exact endBlindChatForUser_pairs_congr _ _ _ rfl
    · simp [handleReportReasonCallback, hp, h3, reportedUsernameOf, queryNames]
  · intro h2
    have h3 : ¬ s.reports p.PartnerID + 1 ≥ 3 := by omega
    simp [handleReportReasonCallback, hp, h3]

theorem handleReportReasonCallback_ban_iff_threshold_witness :
    (handleReportReasonCallback scenarioThirdInsertFailed
      ("report_reason" :: "Other" :: "2" :: []) 2 1 1 true).1.reports 2 =
        scenarioThirdInsertFailed.reports 2 + 1 ∧
    (2 ≤ scenarioThirdInsertFailed.reports 2 →
      (handleReportReasonCallback scenarioThirdInsertFailed
        ("report_reason" :: "Other" :: "2" :: []) 2 1 1 true).1.db.users =
          (banUser scenarioThirdInsertFailed.db 2).users ∧
      (handleReportReasonCallback scenarioThirdInsertFailed
        ("report_reason" :: "Other" :: "2" :: []) 2 1 1 true).1.pairs =
          (endBlindChatForUser scenarioThirdInsertFailed 2).1.pairs ∧
      ({ chat := adminGroupID,
         notice := Notice.autoBanned 2 (reportedUsernameOf scenarioThirdInsertFailed.db 2)
           "Other" } : Sent) ∈
        (handleReportReasonCallback scenarioThirdInsertFailed
          ("report_reason" :: "Other" :: "2" :: []) 2 1 1 true).2) ∧
    (scenarioThirdInsertFailed.reports 2 < 2 →
      (handleReportReasonCallback scenarioThirdInsertFailed
        ("report_reason" :: "Other" :: "2" :: []) 2 1 1 true).1.db.users =
          scenarioThirdInsertFailed.db.users ∧
      (handleReportReasonCallback scenarioThirdInsertFailed
        ("report_reason" :: "Other" :: "2" :: []) 2 1 1 true).1.pairs =
          scenarioThirdInsertFailed.pairs ∧
      ∀ m ∈ (handleReportReasonCallback scenarioThirdInsertFailed
          ("report_reason" :: "Other" :: "2" :: []) 2 1 1 true).2,
        (∀ a b c, m.notice ≠ Notice.autoBanned a b c) ∧
        (∀ n, m.notice ≠ Notice.partnerRemoved n)) :=
  handleReportReasonCallback_ban_iff_threshold scenarioThirdInsertFailed
    "report_reason" "Other" "2" [] 2 1 1
    { PartnerID := 2, PartnerUsername := "beth", PartnerName := "Beth" } (by decide) rfl


/-! ### The profile flow, step by step -/

theorem Atoi_cancelToken : Atoi cancelToken = none := by decide


/-- C14: at the profile age step, a text that parses as an integer `a` with
`18 ≤ a ≤ 50` stores `a` under "age" and moves the session to
`profile_years_campus`; any other text except the cancel token is answered with
"Invalid age" and the state, hence the session's step and data, is unchanged. -/
theorem handleProfileAge_accepts_iff (s : State) (userID chatID : Int) (text : String)
    (st : UserState) (hst : s.userStates userID = some st) :
    (∀ a, Atoi text = some a → 18 ≤ a → a ≤ 50 →
      handleProfileAge s userID chatID text =
        some ({ s with
                userStates := mapSet s.userStates userID
                  (storeAndAdvance st DataKey.age (Value.int a) "profile_years_campus") },
              [{ chat := chatID, notice := Notice.ageSaved }])) ∧
    (text ≠ cancelToken → (∀ a, Atoi text = some a → a < 18 ∨ a > 50) →
      handleProfileAge s userID chatID text =
        some (s, [{ chat := chatID, notice := Notice.invalidAge }])) := by
  constructor
  · intro a ha h18 h50
    have hc : text ≠ cancelToken := by
      intro e; rw [e, Atoi_cancelToken] at ha; cases ha
    have hr : ¬ (a < 18 ∨ a > 50) := by omega
    simp [handleProfileAge, hc, ha, hr, hst]
  · intro hc hbad
    unfold handleProfileAge
    rw [if_neg hc]
    cases ha : Atoi text with
    | none => rfl
    | some a => simp [hbad a ha]

theorem handleProfileAge_accepts_iff_witness :
    (∀ a, Atoi "22" = some a → 18 ≤ a → a ≤ 50 →
      handleProfileAge flowStart 4 4 "22" =
        some ({ flowStart with
                userStates := mapSet flowStart.userStates 4
                  (storeAndAdvance flowStartSession DataKey.age (Value.int a)
                    "profile_years_campus") },
              [{ chat := 4, notice := Notice.ageSaved }])) ∧
    ("22" ≠ cancelToken → (∀ a, Atoi "22" = some a → a < 18 ∨ a > 50) →
      handleProfileAge flowStart 4 4 "22" =
        some (flowStart, [{ chat := 4, notice := Notice.invalidAge }])) :=
  handleProfileAge_accepts_iff flowStart 4 4 "22" flowStartSession rfl

/-- C16: at every profile step a text other than the cancel token that fails the
step's validation is answered with the step's re-prompt and the handler returns
the state it was given, so the session's `Step` and `Data` are exactly as they
were. -/
theorem profile_invalid_input_reprompts (s : State) (userID chatID : Int) (text : String)
    (hc : text ≠ cancelToken) :
    ((∀ a, Atoi text = some a → a < 18 ∨ a > 50) →
      handleProfileAge s userID chatID text =
        some (s, [{ chat := chatID, notice := Notice.invalidAge }])) ∧
    ((∀ y, Atoi text = some y → y < 0 ∨ y > 10) →
      handleProfileYearsCampus s userID chatID text =
        some (s, [{ chat := chatID, notice := Notice.invalidYears }])) ∧
    (text ∉ validYears →
      handleProfileYearStudy s userID chatID text =
        some (s, [{ chat := chatID, notice := Notice.invalidYear }])) ∧
    (text ≠ "👨 Male Only" → text ≠ "👩 Female Only" → text ≠ "👫 Both Genders" →
      handleProfilePrefGender s userID chatID text =
        some (s, [{ chat := chatID, notice := Notice.invalidPreference }])) ∧
    (∀ st, s.userStates userID = some st →
      (st.Data DataKey.pref_age_min = none →
        (∀ a, Atoi text = some a → a < 18 ∨ a > 50) →
        handleProfilePrefAge s userID chatID text =
          some (s, [{ chat := chatID, notice := Notice.invalidMinAge }])) ∧
      (∀ m, st.Data DataKey.pref_age_min = some (Value.int m) →
        (∀ M, Atoi text = some M → M < m ∨ M > 50) →
        handleProfilePrefAge s userID chatID text =
            some (s, [{ chat := chatID, notice := Notice.invalidMaxNumber }]) ∨
        handleProfilePrefAge s userID chatID text =
            some (s, [{ chat := chatID, notice := Notice.invalidRange m }]))) := by
  refine ⟨?_, ?_, ?_, ?_, ?_⟩
  · intro hbad
    unfold handleProfileAge
    rw [if_neg hc]
    cases ha : Atoi text with
    | none => rfl
    | some a => simp [hbad a ha]
  · intro hbad
    unfold handleProfileYearsCampus
    rw [if_neg hc]
    cases ha : Atoi text with
    | none => rfl
    | some a => simp [hbad a ha]
  · intro hbad
    unfold handleProfileYearStudy
    rw [if_neg hc, if_pos hbad]
  · intro h1 h2 h3
    simp [handleProfilePrefGender, hc, prefValueOf, h1, h2, h3]
  · intro st hst
    constructor
    · intro hmin hbad
      unfold handleProfilePrefAge
      rw [if_neg hc]
      simp only [hst, hmin]
      cases ha : Atoi text with
      | none => rfl
      | some a => simp [hbad a ha]
    · intro m hmin hbad
      unfold handleProfilePrefAge
      rw [if_neg hc]
      simp only [hst, hmin]
      cases ha : Atoi text with
      | none => left; rfl
      | some M => right; simp [hbad M ha]

theorem profile_invalid_input_reprompts_witness :
    ((∀ a, Atoi "17" = some a → a < 18 ∨ a > 50) →
      handleProfileAge flowStart 4 4 "17" =
        some (flowStart, [{ chat := 4, notice := Notice.invalidAge }])) ∧
    ((∀ y, Atoi "17" = some y → y < 0 ∨ y > 10) →
      handleProfileYearsCampus flowStart 4 4 "17" =
        some (flowStart, [{ chat := 4, notice := Notice.invalidYears }])) ∧
    ("17" ∉ validYears →
      handleProfileYearStudy flowStart 4 4 "17" =
        some (flowStart, [{ chat := 4, notice := Notice.invalidYear }])) ∧
    ("17" ≠ "👨 Male Only" → "17" ≠ "👩 Female Only" → "17" ≠ "👫 Both Genders" →
      handleProfilePrefGender flowStart 4 4 "17" =
        some (flowStart, [{ chat := 4, notice := Notice.invalidPreference }])) ∧
    (∀ st, flowStart.userStates 4 = some st →
      (st.Data DataKey.pref_age_min = none →
        (∀ a, Atoi "17" = some a → a < 18 ∨ a > 50) →
        handleProfilePrefAge flowStart 4 4 "17" =
          some (flowStart, [{ chat := 4, notice := Notice.invalidMinAge }])) ∧
      (∀ m, st.Data DataKey.pref_age_min = some (Value.int m) →
        (∀ M, Atoi "17" = some M → M < m ∨ M > 50) →
        handleProfilePrefAge flowStart 4 4 "17" =
            some (flowStart, [{ chat := 4, notice := Notice.invalidMaxNumber }]) ∨
        handleProfilePrefAge flowStart 4 4 "17" =
            some (flowStart, [{ chat := 4, notice := Notice.invalidRange m }]))) :=
  profile_invalid_input_reprompts flowStart 4 4 "17" (by decide)

/-- C17: in the preferred-age step, with no minimum stored the text is taken as
the minimum and stored iff it parses as an integer in [18,50], the step staying
`profile_pref_age`; with a minimum `m` stored the text is taken as the maximum
and the profile is saved iff it parses as an integer `M` with `m ≤ M ≤ 50`; a
rejected text other than the cancel token leaves the state, hence the stored
minimum and the step, unchanged. -/
theorem handleProfilePrefAge_two_messages (s : State) (userID chatID : Int) (text : String)
    (st : UserState) (hst : s.userStates userID = some st) :
    (st.Data DataKey.pref_age_min = none →
      (∀ a, Atoi text = some a → 18 ≤ a → a ≤ 50 →
        handleProfilePrefAge s userID chatID text =
          some ({ s with
                  userStates := mapSet s.userStates userID
                    { st with Data := dataSet st.Data DataKey.pref_age_min (Value.int a) } },
                [{ chat := chatID, notice := Notice.minAgeSaved a }])) ∧
      (text ≠ cancelToken → (∀ a, Atoi text = some a → a < 18 ∨ a > 50) →
        handleProfilePrefAge s userID chatID text =
          some (s, [{ chat := chatID, notice := Notice.invalidMinAge }]))) ∧
    (∀ m, st.Data DataKey.pref_age_min = some (Value.int m) →
      (∀ M, Atoi text = some M → m ≤ M → M ≤ 50 →
        handleProfilePrefAge s userID chatID text =
          some ({ s with
                  db := saveBlindProfile s.db userID
                    (dataSet st.Data DataKey.pref_age_max (Value.int M)),
                  userStates := mapDelete s.userStates userID },
                showBlindProfile
                  (saveBlindProfile s.db userID
                    (dataSet st.Data DataKey.pref_age_max (Value.int M))) userID chatID)) ∧
      (text ≠ cancelToken → (∀ M, Atoi text = some M → M < m ∨ M > 50) →
        handleProfilePrefAge s userID chatID text =
            some (s, [{ chat := chatID, notice := Notice.invalidMaxNumber }]) ∨
        handleProfilePrefAge s userID chatID text =
            some (s, [{ chat := chatID, notice := Notice.invalidRange m }]))) := by
  constructor
  · intro hmin
    constructor
    · intro a ha h18 h50
      have hc : text ≠ cancelToken := by
        intro e; rw [e, Atoi_cancelToken] at ha; cases ha
      have hr : ¬ (a < 18 ∨ a > 50) := by omega
      simp [handleProfilePrefAge, hc, hst, hmin, ha, hr]
    · intro hc hbad
      unfold handleProfilePrefAge
      rw [if_neg hc]
      simp only [hst, hmin]
      cases ha : Atoi text with
      | none => rfl
      | some a => simp [hbad a ha]
  · intro m hmin
    constructor
    · intro M hM h1 h2
      have hc : text ≠ cancelToken := by
        intro e; rw [e, Atoi_cancelToken] at hM; cases hM
      have hr : ¬ (M < m ∨ M > 50) := by omega
      simp [handleProfilePrefAge, hc, hst, hmin, hM, hr]
    · intro hc hbad
      unfold handleProfilePrefAge
      rw [if_neg hc]
      simp only [hst, hmin]
      cases ha : Atoi text with
      | none => left; rfl
      | some M => right; simp [hbad M ha]

theorem flowMin_session : flowMin.userStates 4 = some flowMinSession := rfl

theorem flowMinSession_min : flowMinSession.Data DataKey.pref_age_min = some (Value.int 20) := by
  decide

theorem flowMinSession_step : flowMinSession.Step = "profile_pref_age" := by decide

theorem handleProfilePrefAge_two_messages_witness :
    (flowMinSession.Data DataKey.pref_age_min = none →
      (∀ a, Atoi "30" = some a → 18 ≤ a → a ≤ 50 →
        handleProfilePrefAge flowMin 4 4 "30" =
          some ({ flowMin with
                  userStates := mapSet flowMin.userStates 4
                    { flowMinSession with
                      Data := dataSet flowMinSession.Data DataKey.pref_age_min (Value.int a) } },
                [{ chat := 4, notice := Notice.minAgeSaved a }])) ∧
      ("30" ≠ cancelToken → (∀ a, Atoi "30" = some a → a < 18 ∨ a > 50) →
        handleProfilePrefAge flowMin 4 4 "30" =
          some (flowMin, [{ chat := 4, notice := Notice.invalidMinAge }]))) ∧
    (∀ m, flowMinSession.Data DataKey.pref_age_min = some (Value.int m) →
      (∀ M, Atoi "30" = some M → m ≤ M → M ≤ 50 →
        handleProfilePrefAge flowMin 4 4 "30" =
          some ({ flowMin with
                  db := saveBlindProfile flowMin.db 4
                    (dataSet flowMinSession.Data DataKey.pref_age_max (Value.int M)),
                  userStates := mapDelete flowMin.userStates 4 },
                showBlindProfile
                  (saveBlindProfile flowMin.db 4
                    (dataSet flowMinSession.Data DataKey.pref_age_max (Value.int M))) 4 4)) ∧
      ("30" ≠ cancelToken → (∀ M, Atoi "30" = some M → M < m ∨ M > 50) →
        handleProfilePrefAge flowMin 4 4 "30" =
            some (flowMin, [{ chat := 4, notice := Notice.invalidMaxNumber }]) ∨
        handleProfilePrefAge flowMin 4 4 "30" =
            some (flowMin, [{ chat := 4, notice := Notice.invalidRange m }]))) :=
  handleProfilePrefAge_two_messages flowMin 4 4 "30" flowMinSession flowMin_session

/-! ### The session invariant -/

theorem sessionsInv_set (m : Int → Option UserState) (u : Int) (st : UserState)
    (hm : SessionsInv m) (hst : SessionInv st) : SessionsInv (mapSet m u st) := by
  intro x sx hx
  unfold mapSet at hx
  split_ifs at hx
  · cases hx; exact hst
  · exact hm x sx hx

theorem sessionsInv_delete (m : Int → Option UserState) (u : Int) (hm : SessionsInv m) :
    SessionsInv (mapDelete m u) := by
  intro x sx hx
  unfold mapDelete at hx
  split_ifs at hx
  exact hm x sx hx

theorem sessionInv_of_not_profile (st : UserState) (h : profileStage st.Step = none) :
    SessionInv st := by
  intro i hi
  rw [h] at hi
  cases hi

theorem hasGender_dataSet (d : DataKey → Option Value) (k : DataKey) (v : Value)
    (hk : k ≠ DataKey.gender) (h : HasGender d) : HasGender (dataSet d k v) := by
  obtain ⟨g, hg⟩ := h
  exact ⟨g, by simp [dataSet, Ne.symm hk, hg]⟩

theorem ageOk_dataSet (d : DataKey → Option Value) (k : DataKey) (v : Value)
    (hk : k ≠ DataKey.age) (h : AgeOk d) : AgeOk (dataSet d k v) := by
  obtain ⟨a, ha, h1, h2⟩ := h
  exact ⟨a, by simp [dataSet, Ne.symm hk, ha], h1, h2⟩

theorem yearsOk_dataSet (d : DataKey → Option Value) (k : DataKey) (v : Value)
    (hk : k ≠ DataKey.years_on_campus) (h : YearsOk d) : YearsOk (dataSet d k v) := by
  obtain ⟨a, ha, h1, h2⟩ := h
  exact ⟨a, by simp [dataSet, Ne.symm hk, ha], h1, h2⟩

theorem yearOk_dataSet (d : DataKey → Option Value) (k : DataKey) (v : Value)
    (hk : k ≠ DataKey.year_of_study) (h : YearOk d) : YearOk (dataSet d k v) := by
  obtain ⟨a, ha, h1⟩ := h
  exact ⟨a, by simp [dataSet, Ne.symm hk, ha], h1⟩

theorem prefOk_dataSet (d : DataKey → Option Value) (k : DataKey) (v : Value)
    (hk : k ≠ DataKey.pref_gender) (h : PrefOk d) : PrefOk (dataSet d k v) := by
  obtain ⟨a, ha, h1⟩ := h
  exact ⟨a, by simp [dataSet, Ne.symm hk, ha], h1⟩

theorem minOk_dataSet (d : DataKey → Option Value) (k : DataKey) (v : Value)
    (hk : k ≠ DataKey.pref_age_min) (h : MinOk d) : MinOk (dataSet d k v) := by
  intro x hx
  apply h x
  simpa [dataSet, Ne.symm hk] using hx

theorem sessionInv_age (st : UserState) (a : Int) (h18 : 18 ≤ a) (h50 : a ≤ 50)
    (hstep : st.Step = "profile_age") (h : SessionInv st) :
    SessionInv (storeAndAdvance st DataKey.age (Value.int a) "profile_years_campus") := by
  obtain ⟨hg, hm, -⟩ := h 0 (by rw [hstep]; rfl)
  intro i hi
  have hi1 : i = 1 := by
    have : profileStage "profile_years_campus" = some 1 := by decide
    simp only [storeAndAdvance] at hi
    rw [this] at hi
    exact (Option.some.inj hi).symm
  subst hi1
  refine ⟨hasGender_dataSet _ _ _ (by decide) hg, minOk_dataSet _ _ _ (by decide) hm,
    fun _ => ⟨a, by simp [storeAndAdvance, dataSet], h18, h50⟩, ?_, ?_, ?_⟩ <;>
    intro hcontra <;> omega

theorem sessionInv_years (st : UserState) (y : Int) (h0 : 0 ≤ y) (h10 : y ≤ 10)
    (hstep : st.Step = "profile_years_campus") (h : SessionInv st) :
    SessionInv (storeAndAdvance st DataKey.years_on_campus (Value.int y)
      "profile_year_study") := by
  obtain ⟨hg, hm, ha, -⟩ := h 1 (by rw [hstep]; rfl)
  intro i hi
  have hi1 : i = 2 := by
    have : profileStage "profile_year_study" = some 2 := by decide
    simp only [storeAndAdvance] at hi
    rw [this] at hi
    exact (Option.some.inj hi).symm
  subst hi1
  refine ⟨hasGender_dataSet _ _ _ (by decide) hg, minOk_dataSet _ _ _ (by decide) hm,
    fun _ => ageOk_dataSet _ _ _ (by decide) (ha (le_refl 1)),
    fun _ => ⟨y, by simp [storeAndAdvance, dataSet], h0, h10⟩, ?_, ?_⟩ <;>
    intro hcontra <;> omega

theorem sessionInv_year (st : UserState) (l : String) (hl : l ∈ validYears)
    (hstep : st.Step = "profile_year_study") (h : SessionInv st) :
    SessionInv (storeAndAdvance st DataKey.year_of_study (Value.str l)
      "profile_pref_gender") := by
  obtain ⟨hg, hm, ha, hy, -⟩ := h 2 (by rw [hstep]; rfl)
  intro i hi
  have hi1 : i = 3 := by
    have : profileStage "profile_pref_gender" = some 3 := by decide
    simp only [storeAndAdvance] at hi
    rw [this] at hi
    exact (Option.some.inj hi).symm
  subst hi1
  refine ⟨hasGender_dataSet _ _ _ (by decide) hg, minOk_dataSet _ _ _ (by decide) hm,
    fun _ => ageOk_dataSet _ _ _ (by decide) (ha (by omega)),
    fun _ => yearsOk_dataSet _ _ _ (by decide) (hy (le_refl 2)),
    fun _ => ⟨l, by simp [storeAndAdvance, dataSet], hl⟩, ?_⟩
  intro hcontra; omega

theorem sessionInv_pref (st : UserState) (p : String)
    (hp : p = "male" ∨ p = "female" ∨ p = "both")
    (hstep : st.Step = "profile_pref_gender") (h : SessionInv st) :
    SessionInv (storeAndAdvance st DataKey.pref_gender (Value.str p) "profile_pref_age") := by
  obtain ⟨hg, hm, ha, hy, hl, -⟩ := h 3 (by rw [hstep]; rfl)
  intro i hi
  refine ⟨hasGender_dataSet _ _ _ (by decide) hg, minOk_dataSet _ _ _ (by decide) hm,
    fun _ => ageOk_dataSet _ _ _ (by decide) (ha (by omega)),
    fun _ => yearsOk_dataSet _ _ _ (by decide) (hy (by omega)),
    fun _ => yearOk_dataSet _ _ _ (by decide) (hl (le_refl 3)),
    fun _ => ⟨p, by simp [storeAndAdvance, dataSet], hp⟩⟩

theorem sessionInv_min (st : UserState) (m : Int) (h18 : 18 ≤ m) (h50 : m ≤ 50)
    (hstep : st.Step = "profile_pref_age") (h : SessionInv st) :
    SessionInv { st with Data := dataSet st.Data DataKey.pref_age_min (Value.int m) } := by
  obtain ⟨hg, -, ha, hy, hl, hp⟩ := h 4 (by rw [hstep]; rfl)
  intro i hi
  refine ⟨hasGender_dataSet _ _ _ (by decide) hg, ?_,
    fun _ => ageOk_dataSet _ _ _ (by decide) (ha (by omega)),
    fun _ => yearsOk_dataSet _ _ _ (by decide) (hy (by omega)),
    fun _ => yearOk_dataSet _ _ _ (by decide) (hl (by omega)),
    fun _ => prefOk_dataSet _ _ _ (by decide) (hp (le_refl 4))⟩
  intro v hv
  simp [dataSet] at hv
  exact ⟨m, hv.symm, h18, h50⟩

theorem profileStage_cases (step : String) (i : Nat) (h : profileStage step = some i) :
    step = "profile_age" ∨ step = "profile_years_campus" ∨ step = "profile_year_study" ∨
    step = "profile_pref_gender" ∨ step = "profile_pref_age" := by
  unfold profileStage at h
  split_ifs at h with h1 h2 h3 h4 h5
  · exact Or.inl h1
  · exact Or.inr (Or.inl h2)
  · exact Or.inr (Or.inr (Or.inl h3))
  · exact Or.inr (Or.inr (Or.inr (Or.inl h4)))
  · exact Or.inr (Or.inr (Or.inr (Or.inr h5)))

theorem handleProfileAge_shape (s : State) (u c : Int) (text : String) (st : UserState)
    (hst : s.userStates u = some st) (hstep : st.Step = "profile_age") (hinv : SessionInv st) :
    ∃ r, handleProfileAge s u c text = some r ∧ r.1.db = s.db ∧
      (r.1.userStates = s.userStates ∨
       (text = cancelToken ∧ r.1.userStates = mapDelete s.userStates u) ∨
       ∃ st2, r.1.userStates = mapSet s.userStates u st2 ∧ SessionInv st2 ∧
         st2.Step = "profile_years_campus") := by
  unfold handleProfileAge
  by_cases hc : text = cancelToken
  · rw [if_pos hc]
    exact ⟨_, rfl, rfl, Or.inr (Or.inl ⟨hc, rfl⟩)⟩
  · rw [if_neg hc]
    cases ha : Atoi text with
    | none => exact ⟨_, rfl, rfl, Or.inl rfl⟩
    | some a =>
      dsimp only
      by_cases hr : a < 18 ∨ a > 50
      · rw [if_pos hr]
        exact ⟨_, rfl, rfl, Or.inl rfl⟩
      · rw [if_neg hr, hst]
        exact ⟨_, rfl, rfl, Or.inr (Or.inr ⟨_, rfl,
          sessionInv_age st a (by omega) (by omega) hstep hinv, rfl⟩)⟩

theorem handleProfileYearsCampus_shape (s : State) (u c : Int) (text : String)
    (st : UserState) (hst : s.userStates u = some st)
    (hstep : st.Step = "profile_years_campus") (hinv : SessionInv st) :
    ∃ r, handleProfileYearsCampus s u c text = some r ∧ r.1.db = s.db ∧
      (r.1.userStates = s.userStates ∨
       (text = cancelToken ∧ r.1.userStates = mapDelete s.userStates u) ∨
       ∃ st2, r.1.userStates = mapSet s.userStates u st2 ∧ SessionInv st2 ∧
         st2.Step = "profile_year_study") := by
  unfold handleProfileYearsCampus
  by_cases hc : text = cancelToken
  · rw [if_pos hc]
    exact ⟨_, rfl, rfl, Or.inr (Or.inl ⟨hc, rfl⟩)⟩
  · rw [if_neg hc]
    cases ha : Atoi text with
    | none => exact ⟨_, rfl, rfl, Or.inl rfl⟩
    | some a =>
      dsimp only
      by_cases hr : a < 0 ∨ a > 10
      · rw [if_pos hr]
        exact ⟨_, rfl, rfl, Or.inl rfl⟩
      · rw [if_neg hr, hst]
        exact ⟨_, rfl, rfl, Or.inr (Or.inr ⟨_, rfl,
          sessionInv_years st a (by omega) (by omega) hstep hinv, rfl⟩)⟩

theorem handleProfileYearStudy_shape (s : State) (u c : Int) (text : String)
    (st : UserState) (hst : s.userStates u = some st)
    (hstep : st.Step = "profile_year_study") (hinv : SessionInv st) :
    ∃ r, handleProfileYearStudy s u c text = some r ∧ r.1.db = s.db ∧
      (r.1.userStates = s.userStates ∨
       (text = cancelToken ∧ r.1.userStates = mapDelete s.userStates u) ∨
       ∃ st2, r.1.userStates = mapSet s.userStates u st2 ∧ SessionInv st2 ∧
         st2.Step = "profile_pref_gender") := by
  unfold handleProfileYearStudy
  by_cases hc : text = cancelToken
  · rw [if_pos hc]
    exact ⟨_, rfl, rfl, Or.inr (Or.inl ⟨hc, rfl⟩)⟩
  · rw [if_neg hc]
    by_cases hv : text ∈ validYears
    · rw [if_neg (not_not.mpr hv), hst]
      exact ⟨_, rfl, rfl, Or.inr (Or.inr ⟨_, rfl, sessionInv_year st text hv hstep hinv, rfl⟩)⟩
    · rw [if_pos hv]
      exact ⟨_, rfl, rfl, Or.inl rfl⟩

theorem prefValueOf_range (pref p : String) (h : prefValueOf pref = some p) :
    p = "male" ∨ p = "female" ∨ p = "both" := by
  unfold prefValueOf at h
  split_ifs at h <;> cases h <;> simp

theorem handleProfilePrefGender_shape (s : State) (u c : Int) (text : String)
    (st : UserState) (hst : s.userStates u = some st)
    (hstep : st.Step = "profile_pref_gender") (hinv : SessionInv st) :
    ∃ r, handleProfilePrefGender s u c text = some r ∧ r.1.db = s.db ∧
      (r.1.userStates = s.userStates ∨
       (text = cancelToken ∧ r.1.userStates = mapDelete s.userStates u) ∨
       ∃ st2, r.1.userStates = mapSet s.userStates u st2 ∧ SessionInv st2 ∧
         st2.Step = "profile_pref_age") := by
  unfold handleProfilePrefGender
  by_cases hc : text = cancelToken
  · rw [if_pos hc]
    exact ⟨_, rfl, rfl, Or.inr (Or.inl ⟨hc, rfl⟩)⟩
  · rw [if_neg hc]
    cases hp : prefValueOf text with
    | none => exact ⟨_, rfl, rfl, Or.inl rfl⟩
    | some p =>
      dsimp only
      rw [hst]
      exact ⟨_, rfl, rfl, Or.inr (Or.inr ⟨_, rfl,
        sessionInv_pref st p (prefValueOf_range text p hp) hstep hinv, rfl⟩)⟩

theorem handleProfilePrefAge_shape (s : State) (u c : Int) (text : String)
    (st : UserState) (hst : s.userStates u = some st)
    (hstep : st.Step = "profile_pref_age") (hinv : SessionInv st) :
    ∃ r, handleProfilePrefAge s u c text = some r ∧
      ((r.1.db = s.db ∧ r.1.userStates = s.userStates) ∨
       (r.1.db = s.db ∧ text = cancelToken ∧ r.1.userStates = mapDelete s.userStates u) ∨
       (r.1.db = s.db ∧ ∃ st2, r.1.userStates = mapSet s.userStates u st2 ∧ SessionInv st2 ∧
         st2.Step = "profile_pref_age") ∨
       (r.1.userStates = mapDelete s.userStates u ∧
        ∃ m M, st.Data DataKey.pref_age_min = some (Value.int m) ∧ Atoi text = some M ∧
          m ≤ M ∧ M ≤ 50 ∧
          r.1.db = saveBlindProfile s.db u (dataSet st.Data DataKey.pref_age_max (Value.int M)))) := by
  unfold handleProfilePrefAge
  by_cases hc : text = cancelToken
  · rw [if_pos hc]
    exact ⟨_, rfl, Or.inr (Or.inl ⟨rfl, hc, rfl⟩)⟩
  · rw [if_neg hc, hst]
    dsimp only
    cases hmin : st.Data DataKey.pref_age_min with
    | none =>
      dsimp only
      cases ha : Atoi text with
      | none => exact ⟨_, rfl, Or.inl ⟨rfl, rfl⟩⟩
      | some a =>
        dsimp only
        by_cases hr : a < 18 ∨ a > 50
        · rw [if_pos hr]
          exact ⟨_, rfl, Or.inl ⟨rfl, rfl⟩⟩
        · rw [if_neg hr]
          exact ⟨_, rfl, Or.inr (Or.inr (Or.inl ⟨rfl, _, rfl,
            sessionInv_min st a (by omega) (by omega) hstep hinv, hstep⟩))⟩
    | some v =>
      obtain ⟨-, hmok, -⟩ := hinv 4 (by rw [hstep]; rfl)
      obtain ⟨m, hv, h18, h50⟩ := hmok v hmin
      subst hv
      dsimp only
      cases ha : Atoi text with
      | none => exact ⟨_, rfl, Or.inl ⟨rfl, rfl⟩⟩
      | some M =>
        dsimp only
        by_cases hr : M < m ∨ M > 50
        · rw [if_pos hr]
          exact ⟨_, rfl, Or.inl ⟨rfl, rfl⟩⟩
        · rw [if_neg hr]
          exact ⟨_, rfl, Or.inr (Or.inr (Or.inr
            ⟨rfl, m, M, rfl, rfl, by omega, by omega, rfl⟩))⟩

theorem sessionInv_lastActive (st : UserState) (now : Int) (h : SessionInv st) :
    SessionInv { st with LastActive := now } := h

theorem sessionsInv_touch (now : Int) (s : State) (u : Int)
    (h : SessionsInv s.userStates) : SessionsInv (touchSession now s u).userStates := by
  unfold touchSession
  cases hst : s.userStates u with
  | none =>
    exact sessionsInv_set _ _ _ h (sessionInv_of_not_profile _ (show profileStage "idle" = none by decide))
  | some st =>
    exact sessionsInv_set _ _ _ h (sessionInv_lastActive st now (h u st hst))

theorem sessionsInv_startProfileCreation (now : Int) (s : State) (u c : Int) (g : String)
    (h : SessionsInv s.userStates) :
    SessionsInv (startProfileCreation now s u c g).1.userStates := by
  unfold startProfileCreation
  refine sessionsInv_set _ _ _ h ?_
  intro i hi
  have hi0 : i = 0 := by
    have : profileStage "profile_age" = some 0 := by decide
    rw [this] at hi
    exact (Option.some.inj hi).symm
  subst hi0
  refine ⟨⟨g, by simp⟩, ?_, ?_, ?_, ?_, ?_⟩
  · intro v hv
    simp at hv
  all_goals intro hcontra; omega

theorem sessionsInv_blindDating (now : Int) (s : State) (u c : Int)
    (h : SessionsInv s.userStates) :
    SessionsInv (handleBlindDatingCommand now s u c).1.userStates := by
  unfold handleBlindDatingCommand
  cases getUserGender s.db u with
  | none => exact h
  | some g =>
    cases getBlindProfile s.db u with
    | none => exact sessionsInv_startProfileCreation now s u c g h
    | some profile =>
      dsimp only
      split_ifs
      · exact sessionsInv_startProfileCreation now s u c g h
      · exact h
      · exact h
      · exact h

theorem sessionsInv_startAdminContact (now : Int) (s : State) (u c : Int)
    (h : SessionsInv s.userStates) :
    SessionsInv (startAdminContact now s u c).1.userStates := by
  unfold startAdminContact
  split_ifs
  · exact h
  · exact sessionsInv_set _ _ _ h
      (sessionInv_of_not_profile _ (show profileStage "admin_contact" = none by decide))

theorem handleAdminContactMessage_userStates (now : Int) (s : State) (u c : Int)
    (msg : Message) (io uo : Bool) :
    (handleAdminContactMessage now s u c msg io uo).1.userStates = mapDelete s.userStates u := by
  unfold handleAdminContactMessage
  split_ifs
  · rfl
  · dsimp only
    split_ifs <;> rfl

theorem sessionsInv_handleUserState (now : Int) (s : State) (u c : Int) (msg : Message)
    (io uo : Bool) (h : SessionsInv s.userStates) :
    SessionsInv (resultState s (handleUserState now s u c msg io uo)).userStates := by
  unfold handleUserState
  cases hst : s.userStates u with
  | none => exact h
  | some st =>
    have hinv := h u st hst
    dsimp only
    split_ifs with h1 h2 h3 h4 h5 h6
    · obtain ⟨r, hr, -, hcase⟩ := handleProfileAge_shape s u c msg.text st hst h1 hinv
      rw [hr]
      rcases hcase with e | ⟨-, e⟩ | ⟨st2, e, hi, -⟩
      · simpa [resultState, e] using h
      · simpa [resultState, e] using sessionsInv_delete _ u h
      · simpa [resultState, e] using sessionsInv_set _ u st2 h hi
    · obtain ⟨r, hr, -, hcase⟩ := handleProfileYearsCampus_shape s u c msg.text st hst h2 hinv
      rw [hr]
      rcases hcase with e | ⟨-, e⟩ | ⟨st2, e, hi, -⟩
      · simpa [resultState, e] using h
      · simpa [resultState, e] using sessionsInv_delete _ u h
      · simpa [resultState, e] using sessionsInv_set _ u st2 h hi
    · obtain ⟨r, hr, -, hcase⟩ := handleProfileYearStudy_shape s u c msg.text st hst h3 hinv
      rw [hr]
      rcases hcase with e | ⟨-, e⟩ | ⟨st2, e, hi, -⟩
      · simpa [resultState, e] using h
      · simpa [resultState, e] using sessionsInv_delete _ u h
      · simpa [resultState, e] using sessionsInv_set _ u st2 h hi
    · obtain ⟨r, hr, -, hcase⟩ := handleProfilePrefGender_shape s u c msg.text st hst h4 hinv
      rw [hr]
      rcases hcase with e | ⟨-, e⟩ | ⟨st2, e, hi, -⟩
      · simpa [resultState, e] using h
      · simpa [resultState, e] using sessionsInv_delete _ u h
      · simpa [resultState, e] using sessionsInv_set _ u st2 h hi
    · obtain ⟨r, hr, hcase⟩ := handleProfilePrefAge_shape s u c msg.text st hst h5 hinv
      rw [hr]
      rcases hcase with ⟨-, e⟩ | ⟨-, -, e⟩ | ⟨-, st2, e, hi, -⟩ | ⟨e, -⟩
      · simpa [resultState, e] using h
      · simpa [resultState, e] using sessionsInv_delete _ u h
      · simpa [resultState, e] using sessionsInv_set _ u st2 h hi
      · simpa [resultState, e] using sessionsInv_delete _ u h
    · simp only [resultState, handleAdminContactMessage_userStates]
      exact sessionsInv_delete _ u h
    · exact h

theorem sessionsInv_reachable (s : State) (hs : FlowReachable s) :
    SessionsInv s.userStates := by
  induction hs with
  | init => intro u st h; simp [initState] at h
  | frame s t _ ht ih => rw [ht]; exact ih
  | touch s now userID _ ih => exact sessionsInv_touch now s userID ih
  | blindDating s now userID chatID _ ih => exact sessionsInv_blindDating now s userID chatID ih
  | userState s now userID chatID msg io uo _ ih =>
    exact sessionsInv_handleUserState now s userID chatID msg io uo ih
  | adminContact s now userID chatID _ ih => exact sessionsInv_startAdminContact now s userID chatID ih
  | removed s keep _ ih =>
    intro u st h
    dsimp only at h
    split_ifs at h
    exact ih u st h

theorem validProfileData_of_max (st : UserState) (m M : Int)
    (hstep : st.Step = "profile_pref_age") (hinv : SessionInv st)
    (hmin : st.Data DataKey.pref_age_min = some (Value.int m)) (h1 : m ≤ M) (h2 : M ≤ 50) :
    ValidProfileData (dataSet st.Data DataKey.pref_age_max (Value.int M)) := by
  obtain ⟨hg, hm, ha, hy, hl, hp⟩ := hinv 4 (by rw [hstep]; rfl)
  obtain ⟨m2, hm2, h18, -⟩ := hm _ hmin
  cases hm2
  refine ⟨hasGender_dataSet _ _ _ (by decide) hg,
    ageOk_dataSet _ _ _ (by decide) (ha (by omega)),
    yearsOk_dataSet _ _ _ (by decide) (hy (by omega)),
    yearOk_dataSet _ _ _ (by decide) (hl (by omega)),
    prefOk_dataSet _ _ _ (by decide) (hp (le_refl 4)),
    m, M, by simp [dataSet, hmin], by simp [dataSet], h18, h1, h2⟩

theorem flowStart_reachable : FlowReachable flowStart :=
  FlowReachable.blindDating _ 10 4 4
    (FlowReachable.frame initState { initState with db := flowStore } FlowReachable.init rfl)

theorem flowMin_reachable : FlowReachable flowMin :=
  FlowReachable.userState _ 60 4 4 (flowText "20") true true
    (FlowReachable.userState _ 50 4 4 (flowText "👫 Both Genders") true true
      (FlowReachable.userState _ 40 4 4 (flowText "2nd Year") true true
        (FlowReachable.userState _ 30 4 4 (flowText "3") true true
          (FlowReachable.userState _ 20 4 4 (flowText "22") true true flowStart_reachable))))

/-- C18: in every state the session engine can reach, when a message takes
`handleProfilePrefAge` to `saveBlindProfile` (a minimum is stored, the text
parses as `M`, and `M` passes the range test against the stored minimum), the
stored minimum is an int `m`, the data handed to `saveBlindProfile` holds all
seven fields with age in [18,50], years on campus in [0,10], one of the five
year labels, a preferred gender among male, female, both, and
`18 ≤ m ≤ M ≤ 50`, and the handler removes the user's session. -/
theorem saveBlindProfile_receives_valid_data (s : State) (hs : FlowReachable s)
    (now userID chatID : Int) (msg : Message) (insertOk updateOk : Bool) (st : UserState)
    (hst : s.userStates userID = some st) (hstep : st.Step = "profile_pref_age")
    (v : Value) (hmin : st.Data DataKey.pref_age_min = some v)
    (M : Int) (hparse : Atoi msg.text = some M) :
    ∃ m, v = Value.int m ∧
      (m ≤ M → M ≤ 50 →
        handleUserState now s userID chatID msg insertOk updateOk =
          some ({ s with
                  db := saveBlindProfile s.db userID
                    (dataSet st.Data DataKey.pref_age_max (Value.int M)),
                  userStates := mapDelete s.userStates userID },
                showBlindProfile
                  (saveBlindProfile s.db userID
                    (dataSet st.Data DataKey.pref_age_max (Value.int M))) userID chatID) ∧
        ValidProfileData (dataSet st.Data DataKey.pref_age_max (Value.int M)) ∧
        mapDelete s.userStates userID userID = none) := by
  have hinv := sessionsInv_reachable s hs userID st hst
  obtain ⟨-, hmok, -⟩ := hinv 4 (by rw [hstep]; rfl)
  obtain ⟨m, hv, -, -⟩ := hmok v hmin
  subst hv
  refine ⟨m, rfl, fun h1 h2 => ⟨?_, validProfileData_of_max st m M hstep hinv hmin h1 h2, ?_⟩⟩
  · have hc : msg.text ≠ cancelToken := by
      intro e; rw [e, Atoi_cancelToken] at hparse; cases hparse
    have hr : ¬ (M < m ∨ M > 50) := by omega
    have hd : handleUserState now s userID chatID msg insertOk updateOk =
        handleProfilePrefAge s userID chatID msg.text := by
      simp [handleUserState, hst, hstep]
    rw [hd]
    simp [handleProfilePrefAge, hc, hst, hmin, hparse, hr]
  · simp [mapDelete]

theorem saveBlindProfile_receives_valid_data_witness :
    ∃ m, Value.int 20 = Value.int m ∧
      (m ≤ 30 → (30 : Int) ≤ 50 →
        handleUserState 70 flowMin 4 4 (flowText "30") true true =
          some ({ flowMin with
                  db := saveBlindProfile flowMin.db 4
                    (dataSet flowMinSession.Data DataKey.pref_age_max (Value.int 30)),
                  userStates := mapDelete flowMin.userStates 4 },
                showBlindProfile
                  (saveBlindProfile flowMin.db 4
                    (dataSet flowMinSession.Data DataKey.pref_age_max (Value.int 30))) 4 4) ∧
        ValidProfileData (dataSet flowMinSession.Data DataKey.pref_age_max (Value.int 30)) ∧
        mapDelete flowMin.userStates 4 4 = none) :=
  saveBlindProfile_receives_valid_data flowMin flowMin_reachable 70 4 4 (flowText "30") true true
    flowMinSession flowMin_session flowMinSession_step (Value.int 20) flowMinSession_min 30
    (by decide)

/-- C19: in every state the session engine can reach, handling one message for a
user whose session is at a profile step returns (no panic) and leaves that
session at the same step, or at the immediate successor in `profile_age →
profile_years_campus → profile_year_study → profile_pref_gender →
profile_pref_age`, or removed, which happens only on the cancel token or at
`profile_pref_age` when the profile is saved. -/
theorem handleUserState_profile_progress (s : State) (hs : FlowReachable s)
    (now userID chatID : Int) (msg : Message) (insertOk updateOk : Bool) (st : UserState)
    (hst : s.userStates userID = some st) (i : Nat) (hstage : profileStage st.Step = some i) :
    ∃ r, handleUserState now s userID chatID msg insertOk updateOk = some r ∧
      ((r.1.userStates userID = none ∧
          (msg.text = cancelToken ∨ st.Step = "profile_pref_age")) ∨
       ∃ st2, r.1.userStates userID = some st2 ∧
         (st2.Step = st.Step ∨ nextProfileStep st.Step = some st2.Step)) := by
  have hinv := sessionsInv_reachable s hs userID st hst
  rcases profileStage_cases st.Step i hstage with h | h | h | h | h
  · have hd : handleUserState now s userID chatID msg insertOk updateOk =
        handleProfileAge s userID chatID msg.text := by
      simp [handleUserState, hst, h]
    obtain ⟨r, hr, -, hcase⟩ := handleProfileAge_shape s userID chatID msg.text st hst h hinv
    refine ⟨r, hd.trans hr, ?_⟩
    rcases hcase with e | ⟨hc, e⟩ | ⟨st2, e, -, hs2⟩
    · exact Or.inr ⟨st, by rw [e, hst], Or.inl rfl⟩
    · exact Or.inl ⟨by simp [e, mapDelete], Or.inl hc⟩
    · exact Or.inr ⟨st2, by simp [e, mapSet], Or.inr (by rw [h, hs2]; rfl)⟩
  · have hd : handleUserState now s userID chatID msg insertOk updateOk =
        handleProfileYearsCampus s userID chatID msg.text := by
      simp [handleUserState, hst, h]
    obtain ⟨r, hr, -, hcase⟩ :=
      handleProfileYearsCampus_shape s userID chatID msg.text st hst h hinv
    refine ⟨r, hd.trans hr, ?_⟩
    rcases hcase with e | ⟨hc, e⟩ | ⟨st2, e, -, hs2⟩
    · exact Or.inr ⟨st, by rw [e, hst], Or.inl rfl⟩
    · exact Or.inl ⟨by simp [e, mapDelete], Or.inl hc⟩
    · exact Or.inr ⟨st2, by simp [e, mapSet], Or.inr (by rw [h, hs2]; rfl)⟩
  · have hd : handleUserState now s userID chatID msg insertOk updateOk =
        handleProfileYearStudy s userID chatID msg.text := by
      simp [handleUserState, hst, h]
    obtain ⟨r, hr, -, hcase⟩ :=
      handleProfileYearStudy_shape s userID chatID msg.text st hst h hinv
    refine ⟨r, hd.trans hr, ?_⟩
    rcases hcase with e | ⟨hc, e⟩ | ⟨st2, e, -, hs2⟩
    · exact Or.inr ⟨st, by rw [e, hst], Or.inl rfl⟩
    · exact Or.inl ⟨by simp [e, mapDelete], Or.inl hc⟩
    · exact Or.inr ⟨st2, by simp [e, mapSet], Or.inr (by rw [h, hs2]; rfl)⟩
  · have hd : handleUserState now s userID chatID msg insertOk updateOk =
        handleProfilePrefGender s userID chatID msg.text := by
      simp [handleUserState, hst, h]
    obtain ⟨r, hr, -, hcase⟩ :=
      handleProfilePrefGender_shape s userID chatID msg.text st hst h hinv
    refine ⟨r, hd.trans hr, ?_⟩
    rcases hcase with e | ⟨hc, e⟩ | ⟨st2, e, -, hs2⟩
    · exact Or.inr ⟨st, by rw [e, hst], Or.inl rfl⟩
    · exact Or.inl ⟨by simp [e, mapDelete], Or.inl hc⟩
    · exact Or.inr ⟨st2, by simp [e, mapSet], Or.inr (by rw [h, hs2]; rfl)⟩
  · have hd : handleUserState now s userID chatID msg insertOk updateOk =
        handleProfilePrefAge s userID chatID msg.text := by
      simp [handleUserState, hst, h]
    obtain ⟨r, hr, hcase⟩ := handleProfilePrefAge_shape s userID chatID msg.text st hst h hinv
    refine ⟨r, hd.trans hr, ?_⟩
    rcases hcase with ⟨-, e⟩ | ⟨-, hc, e⟩ | ⟨-, st2, e, -, hs2⟩ | ⟨e, -⟩
    · exact Or.inr ⟨st, by rw [e, hst], Or.inl rfl⟩
    · exact Or.inl ⟨by simp [e, mapDelete], Or.inl hc⟩
    · exact Or.inr ⟨st2, by simp [e, mapSet], Or.inl (by rw [h, hs2])⟩
    · exact Or.inl ⟨by simp [e, mapDelete], Or.inr h⟩

theorem handleUserState_profile_progress_witness :
    ∃ r, handleUserState 20 flowStart 4 4 (flowText "22") true true = some r ∧
      ((r.1.userStates 4 = none ∧
          ((flowText "22").text = cancelToken ∨ flowStartSession.Step = "profile_pref_age")) ∨
       ∃ st2, r.1.userStates 4 = some st2 ∧
         (st2.Step = flowStartSession.Step ∨
          nextProfileStep flowStartSession.Step = some st2.Step)) :=
  handleUserState_profile_progress flowStart flowStart_reachable 20 4 4 (flowText "22") true
    true flowStartSession rfl 0 (by decide)


/-! ### The cancel token -/

theorem saveUser_of_hasGenderSet (db : Store) (msg : Message) (ok : Bool)
    (hg : hasGenderSet db msg.fromID = true) : saveUser db msg ok = db := by
  unfold hasGenderSet getUserGender at hg
  unfold saveUser
  cases hrow : db.users msg.fromID with
  | none => rw [hrow] at hg; cases hg
  | some row => cases ok <;> rfl

theorem touchSession_db (now : Int) (s : State) (u : Int) : (touchSession now s u).db = s.db :=
  rfl

theorem touchSession_session (now : Int) (s : State) (u : Int) :
    ∃ st2, (touchSession now s u).userStates u = some st2 ∧
      (∀ st, s.userStates u = some st → st2.Step = st.Step ∧ st2.Data = st.Data) ∧
      (s.userStates u = none → st2.Step = "idle") := by
  unfold touchSession
  cases hst : s.userStates u with
  | none =>
    refine ⟨{ Step := "idle", Data := fun _ => none, LastActive := now }, ?_, ?_, fun _ => rfl⟩
    · simp [mapSet]
    · intro st h; cases h
  | some st =>
    refine ⟨{ st with LastActive := now }, ?_, ?_, ?_⟩
    · simp [mapSet]
    · intro st0 h0
      cases h0
      exact ⟨rfl, rfl⟩
    · intro h; cases h

/-- C15 fails as stated: user 4 (gender set, not banned, private chat) has the
profile flow at `profile_age` and a pending text confession; the cancel token
removes the session and answers "Profile creation cancelled", but
`confessionWaiting[4]` is still "text", so a flow is still in progress. -/
theorem handleMessage_cancel_counterexample :
    hasGenderSet botTwoFlows.core.db 4 = true ∧
    isBanned botTwoFlows.core.db 4 = false ∧
    (botTwoFlows.core.userStates 4).map (fun st => st.Step) = some "profile_age" ∧
    botTwoFlows.confessionWaiting 4 = some "text" ∧
    (handleMessage 20 botTwoFlows (cancelMessage 4 "dana" "Dana") true true true).sent? =
      some [{ chat := 4, notice := Notice.profileCancelled }] ∧
    (handleMessage 20 botTwoFlows (cancelMessage 4 "dana" "Dana") true true true).bot?.map
      (fun b => (b.core.userStates 4).isSome) = some false ∧
    (handleMessage 20 botTwoFlows (cancelMessage 4 "dana" "Dana") true true true).bot?.map
      (fun b => b.confessionWaiting 4) = some (some "text") := by
  decide

theorem handleMessage_prelude (now : Int) (b : Bot) (msg : Message)
    (saveUserOk insertOk updateOk : Bool)
    (hcmd : msg.isCommand = false)
    (hg : hasGenderSet b.core.db msg.fromID = true)
    (hban : isBanned b.core.db msg.fromID = false) :
    handleMessage now b msg saveUserOk insertOk updateOk =
      match b.commentWaiting msg.fromID with
      | some commentData =>
        if commentData.WaitingForComment then
          handleUserComment { b with core := touchSession now b.core msg.fromID } msg.fromID
            msg.chatID msg
        else
          handleMessageRest now { b with core := touchSession now b.core msg.fromID } msg
            insertOk updateOk
      | none =>
        handleMessageRest now { b with core := touchSession now b.core msg.fromID } msg
          insertOk updateOk := by
  have hsave : saveUser b.core.db msg saveUserOk = b.core.db :=
    saveUser_of_hasGenderSet _ _ _ hg
  have h1 : ¬ (msg.chatID = msg.fromID ∧ hasGenderSet b.core.db msg.fromID = false ∧
      msg.isCommand = false ∧ (msg.text = "👨 Male" ∨ msg.text = "👩 Female")) := by
    simp [hg]
  have h2 : ¬ (msg.chatID = msg.fromID ∧ hasGenderSet b.core.db msg.fromID = false) := by
    simp [hg]
  have h3 : ¬ (isBanned b.core.db msg.fromID = true) := by simp [hban]
  have h4 : ¬ (msg.isCommand = true ∧ msg.command = "start") := by simp [hcmd]
  unfold handleMessage
  simp only [touchSession_db, hsave]
  rw [if_neg h1, if_neg h2, if_neg h3, if_neg h4]
  rfl

/-- C15 (amended): for a user with gender set who is not banned, a plain message
in the private chat whose text is the cancel token cancels the one flow that
`handleMessage` dispatches to first and leaves the other pending state as it
was: a comment that is waited for is removed from `commentWaiting`; otherwise a
session at a profile step or at `admin_contact` is removed with its scratch
data; otherwise, with an idle session, a pending confession type is removed
from `confessionWaiting`. -/
theorem handleMessage_cancel_dispatch (now : Int) (b : Bot) (msg : Message)
    (saveUserOk insertOk updateOk : Bool)
    (hpriv : msg.chatID = msg.fromID) (htext : msg.text = cancelToken)
    (hcmd : msg.isCommand = false)
    (hg : hasGenderSet b.core.db msg.fromID = true)
    (hban : isBanned b.core.db msg.fromID = false) :
    (∀ cd, b.commentWaiting msg.fromID = some cd → cd.WaitingForComment = true →
      ∃ b2, handleMessage now b msg saveUserOk insertOk updateOk =
          Handled.finished b2 [{ chat := msg.chatID, notice := Notice.commentCancelled }] ∧
        b2.commentWaiting msg.fromID = none ∧
        b2.confessionWaiting = b.confessionWaiting ∧
        ∀ st, b.core.userStates msg.fromID = some st →
          ∃ st2, b2.core.userStates msg.fromID = some st2 ∧ st2.Step = st.Step ∧
            st2.Data = st.Data) ∧
    ((∀ cd, b.commentWaiting msg.fromID = some cd → cd.WaitingForComment = false) →
      ∀ st, b.core.userStates msg.fromID = some st →
        (profileStage st.Step ≠ none ∨ st.Step = "admin_contact") →
        ∃ b2 sent, handleMessage now b msg saveUserOk insertOk updateOk =
            Handled.finished b2 sent ∧
          b2.core.userStates msg.fromID = none ∧
          b2.confessionWaiting = b.confessionWaiting ∧
          b2.commentWaiting = b.commentWaiting) ∧
    ((∀ cd, b.commentWaiting msg.fromID = some cd → cd.WaitingForComment = false) →
      (∀ st, b.core.userStates msg.fromID = some st → st.Step = "idle") →
      ∀ t, b.confessionWaiting msg.fromID = some t → t ≠ "" →
        ∃ b2, handleMessage now b msg saveUserOk insertOk updateOk =
            Handled.finished b2 [{ chat := msg.chatID, notice := Notice.confessionCancelled }] ∧
          b2.confessionWaiting msg.fromID = none ∧
          b2.commentWaiting = b.commentWaiting ∧
          ∃ st2, b2.core.userStates msg.fromID = some st2 ∧ st2.Step = "idle") := by
  have hpre := handleMessage_prelude now b msg saveUserOk insertOk updateOk hcmd hg hban
  obtain ⟨ts, hts, hkeep, hidle⟩ := touchSession_session now b.core msg.fromID
  refine ⟨?_, ?_, ?_⟩
  · intro cd hcd hw
    rw [hpre, hcd]
    simp only [hw, if_true]
    unfold handleUserComment
    rw [if_neg (by simp [hpriv]), if_pos (Or.inl htext)]
    refine ⟨_, rfl, by simp [mapDelete], rfl, ?_⟩
    intro st hst
    exact ⟨ts, hts, (hkeep st hst).1, (hkeep st hst).2⟩
  · intro hnc st hst hstep
    have hrest : handleMessage now b msg saveUserOk insertOk updateOk =
        handleMessageRest now { b with core := touchSession now b.core msg.fromID } msg
          insertOk updateOk := by
      rw [hpre]
      cases hcd : b.commentWaiting msg.fromID with
      | none => rfl
      | some cd => simp [hnc cd hcd]
    rw [hrest]
    unfold handleMessageRest
    simp only [hts]
    have hstep2 : ts.Step = st.Step := (hkeep st hst).1
    have hne : ts.Step ≠ "idle" := by
      rw [hstep2]
      rcases hstep with h | h
      · intro e; rw [e] at h; exact h (by decide)
      · rw [h]; decide
    rw [if_pos hne]
    have hcancel : handleUserState now (touchSession now b.core msg.fromID) msg.fromID msg.chatID
        msg insertOk updateOk =
        some ({ touchSession now b.core msg.fromID with
                userStates := mapDelete (touchSession now b.core msg.fromID).userStates
                  msg.fromID },
              if ts.Step = "admin_contact" then
                [{ chat := msg.chatID, notice := Notice.adminContactCancelled }]
              else [{ chat := msg.chatID, notice := Notice.profileCancelled }]) := by
      unfold handleUserState
      simp only [hts]
      rcases hstep with h | h
      · cases hi : profileStage st.Step with
        | none => exact absurd hi h
        | some i =>
          have hna : ts.Step ≠ "admin_contact" := by
            rw [hstep2]
            intro e
            rw [e] at hi
            have hn : profileStage "admin_contact" = none := by decide
            rw [hn] at hi
            cases hi
          rcases profileStage_cases st.Step i hi with e | e | e | e | e <;>
            simp [hstep2, e, handleProfileAge, handleProfileYearsCampus, handleProfileYearStudy,
              handleProfilePrefGender, handleProfilePrefAge, htext, cancelProfile]
      · simp [hstep2, h, handleAdminContactMessage, htext]
    rw [hcancel]
    exact ⟨_, _, rfl, by simp [mapDelete], rfl, rfl⟩
  · intro hnc hidle2 t ht htne
    have hrest : handleMessage now b msg saveUserOk insertOk updateOk =
        handleMessageRest now { b with core := touchSession now b.core msg.fromID } msg
          insertOk updateOk := by
      rw [hpre]
      cases hcd : b.commentWaiting msg.fromID with
      | none => rfl
      | some cd => simp [hnc cd hcd]
    rw [hrest]
    unfold handleMessageRest
    simp only [hts]
    have hstep : ts.Step = "idle" := by
      cases hst : b.core.userStates msg.fromID with
      | none => exact hidle hst
      | some st => rw [(hkeep st hst).1]; exact hidle2 st hst
    rw [if_neg (by simp [hstep])]
    simp only [hcmd, Bool.false_eq_true, if_false]
    have hpend : confessionPending { b with core := touchSession now b.core msg.fromID }
        msg.fromID = some t := by
      simp [confessionPending, ht, htne]
    rw [hpend]
    unfold handleConfessionContent
    dsimp only
    rw [if_pos htext]
    exact ⟨_, rfl, by simp [mapDelete], rfl, ts, hts, hstep⟩

theorem handleMessage_cancel_dispatch_witness :
    (∀ cd, botProfileFlow.commentWaiting (cancelMessage 4 "dana" "Dana").fromID = some cd →
      cd.WaitingForComment = true →
      ∃ b2, handleMessage 20 botProfileFlow (cancelMessage 4 "dana" "Dana") true true true =
          Handled.finished b2
            [{ chat := (cancelMessage 4 "dana" "Dana").chatID,
               notice := Notice.commentCancelled }] ∧
        b2.commentWaiting (cancelMessage 4 "dana" "Dana").fromID = none ∧
        b2.confessionWaiting = botProfileFlow.confessionWaiting ∧
        ∀ st, botProfileFlow.core.userStates (cancelMessage 4 "dana" "Dana").fromID = some st →
          ∃ st2, b2.core.userStates (cancelMessage 4 "dana" "Dana").fromID = some st2 ∧
            st2.Step = st.Step ∧ st2.Data = st.Data) ∧
    ((∀ cd, botProfileFlow.commentWaiting (cancelMessage 4 "dana" "Dana").fromID = some cd →
        cd.WaitingForComment = false) →
      ∀ st, botProfileFlow.core.userStates (cancelMessage 4 "dana" "Dana").fromID = some st →
        (profileStage st.Step ≠ none ∨ st.Step = "admin_contact") →
        ∃ b2 sent, handleMessage 20 botProfileFlow (cancelMessage 4 "dana" "Dana") true true
            true = Handled.finished b2 sent ∧
          b2.core.userStates (cancelMessage 4 "dana" "Dana").fromID = none ∧
          b2.confessionWaiting = botProfileFlow.confessionWaiting ∧
          b2.commentWaiting = botProfileFlow.commentWaiting) ∧
    ((∀ cd, botProfileFlow.commentWaiting (cancelMessage 4 "dana" "Dana").fromID = some cd →
        cd.WaitingForComment = false) →
      (∀ st, botProfileFlow.core.userStates (cancelMessage 4 "dana" "Dana").fromID = some st →
        st.Step = "idle") →
      ∀ t, botProfileFlow.confessionWaiting (cancelMessage 4 "dana" "Dana").fromID = some t →
        t ≠ "" →
        ∃ b2, handleMessage 20 botProfileFlow (cancelMessage 4 "dana" "Dana") true true true =
            Handled.finished b2
              [{ chat := (cancelMessage 4 "dana" "Dana").chatID,
                 notice := Notice.confessionCancelled }] ∧
          b2.confessionWaiting (cancelMessage 4 "dana" "Dana").fromID = none ∧
          b2.commentWaiting = botProfileFlow.commentWaiting ∧
          ∃ st2, b2.core.userStates (cancelMessage 4 "dana" "Dana").fromID = some st2 ∧
            st2.Step = "idle") :=
  handleMessage_cancel_dispatch 20 botProfileFlow (cancelMessage 4 "dana" "Dana") true true true
    rfl rfl rfl (by decide) (by decide)

/-! ### The voice anonymizer -/

theorem choosePitchFactor_male (random : Nat) :
    choosePitchFactor "male" random ∈ maleFactors := by
  unfold choosePitchFactor
  rw [if_pos rfl]
  have h : random % maleFactors.length < 4 := Nat.mod_lt _ (by decide)
  generalize random % maleFactors.length = i at h
  interval_cases i <;> decide

theorem choosePitchFactor_not_male (gender : String) (hg : gender ≠ "male") (random : Nat) :
    choosePitchFactor gender random ∈ femaleFactors := by
  unfold choosePitchFactor
  rw [if_neg hg]
  have h : random % femaleFactors.length < 3 := Nat.mod_lt _ (by decide)
  generalize random % femaleFactors.length = i at h
  interval_cases i <;> decide

theorem anonymizeVoice_pitchFactor (env : VoiceEnv) (gender f : String)
    (h : (anonymizeVoice env gender).pitchFactor = some f) :
    f = choosePitchFactor gender env.random := by
  unfold anonymizeVoice at h
  cases h1 : env.getFileOk
  · simp [h1] at h
  cases h2 : env.mkdirOk
  · simp [h1, h2] at h
  simp only [h1, h2, Bool.not_true, Bool.false_eq_true, if_false] at h
  by_cases h3 : (!env.wgetOk && !env.curlOk) = true
  · simp [h3] at h
  simp only [h3, if_false] at h
  cases h4 : env.inputSize with
  | none => simp [h4] at h
  | some n =>
    cases n with
    | zero => simp [h4] at h
    | succ k =>
      simp only [h4] at h
      cases h5 : env.normalizeOk
      · simp [h5] at h
      cases h6 : env.tempWavExists
      · simp [h5, h6] at h
      simp only [h5, h6, Bool.not_true, Bool.false_eq_true, if_false] at h
      by_cases h7 : (!env.rubberbandOk && !env.fallbackOk) = true
      · simp only [h7, if_true] at h
        exact (Option.some.inj h).symm
      simp only [h7, if_false] at h
      cases h8 : env.encodeOk
      · simp only [h8, Bool.not_false, if_true] at h
        exact (Option.some.inj h).symm
      cases h9 : env.finalExists
      · simp only [h8, h9, Bool.not_true, Bool.not_false, Bool.false_eq_true, if_false,
          if_true] at h
        exact (Option.some.inj h).symm
      cases h10 : env.readOk
      · simp only [h8, h9, h10, Bool.not_true, Bool.not_false, Bool.false_eq_true, if_false,
          if_true] at h
        exact (Option.some.inj h).symm
      cases h11 : env.uploadOk
      · simp only [h8, h9, h10, h11, Bool.not_true, Bool.not_false, Bool.false_eq_true,
          if_false, if_true] at h
        exact (Option.some.inj h).symm
      simp only [h8, h9, h10, h11, Bool.not_true, Bool.false_eq_true, if_false] at h
      cases h12 : env.uploadedVoice with
      | none =>
        simp only [h12] at h
        exact (Option.some.inj h).symm
      | some fileID =>
        simp only [h12] at h
        exact (Option.some.inj h).symm

/-- C20: whenever a run of `anonymizeVoice` reaches the pitch-shift stage, the
pitch factor it chose is one of 0.97, 0.99, 1.01, 1.03 when the gender is "male"
and one of 1.05, 1.07, 1.09 when the gender is "female", whatever number the
random source yields. -/
theorem anonymizeVoice_pitch_factor_in_set (env : VoiceEnv) (gender f : String)
    (h : (anonymizeVoice env gender).pitchFactor = some f) :
    (gender = "male" → f ∈ ["0.97", "0.99", "1.01", "1.03"]) ∧
    (gender = "female" → f ∈ ["1.05", "1.07", "1.09"]) := by
  rw [anonymizeVoice_pitchFactor env gender f h]
  constructor
  · intro hg
    subst hg
    exact choosePitchFactor_male env.random
  · intro hg
    subst hg
    exact choosePitchFactor_not_male "female" (by decide) env.random

theorem anonymizeVoice_pitch_factor_in_set_witness :
    (anonymizeVoice voiceEnvAllOk "female").pitchFactor = some "1.07" ∧
    (("female" = "male" → "1.07" ∈ ["0.97", "0.99", "1.01", "1.03"]) ∧
     ("female" = "female" → "1.07" ∈ ["1.05", "1.07", "1.09"])) :=
  ⟨by decide, anonymizeVoice_pitch_factor_in_set voiceEnvAllOk "female" "1.07" (by decide)⟩

theorem fallbackRatio_fixed (gender r : String) (hr : r = fallbackRatio gender) :
    (gender = "male" → r = "0.85") ∧ (gender = "female" → r = "1.15") ∧
    r ∉ maleFactors ∧ r ∉ femaleFactors := by
  subst hr
  unfold fallbackRatio
  by_cases hg : gender = "male"
  · subst hg
    decide
  · rw [if_neg hg]
    exact ⟨fun h => absurd h hg, fun _ => rfl, by decide, by decide⟩

/-- C21: in every run of `anonymizeVoice` the resample fallback is run exactly
when the primary pitch-shift process was run and failed (so never when it
succeeded), and a fallback that is run uses the fixed ratio 0.85 for gender
"male" and 1.15 for gender "female", which is none of the randomized factors. -/
theorem anonymizeVoice_fallback_iff_primary_fails (env : VoiceEnv) (gender : String) :
    ((∃ r, VoiceCommand.fallback r ∈ (anonymizeVoice env gender).commands) ↔
      ((∃ p, VoiceCommand.rubberband p ∈ (anonymizeVoice env gender).commands) ∧
        env.rubberbandOk = false)) ∧
    (∀ r, VoiceCommand.fallback r ∈ (anonymizeVoice env gender).commands →
      (gender = "male" → r = "0.85") ∧ (gender = "female" → r = "1.15") ∧
      r ∉ maleFactors ∧ r ∉ femaleFactors) := by
  unfold anonymizeVoice
  cases h1 : env.getFileOk
  · simp
  cases h2 : env.mkdirOk
  · simp
  simp only [Bool.not_true, Bool.false_eq_true, if_false]
  have hd1 : ∀ r, VoiceCommand.fallback r ∉
      (if env.wgetOk = true then [VoiceCommand.wget]
        else [VoiceCommand.wget, VoiceCommand.curl]) := by
    intro r
    cases env.wgetOk <;> simp
  have hd2 : ∀ p, VoiceCommand.rubberband p ∉
      (if env.wgetOk = true then [VoiceCommand.wget]
        else [VoiceCommand.wget, VoiceCommand.curl]) := by
    intro p
    cases env.wgetOk <;> simp
  generalize (if env.wgetOk = true then [VoiceCommand.wget]
        else [VoiceCommand.wget, VoiceCommand.curl]) = download at hd1 hd2 ⊢
  by_cases h3 : (!env.wgetOk && !env.curlOk) = true
  · simp [h3, hd1, hd2]
  simp only [h3, if_false]
  cases h4 : env.inputSize with
  | none => simp [hd1, hd2]
  | some n =>
    cases n with
    | zero => simp [hd1, hd2]
    | succ k =>
      simp only []
      cases h5 : env.normalizeOk
      · simp [hd1, hd2]
      cases h6 : env.tempWavExists
      · simp [hd1, hd2]
      simp only [Bool.not_true, Bool.false_eq_true, if_false]
      cases h7 : env.rubberbandOk
      · cases h8 : env.fallbackOk <;> cases h9 : env.encodeOk <;>
          cases h10 : env.finalExists <;> cases h11 : env.readOk <;>
          cases h12 : env.uploadOk <;> cases h13 : env.uploadedVoice <;>
          simp [hd1, hd2] <;> exact fallbackRatio_fixed gender _ rfl
      · cases h9 : env.encodeOk <;>
          cases h10 : env.finalExists <;> cases h11 : env.readOk <;>
          cases h12 : env.uploadOk <;> cases h13 : env.uploadedVoice <;>
          simp [hd1, hd2]

theorem anonymizeVoice_fallback_iff_primary_fails_witness :
    (∃ r, VoiceCommand.fallback r ∈ (anonymizeVoice voiceEnvNoRubberband "male").commands) ∧
    VoiceCommand.fallback "0.85" ∈ (anonymizeVoice voiceEnvNoRubberband "male").commands ∧
    ¬ (∃ r, VoiceCommand.fallback r ∈ (anonymizeVoice voiceEnvAllOk "male").commands) :=
  ⟨((anonymizeVoice_fallback_iff_primary_fails voiceEnvNoRubberband "male").1).mpr
      ⟨⟨"1.03", by decide⟩, rfl⟩,
    by decide,
    fun h => absurd
      (((anonymizeVoice_fallback_iff_primary_fails voiceEnvAllOk "male").1).mp h).2
      (by decide)⟩

/-- C22: a run of `anonymizeVoice` ends with a file id only if the fetch, the
download, the normalization, one of the two pitch shifts, the encoding and the
upload all succeeded, and the id is the one the upload returned; a failed
normalization ends the run with an error before any pitch shift, encoding or
upload is attempted; a failure of both pitch shifts, of the encoding or of the
upload ends the run with an error and the empty reference, with no later stage
attempted. -/
theorem anonymizeVoice_success_only_if_all_stages (env : VoiceEnv) (gender : String) :
    (∀ fileID, (anonymizeVoice env gender).outcome = VoiceOutcome.ok fileID →
      env.getFileOk = true ∧ (env.wgetOk = true ∨ env.curlOk = true) ∧
      env.normalizeOk = true ∧ (env.rubberbandOk = true ∨ env.fallbackOk = true) ∧
      env.encodeOk = true ∧ env.uploadOk = true ∧ env.uploadedVoice = some fileID) ∧
    (VoiceCommand.normalize ∈ (anonymizeVoice env gender).commands →
      env.normalizeOk = false →
      (anonymizeVoice env gender).outcome = VoiceOutcome.error VoiceError.normalize ∧
      (anonymizeVoice env gender).outcome.reference = some "" ∧
      ∀ c ∈ (anonymizeVoice env gender).commands,
        c = VoiceCommand.wget ∨ c = VoiceCommand.curl ∨ c = VoiceCommand.normalize) ∧
    ((∃ p, VoiceCommand.rubberband p ∈ (anonymizeVoice env gender).commands) →
      env.rubberbandOk = false → env.fallbackOk = false →
      (anonymizeVoice env gender).outcome = VoiceOutcome.error VoiceError.fallback ∧
      (anonymizeVoice env gender).outcome.reference = some "" ∧
      VoiceCommand.encode ∉ (anonymizeVoice env gender).commands ∧
      ∀ g p, VoiceCommand.upload g p ∉ (anonymizeVoice env gender).commands) ∧
    (VoiceCommand.encode ∈ (anonymizeVoice env gender).commands →
      env.encodeOk = false →
      (anonymizeVoice env gender).outcome = VoiceOutcome.error VoiceError.encode ∧
      (anonymizeVoice env gender).outcome.reference = some "" ∧
      ∀ g p, VoiceCommand.upload g p ∉ (anonymizeVoice env gender).commands) ∧
    ((∃ g p, VoiceCommand.upload g p ∈ (anonymizeVoice env gender).commands) →
      env.uploadOk = false →
      (anonymizeVoice env gender).outcome = VoiceOutcome.error VoiceError.upload ∧
      (anonymizeVoice env gender).outcome.reference = some "") := by
  generalize hrun : anonymizeVoice env gender = run
  unfold anonymizeVoice at hrun
  cases h1 : env.getFileOk
  · simp only [h1, Bool.not_false, if_true] at hrun
    subst hrun
    simp
  cases h2 : env.mkdirOk
  · simp only [h1, h2, Bool.not_true, Bool.not_false, Bool.false_eq_true, if_false,
      if_true] at hrun
    subst hrun
    simp
  simp only [h1, h2, Bool.not_true, Bool.false_eq_true, if_false] at hrun
  have hd : ∀ c ∈ (if env.wgetOk = true then [VoiceCommand.wget]
        else [VoiceCommand.wget, VoiceCommand.curl]),
      c = VoiceCommand.wget ∨ c = VoiceCommand.curl := by
    intro c
    cases env.wgetOk
    · simp
    · simp
      exact Or.inl
  generalize (if env.wgetOk = true then [VoiceCommand.wget]
        else [VoiceCommand.wget, VoiceCommand.curl]) = download at hd hrun
  have hd1 : VoiceCommand.normalize ∉ download := fun h => by
    rcases hd _ h with h | h <;> cases h
  have hd2 : ∀ p, VoiceCommand.rubberband p ∉ download := fun p h => by
    rcases hd _ h with h | h <;> cases h
  have hd3 : VoiceCommand.encode ∉ download := fun h => by
    rcases hd _ h with h | h <;> cases h
  have hd4 : ∀ g p, VoiceCommand.upload g p ∉ download := fun g p h => by
    rcases hd _ h with h | h <;> cases h
  by_cases h3 : (!env.wgetOk && !env.curlOk) = true
  · simp only [h3, if_true] at hrun
    subst hrun
    simp [hd1, hd2, hd3, hd4]
  simp only [h3, if_false] at hrun
  have h3' : env.wgetOk = true ∨ env.curlOk = true := by
    cases hw : env.wgetOk <;> cases hc : env.curlOk <;> simp [hw, hc] at h3 ⊢
  cases h4 : env.inputSize with
  | none =>
    simp only [h4] at hrun
    subst hrun
    simp [hd1, hd2, hd3, hd4]
  | some n =>
    cases n with
    | zero =>
      simp only [h4] at hrun
      subst hrun
      simp [hd1, hd2, hd3, hd4]
    | succ k =>
      simp only [h4] at hrun
      cases h5 : env.normalizeOk
      · simp only [h5, Bool.not_false, if_true] at hrun
        subst hrun
        simp [hd1, hd2, hd3, hd4, VoiceOutcome.reference]
        intro c hc
        rcases hc with hc | hc
        · rcases hd c hc with h | h
          · exact Or.inl h
          · exact Or.inr (Or.inl h)
        · exact Or.inr (Or.inr hc)
      cases h6 : env.tempWavExists
      · simp only [h5, h6, Bool.not_true, Bool.not_false, Bool.false_eq_true, if_false,
          if_true] at hrun
        subst hrun
        simp [hd1, hd2, hd3, hd4]
      simp only [h5, h6, Bool.not_true, Bool.false_eq_true, if_false] at hrun
      cases h7 : env.rubberbandOk
      · cases h8 : env.fallbackOk
        · simp only [h7, h8, Bool.not_true, Bool.not_false, Bool.false_eq_true, Bool.and_self,
            Bool.and_true, Bool.and_false, Bool.true_and, Bool.false_and, if_false, if_true] at hrun
          subst hrun
          simp [hd1, hd2, hd3, hd4, VoiceOutcome.reference, h3', h7, h8]
        · cases h9 : env.encodeOk
          · simp only [h7, h8, h9, Bool.not_true, Bool.not_false, Bool.false_eq_true, Bool.and_self,
              Bool.and_true, Bool.and_false, Bool.true_and, Bool.false_and, if_false, if_true] at hrun
            subst hrun
            simp [hd1, hd2, hd3, hd4, VoiceOutcome.reference, h3', h7, h8, h9]
          cases h10 : env.finalExists
          · simp only [h7, h8, h9, h10, Bool.not_true, Bool.not_false, Bool.false_eq_true, Bool.and_self,
              Bool.and_true, Bool.and_false, Bool.true_and, Bool.false_and, if_false, if_true] at hrun
            subst hrun
            simp [hd1, hd2, hd3, hd4, VoiceOutcome.reference, h3', h7, h8, h9, h10]
          cases h11 : env.readOk
          · simp only [h7, h8, h9, h10, h11, Bool.not_true, Bool.not_false, Bool.false_eq_true, Bool.and_self,
              Bool.and_true, Bool.and_false, Bool.true_and, Bool.false_and, if_false, if_true] at hrun
            subst hrun
            simp [hd1, hd2, hd3, hd4, VoiceOutcome.reference, h3', h7, h8, h9, h10, h11]
          cases h12 : env.uploadOk
          · simp only [h7, h8, h9, h10, h11, h12, Bool.not_true, Bool.not_false, Bool.false_eq_true, Bool.and_self,
              Bool.and_true, Bool.and_false, Bool.true_and, Bool.false_and, if_false, if_true] at hrun
            subst hrun
            simp [hd1, hd2, hd3, hd4, VoiceOutcome.reference, h3', h7, h8, h9, h10, h11, h12]
          cases h13 : env.uploadedVoice
          · simp only [h7, h8, h9, h10, h11, h12, h13, Bool.not_true, Bool.not_false, Bool.false_eq_true, Bool.and_self,
              Bool.and_true, Bool.and_false, Bool.true_and, Bool.false_and, if_false, if_true] at hrun
            subst hrun
            simp [hd1, hd2, hd3, hd4, VoiceOutcome.reference, h3', h7, h8, h9, h10, h11, h12, h13]
          · simp only [h7, h8, h9, h10, h11, h12, h13, Bool.not_true, Bool.not_false, Bool.false_eq_true, Bool.and_self,
              Bool.and_true, Bool.and_false, Bool.true_and, Bool.false_and, if_false, if_true] at hrun
            subst hrun
            simp [hd1, hd2, hd3, hd4, VoiceOutcome.reference, h3', h7, h8, h9, h10, h11, h12, h13]
      · cases h9 : env.encodeOk
        · simp only [h7, h9, Bool.not_true, Bool.not_false, Bool.false_eq_true, Bool.and_self,
            Bool.and_true, Bool.and_false, Bool.true_and, Bool.false_and, if_false, if_true] at hrun
          subst hrun
          simp [hd1, hd2, hd3, hd4, VoiceOutcome.reference, h3', h7, h9]
        cases h10 : env.finalExists
        · simp only [h7, h9, h10, Bool.not_true, Bool.not_false, Bool.false_eq_true, Bool.and_self,
            Bool.and_true, Bool.and_false, Bool.true_and, Bool.false_and, if_false, if_true] at hrun
          subst hrun
          simp [hd1, hd2, hd3, hd4, VoiceOutcome.reference, h3', h7, h9, h10]
        cases h11 : env.readOk
        · simp only [h7, h9, h10, h11, Bool.not_true, Bool.not_false, Bool.false_eq_true, Bool.and_self,
            Bool.and_true, Bool.and_false, Bool.true_and, Bool.false_and, if_false, if_true] at hrun
          subst hrun
          simp [hd1, hd2, hd3, hd4, VoiceOutcome.reference, h3', h7, h9, h10, h11]
        cases h12 : env.uploadOk
        · simp only [h7, h9, h10, h11, h12, Bool.not_true, Bool.not_false, Bool.false_eq_true, Bool.and_self,
            Bool.and_true, Bool.and_false, Bool.true_and, Bool.false_and, if_false, if_true] at hrun
          subst hrun
          simp [hd1, hd2, hd3, hd4, VoiceOutcome.reference, h3', h7, h9, h10, h11, h12]
        cases h13 : env.uploadedVoice
        · simp only [h7, h9, h10, h11, h12, h13, Bool.not_true, Bool.not_false, Bool.false_eq_true, Bool.and_self,
            Bool.and_true, Bool.and_false, Bool.true_and, Bool.false_and, if_false, if_true] at hrun
          subst hrun
          simp [hd1, hd2, hd3, hd4, VoiceOutcome.reference, h3', h7, h9, h10, h11, h12, h13]
        · simp only [h7, h9, h10, h11, h12, h13, Bool.not_true, Bool.not_false, Bool.false_eq_true, Bool.and_self,
            Bool.and_true, Bool.and_false, Bool.true_and, Bool.false_and, if_false, if_true] at hrun
          subst hrun
          simp [hd1, hd2, hd3, hd4, VoiceOutcome.reference, h3', h7, h9, h10, h11, h12, h13]

theorem anonymizeVoice_success_only_if_all_stages_witness :
    VoiceCommand.normalize ∈ (anonymizeVoice voiceEnvNormalizeFails "male").commands ∧
    voiceEnvNormalizeFails.normalizeOk = false ∧
    (anonymizeVoice voiceEnvNormalizeFails "male").outcome =
      VoiceOutcome.error VoiceError.normalize ∧
    (anonymizeVoice voiceEnvAllOk "male").outcome = VoiceOutcome.ok "anon-voice-1" ∧
    voiceEnvAllOk.uploadedVoice = some "anon-voice-1" :=
  ⟨by decide, rfl,
    ((anonymizeVoice_success_only_if_all_stages voiceEnvNormalizeFails "male").2.1
      (by decide) rfl).1,
    by decide,
    ((anonymizeVoice_success_only_if_all_stages voiceEnvAllOk "male").1 "anon-voice-1"
      (by decide)).2.2.2.2.2.2⟩

/-- C27 (failing input): A (id 1) is paired with B (id 2) and B has no report;
A files a report against B and the insert into `reports` fails.  The handler
answers "Error saving report" and bans nobody, but B's in-memory counter is 1
after the call where it was 0 before: the increment made before the insert is
not undone. -/
theorem handleReportReasonCallback_failed_insert_keeps_increment :
    scenarioPaired.pairs 1 =
      some { PartnerID := 2, PartnerUsername := "beth", PartnerName := "Beth" } ∧
    scenarioPaired.reports 2 = 0 ∧
    (handleReportReasonCallback scenarioPaired reportPartsB 2 1 1 false).1.reports 2 = 1 ∧
    (handleReportReasonCallback scenarioPaired reportPartsB 2 1 1 false).2 =
      [{ chat := 1, notice := Notice.callbackErrorSaving }] ∧
    (handleReportReasonCallback scenarioPaired reportPartsB 2 1 1 false).1.db.reports = [] ∧
    isBanned (handleReportReasonCallback scenarioPaired reportPartsB 2 1 1 false).1.db 2 =
      false ∧
    (handleReportReasonCallback scenarioPaired reportPartsB 2 1 1 false).1.pairs 2 =
      some { PartnerID := 1, PartnerUsername := "adam", PartnerName := "Adam" } := by
  decide

/-- C30: in every state the session engine can reach, for a session at the
preferred-age step and every input text, a stored `pref_age_min` is an int, so
the type assertion of `handleProfilePrefAge` succeeds: the handler returns, and
so does `handleUserState`, which dispatches to it. -/
theorem handleProfilePrefAge_assertion_succeeds (s : State) (hs : FlowReachable s)
    (u c : Int) (st : UserState) (hst : s.userStates u = some st)
    (hstep : st.Step = "profile_pref_age") (text : String) :
    (∀ stored, st.Data DataKey.pref_age_min = some stored → ∃ m, stored = Value.int m) ∧
    (∃ r, handleProfilePrefAge s u c text = some r) ∧
    (∀ now msg io uo, handleUserState now s u c msg io uo =
      handleProfilePrefAge s u c msg.text) := by
  have hinv : SessionInv st := sessionsInv_reachable s hs u st hst
  refine ⟨?_, ?_, ?_⟩
  · intro stored hstored
    have h4 : profileStage st.Step = some 4 := by rw [hstep]; decide
    obtain ⟨m, hm, _⟩ := (hinv 4 h4).2.1 stored hstored
    exact ⟨m, hm⟩
  · obtain ⟨r, hr, _⟩ := handleProfilePrefAge_shape s u c text st hst hstep hinv
    exact ⟨r, hr⟩
  · intro now msg io uo
    unfold handleUserState
    rw [hst]
    simp [hstep]

theorem handleProfilePrefAge_assertion_succeeds_witness :
    flowMin.userStates 4 = some flowMinSession ∧
    flowMinSession.Step = "profile_pref_age" ∧
    ((∀ stored, flowMinSession.Data DataKey.pref_age_min = some stored →
        ∃ m, stored = Value.int m) ∧
      (∃ r, handleProfilePrefAge flowMin 4 4 "thirty" = some r) ∧
      (∀ now msg io uo, handleUserState now flowMin 4 4 msg io uo =
        handleProfilePrefAge flowMin 4 4 msg.text)) :=
  ⟨flowMin_session, flowMinSession_step,
    handleProfilePrefAge_assertion_succeeds flowMin flowMin_reachable 4 4 flowMinSession
      flowMin_session flowMinSession_step "thirty"⟩

/-- C26: for every state, sweep time and user, `cleanupOldStates` deletes the
user's session together with the pending confession entry when the session's
inactivity `now - LastActive` exceeds 30 minutes, keeps the session and the
entry as they are when the inactivity is at most 30 minutes, creates no session,
and changes nothing else. -/
theorem cleanupOldStates_removes_exactly_expired (now : Int) (b : Bot) (u : Int) :
    (∀ st, b.core.userStates u = some st → now - st.LastActive > thirtyMinutes →
      (cleanupOldStates now b).core.userStates u = none ∧
      (cleanupOldStates now b).confessionWaiting u = none) ∧
    (∀ st, b.core.userStates u = some st → now - st.LastActive ≤ thirtyMinutes →
      (cleanupOldStates now b).core.userStates u = some st ∧
      (cleanupOldStates now b).confessionWaiting u = b.confessionWaiting u) ∧
    (b.core.userStates u = none →
      (cleanupOldStates now b).core.userStates u = none ∧
      (cleanupOldStates now b).confessionWaiting u = b.confessionWaiting u) ∧
    (cleanupOldStates now b).core.pairs = b.core.pairs ∧
    (cleanupOldStates now b).core.waitingUser = b.core.waitingUser ∧
    (cleanupOldStates now b).core.reports = b.core.reports ∧
    (cleanupOldStates now b).commentWaiting = b.commentWaiting := by
  refine ⟨?_, ?_, ?_, rfl, rfl, rfl, rfl⟩
  · intro st hst hold
    simp [cleanupOldStates, hst, hold]
  · intro st hst hyoung
    have h : ¬ (thirtyMinutes < now - st.LastActive) := not_lt.mpr hyoung
    simp [cleanupOldStates, hst, h]
  · intro hnone
    simp [cleanupOldStates, hnone]

theorem cleanupOldStates_removes_exactly_expired_witness :
    ((cleanupOldStates (thirtyMinutes + 1) botTwoSessions).core.userStates 4 = none ∧
      (cleanupOldStates (thirtyMinutes + 1) botTwoSessions).confessionWaiting 4 = none) ∧
    ((cleanupOldStates (thirtyMinutes + 1) botTwoSessions).core.userStates 5 =
        some { Step := "admin_contact", Data := fun _ => none, LastActive := 1 } ∧
      (cleanupOldStates (thirtyMinutes + 1) botTwoSessions).confessionWaiting 5 =
        some "voice") :=
  ⟨(cleanupOldStates_removes_exactly_expired (thirtyMinutes + 1) botTwoSessions 4).1
      { Step := "idle", Data := fun _ => none, LastActive := 0 } rfl (by decide),
    (cleanupOldStates_removes_exactly_expired (thirtyMinutes + 1) botTwoSessions 5).2.1
      { Step := "admin_contact", Data := fun _ => none, LastActive := 1 } rfl (by decide)⟩

/-- C25 (failing input): user 4 writes to the admins at time 0 and again eight
days later; each message sets `admin_contact_allowed` to 0.  The sweep that
runs ten minutes after the second message finds the row of the first message,
which is older than seven days, and sets the flag back to 1: `canContactAdmin`
is true and `startAdminContact` puts the user into step `admin_contact`,
although the most recent message was recorded ten minutes before. -/
theorem startAdminContact_admits_after_recent_contact :
    canContactAdmin contactFirst.db 4 = false ∧
    canContactAdmin contactSecond.db 4 = false ∧
    lastAdminContact contactSweptAgain.db 4 = some (8 * oneDay) ∧
    (8 * oneDay + 600 * oneSecond) - 8 * oneDay < 7 * oneDay ∧
    canContactAdmin contactSweptAgain.db 4 = true ∧
    (startAdminContact (8 * oneDay + 600 * oneSecond) contactSweptAgain 4 4).2 =
      [{ chat := 4, notice := Notice.adminContactPrompt }] ∧
    ((startAdminContact (8 * oneDay + 600 * oneSecond) contactSweptAgain 4 4).1.userStates
      4).map (fun st => st.Step) = some "admin_contact" := by
  decide

/-- C29 (failing input): on the 48000 Hz clip that the normalize stage writes,
the fallback filter chain changes the duration by the factor 48000/44100 =
160/147 for both ratios, 0.85 and 1.15; the factor is 1 only for a clip of
44100 Hz. -/
theorem fallbackDuration_at_normalized_rate :
    fallbackDuration normalizedRate (85 / 100) = 160 / 147 ∧
    fallbackDuration normalizedRate (115 / 100) = 160 / 147 ∧
    fallbackDuration normalizedRate (85 / 100) ≠ 1 ∧
    fallbackDuration normalizedRate (115 / 100) ≠ 1 ∧
    fallbackDuration 44100 (85 / 100) = 1 ∧
    fallbackDuration 44100 (115 / 100) = 1 := by
  norm_num [fallbackDuration, normalizedRate, asetrateDuration, atempoDuration]

/-- C23 (failing input): A (id 1), paired with B (id 2), sends a voice note of
twelve seconds whose file id is "raw-voice-1".  When a stage of
`anonymizeVoice` fails (here the normalization), and likewise when A's gender
cannot be read, B receives the voice note with A's original file id, followed
by the tip that voice messages are anonymized; only when the run succeeds does
B receive the id the run returned. -/
theorem handleBlindChatMessage_forwards_original_voice :
    scenarioPaired.pairs 1 = some partnerOfA ∧
    (anonymizeVoice voiceEnvNormalizeFails "male").outcome =
      VoiceOutcome.error VoiceError.normalize ∧
    handleBlindChatMessage scenarioStore voiceEnvNormalizeFails 1 partnerOfA voiceNote =
      some [{ chat := 2, item := ChatItem.voice "raw-voice-1" "beth" },
            { chat := 2, item := ChatItem.voiceTip }] ∧
    getUserGender scenarioStoreNoGender 1 = none ∧
    handleBlindChatMessage scenarioStoreNoGender voiceEnvAllOk 1 partnerOfA voiceNote =
      some [{ chat := 2, item := ChatItem.voice "raw-voice-1" "beth" },
            { chat := 2, item := ChatItem.voiceTip }] ∧
    handleBlindChatMessage scenarioStore voiceEnvAllOk 1 partnerOfA voiceNote =
      some [{ chat := 2, item := ChatItem.voice "anon-voice-1" "beth" },
            { chat := 2, item := ChatItem.voiceTip }] := by
  decide

/-- C24 (failing input): while a text confession is awaited from user 4, the
text "привет" arrives.  It has 6 characters, fewer than 10, but its UTF-8
encoding has 12 bytes and `len` counts bytes: the text is persisted, handed to
the moderation group and the waiting state is cleared.  The ASCII text "hello!",
also of 6 characters, is rejected as too short and the user keeps waiting. -/
theorem confessionContent_accepts_six_characters :
    botAwaitsText.confessionWaiting 4 = some "text" ∧
    (flowText "привет").text ≠ cancelToken ∧
    "привет".length = 6 ∧
    len "привет" = 12 ∧
    (confessionContent botAwaitsText 4 4 (flowText "привет") "text" true).2 =
      [{ chat := adminGroupID
         notice := ConfessionNotice.newTextConfession 1 4 "привет" },
       { chat := 4, notice := ConfessionNotice.submitted "text" }] ∧
    (confessionContent botAwaitsText 4 4 (flowText "привет") "text" true).1.core.db.confessions =
      [{ id := 1, user_id := 4, text := "привет", type := "text" }] ∧
    (confessionContent botAwaitsText 4 4 (flowText "привет") "text" true).1.confessionWaiting 4 =
      none ∧
    "hello!".length = 6 ∧
    (confessionContent botAwaitsText 4 4 (flowText "hello!") "text" true).2 =
      [{ chat := 4, notice := ConfessionNotice.tooShort }] ∧
    (confessionContent botAwaitsText 4 4 (flowText "hello!") "text" true).1.confessionWaiting 4 =
      some "text" := by
  decide

theorem digitChar_toNat (k : Nat) (h : k < 10) : (Nat.digitChar k).toNat = 48 + k := by
  interval_cases k <;> rfl

theorem toDigitsCore_spec (fuel : Nat) : ∀ (n : Nat) (acc : List Char), n < fuel →
    ∃ ds, Nat.toDigitsCore 10 fuel n acc = ds ++ acc ∧ ds ≠ [] ∧
      (∀ c ∈ ds, 48 ≤ c.toNat ∧ c.toNat ≤ 57) ∧
      ds.foldl (fun a c => 10 * a + (c.toNat - 48)) 0 = n := by
  induction fuel with
  | zero => intro n acc h; omega
  | succ fuel ih =>
    intro n acc h
    have hd : (Nat.digitChar (n % 10)).toNat = 48 + n % 10 :=
      digitChar_toNat (n % 10) (Nat.mod_lt n (by decide))
    have hm : n % 10 < 10 := Nat.mod_lt n (by decide)
    unfold Nat.toDigitsCore
    by_cases h0 : n / 10 = 0
    · simp only [h0, if_true]
      refine ⟨[Nat.digitChar (n % 10)], rfl, by simp, ?_, ?_⟩
      · intro c hc
        rw [List.mem_singleton] at hc
        subst hc
        omega
      · simp only [List.foldl_cons, List.foldl_nil, hd]
        omega
    · simp only [h0, if_false]
      obtain ⟨ds, h1, h2, h3, h4⟩ := ih (n / 10) (Nat.digitChar (n % 10) :: acc) (by omega)
      refine ⟨ds ++ [Nat.digitChar (n % 10)], ?_, by simp, ?_, ?_⟩
      · rw [h1]; simp
      · intro c hc
        rw [List.mem_append, List.mem_singleton] at hc
        rcases hc with hc | hc
        · exact h3 c hc
        · subst hc
          omega
      · rw [List.foldl_append, h4]
        simp only [List.foldl_cons, List.foldl_nil, hd]
        omega

theorem toDigits_spec (m : Nat) :
    ∃ d ds, Nat.toDigits 10 m = d :: ds ∧
      (∀ c ∈ d :: ds, 48 ≤ c.toNat ∧ c.toNat ≤ 57) ∧
      (d :: ds).foldl (fun a c => 10 * a + (c.toNat - 48)) 0 = m := by
  obtain ⟨ds, h1, h2, h3, h4⟩ := toDigitsCore_spec (m + 1) m [] (Nat.lt_succ_self m)
  rw [List.append_nil] at h1
  cases ds with
  | nil => exact absurd rfl h2
  | cons d ds => exact ⟨d, ds, h1, h3, h4⟩

theorem Atoi_digits (d : Char) (ds : List Char) (m : Nat)
    (hall : ∀ c ∈ d :: ds, 48 ≤ c.toNat ∧ c.toNat ≤ 57)
    (hval : (d :: ds).foldl (fun a c => 10 * a + (c.toNat - 48)) 0 = m)
    (hr : (m : Int) ≤ 9223372036854775807) :
    Atoi (String.mk (d :: ds)) = some (m : Int) := by
  have hd := hall d (List.mem_cons_self d ds)
  have h1 : d ≠ '-' := by
    intro h
    rw [h] at hd
    exact absurd hd (by decide)
  have h2 : d ≠ '+' := by
    intro h
    rw [h] at hd
    exact absurd hd (by decide)
  have hall' : (d :: ds).all (fun c => decide (48 ≤ c.toNat ∧ c.toNat ≤ 57)) = true := by
    rw [List.all_eq_true]
    intro c hc
    exact decide_eq_true (hall c hc)
  unfold Atoi
  simp only [String.toList, List.head?, Option.some.injEq, h1, h2, or_self, if_false]
  rw [if_neg (List.cons_ne_nil d ds), if_pos hall', hval]
  have hlo : (-9223372036854775808 : Int) ≤ (m : Int) := by omega
  simp [hlo, hr]

theorem Atoi_neg_digits (d : Char) (ds : List Char) (m : Nat)
    (hall : ∀ c ∈ d :: ds, 48 ≤ c.toNat ∧ c.toNat ≤ 57)
    (hval : (d :: ds).foldl (fun a c => 10 * a + (c.toNat - 48)) 0 = m)
    (hr : (m : Int) ≤ 9223372036854775808) :
    Atoi (String.mk ('-' :: d :: ds)) = some (-(m : Int)) := by
  have hall' : (d :: ds).all (fun c => decide (48 ≤ c.toNat ∧ c.toNat ≤ 57)) = true := by
    rw [List.all_eq_true]
    intro c hc
    exact decide_eq_true (hall c hc)
  unfold Atoi
  simp only [String.toList, List.head?, true_or, if_true, List.tail_cons]
  rw [if_neg (List.cons_ne_nil d ds), if_pos hall', hval]
  have hhi : -(m : Int) ≤ 9223372036854775807 := by omega
  have hlo : (-9223372036854775808 : Int) ≤ -(m : Int) := by omega
  simp [hlo, hhi]

theorem Atoi_formatInt (n : Int) (hlo : -9223372036854775808 ≤ n)
    (hhi : n ≤ 9223372036854775807) : Atoi (formatInt n) = some n := by
  cases n with
  | ofNat m =>
    obtain ⟨d, ds, h1, h2, h3⟩ := toDigits_spec m
    unfold formatInt
    simp only [h1]
    exact Atoi_digits d ds m h2 h3 (by simpa using hhi)
  | negSucc m =>
    obtain ⟨d, ds, h1, h2, h3⟩ := toDigits_spec (m + 1)
    unfold formatInt
    simp only [h1]
    have h := Atoi_neg_digits d ds (m + 1) h2 h3 (by rw [Int.negSucc_eq] at hlo; omega)
    rw [h, Int.negSucc_eq]
    simp
theorem len_pos (s : String) (h : s.toList ≠ []) : 0 < len s := by
  obtain ⟨cs⟩ := s
  cases cs with
  | nil => exact absurd rfl h
  | cons c cs =>
    unfold len
    rw [String.utf8ByteSize_mk, String.utf8Len_cons]
    have := Char.utf8Size_pos c
    omega

theorem HasPrefix_append (p s : String) : HasPrefix (p ++ s) p = true := by
  unfold HasPrefix
  simp [String.toList]

theorem TrimPrefix_append (p s : String) : TrimPrefix (p ++ s) p = s := by
  unfold TrimPrefix
  rw [if_pos (HasPrefix_append p s)]
  simp [String.toList]

theorem HasPrefix_view_comment (s : String) : HasPrefix ("view" ++ s) "comment" = false := by
  unfold HasPrefix
  have h1 : "view".toList = ['v', 'i', 'e', 'w'] := by decide
  have h2 : "comment".toList = ['c', 'o', 'm', 'm', 'e', 'n', 't'] := by decide
  have h3 : ("view" ++ s).toList = "view".toList ++ s.toList := String.data_append _ _
  rw [h3, h1, h2]
  rfl

theorem Atoi_of_not_integer (s : String) (h : isIntegerText s = false) : Atoi s = none := by
  obtain ⟨cs⟩ := s
  unfold isIntegerText at h
  unfold Atoi
  simp only [String.toList] at h ⊢
  cases cs with
  | nil => simp
  | cons c cs =>
    by_cases h1 : c = '-'
    · subst h1
      simp only [List.head?, true_or, if_true, List.tail_cons] at h ⊢
      by_cases h3 : cs = []
      · simp [h3]
      · rw [if_neg h3]
        have h4 : cs.isEmpty = false := by
          cases cs with
          | nil => exact absurd rfl h3
          | cons _ _ => rfl
        rw [h4] at h
        simp only [Bool.not_false, Bool.true_and] at h
        simp only [h, Bool.false_eq_true, if_false]
    · by_cases h2 : c = '+'
      · subst h2
        simp only [List.head?, Option.some.injEq, or_true, if_true, List.tail_cons] at h ⊢
        by_cases h3 : cs = []
        · simp [h3]
        · rw [if_neg h3]
          have h4 : cs.isEmpty = false := by
            cases cs with
            | nil => exact absurd rfl h3
            | cons _ _ => rfl
          rw [h4] at h
          simp only [Bool.not_false, Bool.true_and] at h
          simp only [h, Bool.false_eq_true, if_false]
      · have h5 : (match (c :: cs : List Char) with
            | '-' :: rest => rest
            | '+' :: rest => rest
            | cs => cs) = c :: cs := by
          split
          · rename_i heq; exact absurd (List.cons.inj heq).1 h1
          · rename_i heq; exact absurd (List.cons.inj heq).1 h2
          · rfl
        rw [h5] at h
        simp only [List.isEmpty_cons, Bool.not_false, Bool.true_and] at h
        simp only [List.head?, Option.some.injEq, h1, h2, or_self, if_false]
        rw [if_neg (List.cons_ne_nil c cs)]
        simp only [h, Bool.false_eq_true, if_false]
theorem append_start (a p f : String) (q : String) (hq : q = "?start=" ++ p) :
    a ++ q ++ f = a ++ "?start=" ++ (p ++ f) := by
  subst hq
  simp only [String.append_assoc]

/-- C28 (amended): for a user whose gender is set and every confession id `n` of
the range of a Go `int`, the link of the comment button carries the start parameter
"comment" followed by the decimal of `n`, which `handleStartCommand` parses back
to `n` and passes to `handleCommentDeepLink`; the link of the view button
carries "view" followed by the decimal of `n`, parsed back to `n` and passed to
`handleViewCommentsDeepLink`; and a parameter "comment" or "view" followed by a
suffix that is not an integer reaches neither handler but the welcome message. -/
theorem handleStartCommand_deep_link_round_trip (db : Store) (userID : Int)
    (botUsername : String) (n : Int) (hg : hasGenderSet db userID = true)
    (hlo : -9223372036854775808 ≤ n) (hhi : n ≤ 9223372036854775807) :
    commentURL botUsername n =
      "https://t.me/" ++ botUsername ++ "?start=" ++ commentParameter n ∧
    viewCommentsURL botUsername n =
      "https://t.me/" ++ botUsername ++ "?start=" ++ viewParameter n ∧
    handleStartCommand db userID (commentParameter n) = StartRoute.handleCommentDeepLink n ∧
    handleStartCommand db userID (viewParameter n) = StartRoute.handleViewCommentsDeepLink n ∧
    (∀ suffix, isIntegerText suffix = false →
      handleStartCommand db userID ("comment" ++ suffix) =
        StartRoute.sendEnhancedWelcomeMessage ∧
      handleStartCommand db userID ("view" ++ suffix) =
        StartRoute.sendEnhancedWelcomeMessage) := by
  have hc : ∀ s : String, ("comment" ++ s).toList ≠ [] := by
    intro s h
    have h3 : ("comment" ++ s).toList = "comment".toList ++ s.toList := String.data_append _ _
    rw [h3] at h
    exact absurd (List.append_eq_nil.mp h).1 (by decide)
  have hv : ∀ s : String, ("view" ++ s).toList ≠ [] := by
    intro s h
    have h3 : ("view" ++ s).toList = "view".toList ++ s.toList := String.data_append _ _
    rw [h3] at h
    exact absurd (List.append_eq_nil.mp h).1 (by decide)
  refine ⟨?_, ?_, ?_, ?_, ?_⟩
  · unfold commentURL commentParameter
    exact append_start _ "comment" _ "?start=comment" (by decide)
  · unfold viewCommentsURL viewParameter
    exact append_start _ "view" _ "?start=view" (by decide)
  · unfold handleStartCommand commentParameter
    rw [hg]
    simp only [Bool.not_true, Bool.false_eq_true, if_false]
    rw [if_pos (len_pos _ (hc _)), if_pos (HasPrefix_append _ _), TrimPrefix_append,
      Atoi_formatInt n hlo hhi]
    rfl
  · unfold handleStartCommand viewParameter
    rw [hg]
    simp only [Bool.not_true, Bool.false_eq_true, if_false]
    rw [if_pos (len_pos _ (hv _)), HasPrefix_view_comment, if_neg (by decide),
      if_pos (HasPrefix_append _ _), TrimPrefix_append, Atoi_formatInt n hlo hhi]
    rfl
  · intro suffix hs
    have ha := Atoi_of_not_integer suffix hs
    constructor
    · unfold handleStartCommand
      rw [hg]
      simp only [Bool.not_true, Bool.false_eq_true, if_false]
      rw [if_pos (len_pos _ (hc _)), if_pos (HasPrefix_append _ _), TrimPrefix_append, ha]
      rfl
    · unfold handleStartCommand
      rw [hg]
      simp only [Bool.not_true, Bool.false_eq_true, if_false]
      rw [if_pos (len_pos _ (hv _)), HasPrefix_view_comment, if_neg (by decide),
        if_pos (HasPrefix_append _ _), TrimPrefix_append, ha]
      rfl

theorem handleStartCommand_deep_link_round_trip_witness :
    hasGenderSet flowStore 4 = true ∧
    commentParameter 42 = "comment42" ∧
    viewParameter 42 = "view42" ∧
    isIntegerText "4x" = false ∧
    (commentURL "confess_bot" 42 =
        "https://t.me/" ++ "confess_bot" ++ "?start=" ++ commentParameter 42 ∧
      viewCommentsURL "confess_bot" 42 =
        "https://t.me/" ++ "confess_bot" ++ "?start=" ++ viewParameter 42 ∧
      handleStartCommand flowStore 4 (commentParameter 42) =
        StartRoute.handleCommentDeepLink 42 ∧
      handleStartCommand flowStore 4 (viewParameter 42) =
        StartRoute.handleViewCommentsDeepLink 42 ∧
      (∀ suffix, isIntegerText suffix = false →
        handleStartCommand flowStore 4 ("comment" ++ suffix) =
          StartRoute.sendEnhancedWelcomeMessage ∧
        handleStartCommand flowStore 4 ("view" ++ suffix) =
          StartRoute.sendEnhancedWelcomeMessage)) :=
  ⟨by decide, by decide, by decide, by decide,
    handleStartCommand_deep_link_round_trip flowStore 4 "confess_bot" 42 (by decide)
      (by decide) (by decide)⟩

/-- C12 (failing input): A (id 1) is paired with B (id 2) and B's counter is 2;
A files a report against B and the insert into `reports` fails.  The filing
brings the counter to 3, yet B is not banned, A and B are still paired, and the
only message is the callback answer "Error saving report": neither the partner
nor the moderation group is notified. -/
theorem handleReportReasonCallback_third_filing_unstored :
    scenarioTwoReports.pairs 1 =
      some { PartnerID := 2, PartnerUsername := "beth", PartnerName := "Beth" } ∧
    scenarioTwoReports.reports 2 = 2 ∧
    (handleReportReasonCallback scenarioTwoReports reportPartsB 2 1 1 false).1.reports 2 = 3 ∧
    isBanned (handleReportReasonCallback scenarioTwoReports reportPartsB 2 1 1 false).1.db 2 =
      false ∧
    (handleReportReasonCallback scenarioTwoReports reportPartsB 2 1 1 false).1.pairs 2 =
      some { PartnerID := 1, PartnerUsername := "adam", PartnerName := "Adam" } ∧
    (handleReportReasonCallback scenarioTwoReports reportPartsB 2 1 1 false).1.pairs 1 =
      some { PartnerID := 2, PartnerUsername := "beth", PartnerName := "Beth" } ∧
    (handleReportReasonCallback scenarioTwoReports reportPartsB 2 1 1 false).2 =
      [{ chat := 1, notice := Notice.callbackErrorSaving }] := by
  decide

/-- C28 fails as stated: user 9, who has not chosen a gender, opens the comment
link of confession 42.  `handleMessage` answers with the gender prompt before
the command is looked at, and `handleStartCommand` itself answers a user
without gender with `sendGenderSelection` for the comment parameter and for the
view parameter: neither flow is opened. -/
theorem handleStartCommand_no_gender_counterexample :
    hasGenderSet visitorStore 9 = false ∧
    commentParameter 42 = "comment42" ∧
    handleStartCommand visitorStore 9 (commentParameter 42) = StartRoute.sendGenderSelection ∧
    handleStartCommand visitorStore 9 (viewParameter 42) = StartRoute.sendGenderSelection ∧
    (handleMessage 0 botBeforeVisitor startCommentMessage true true true).sent? =
      some [{ chat := 9, notice := Notice.genderSelectionPrompt }] := by
  decide

end ConfessionBot
